import Mathlib

/-!
Verification development for the Medusa configuration API handler
(`medusa/server/api/v2/config.py`).

The handler exposes `GET /config[/{section}[/{path_param}]]` and
`PATCH /config/{identifier}` over a process-wide configuration store.  The
write side is driven by a declarative table mapping dotted configuration
paths to Field descriptors; the read side is a family of per-section data
producers.

Embedding conventions:
* JSON scalar values are `Json`; nested JSON trees are `NTree` (a leaf or a
  mapping represented as an association list in insertion order, matching
  Python dict semantics of the source).
* A dotted path `"a.b.c"` is represented by its list of segments
  `["a", "b", "c"]`.  This is faithful for keys that do not contain a dot,
  which is the contract of the path codec.
* The configuration store (the `app` module object) is `AppState`: a total
  map from attribute name to `Json` plus the metadata provider registry.
* Code of the repository that lives outside this file source
  (`medusa/server/api/v2/base.py`, `medusa/helper/mappings.py`, and the
  external collaborators `config.change_theme`, `Quality`, the persistence
  and WebSocket layers) is modelled from the spec; each such definition
  carries a doc comment starting with `Modelled from the spec:`.
-/

set_option maxRecDepth 100000

/-- A decoded JSON scalar or array value, as produced by `json_decode`. -/
inductive Json where
  | null : Json
  | bool (b : Bool) : Json
  | int (n : Int) : Json
  | str (s : String) : Json
  | arr (xs : List Json) : Json

/-- Python truthiness of a JSON value (`bool(v)`). -/
def truthy : Json → Bool
  | .null => false
  | .bool b => b
  | .int n => n != 0
  | .str s => !(s.isEmpty)
  | .arr xs => !xs.isEmpty

/-- Modelled from the spec: integer coercion (`int(candidate)`), rejecting
(`none`, an exception in the source) on values Python cannot coerce. -/
def intCoerce : Json → Option Json
  | .int n => some (.int n)
  | .bool b => some (.int (if b then 1 else 0))
  | .str s => (s.toInt?).map Json.int
  | _ => none

mutual
/-- Structural equality test for `Json` (written by hand because the
constructor for arrays nests a list). -/
def Json.beq : Json → Json → Bool
  | .null, .null => true
  | .bool a, .bool b => a == b
  | .int a, .int b => a == b
  | .str a, .str b => a == b
  | .arr xs, .arr ys => Json.beqL xs ys
  | _, _ => false

/-- Pointwise equality test for JSON arrays. -/
def Json.beqL : List Json → List Json → Bool
  | [], [] => true
  | a :: as, b :: bs => Json.beq a b && Json.beqL as bs
  | _, _ => false
end

/-- A nested JSON tree: either a leaf value or a mapping from string keys to
subtrees, kept in insertion order like a Python dict. -/
inductive NTree where
  | leaf (v : Json) : NTree
  | node (cs : List (String × NTree)) : NTree

/-- The empty mapping (`{}`). -/
def emptyT : NTree := .node []

/-- Python truthiness of a tree (`bool(value)`): a leaf is as truthy as its
value, a mapping is truthy iff non-empty. -/
def truthyT : NTree → Bool
  | .leaf v => truthy v
  | .node cs => !cs.isEmpty

/-- First binding of key `k` in an association list (Python `d.get(k)` /
`d[k]`). -/
def assocGet (cs : List (String × NTree)) (k : String) : Option NTree :=
  match cs with
  | [] => none
  | (k1, t) :: rest => if k1 = k then some t else assocGet rest k

/-- `d[k] = v` on an association list: replace the first binding of `k` in
place, or append a new binding, exactly as a Python dict assignment. -/
def assocSet (cs : List (String × NTree)) (k : String) (v : NTree) :
    List (String × NTree) :=
  match cs with
  | [] => [(k, v)]
  | (k1, t) :: rest => if k1 = k then (k, v) :: rest else (k1, t) :: assocSet rest k v

/-- `d.pop(k)`: remove the first binding of `k`. -/
def assocRemove (cs : List (String × NTree)) (k : String) : List (String × NTree) :=
  match cs with
  | [] => []
  | (k1, t) :: rest => if k1 = k then rest else (k1, t) :: assocRemove rest k

/-- The keys of an association list. -/
def keysOf (cs : List (String × NTree)) : List String := cs.map Prod.fst

mutual
/-- Modelled from the spec: `iter_nested_items` of `base.py`, the flatten half
of the path codec.  Yields every leaf paired with its path of keys from the
root, in tree order; an empty sub-mapping yields nothing. -/
def flattenSeg : NTree → List (List String × Json)
  | .leaf v => [([], v)]
  | .node cs => flattenList cs

/-- Flatten the bindings of a mapping in order, prefixing each key. -/
def flattenList : List (String × NTree) → List (List String × Json)
  | [] => []
  | (k, c) :: rest =>
      (flattenSeg c).map (fun e => (k :: e.1, e.2)) ++ flattenList rest
end

/-- The leaf exactly at path `p`, if any: follows mapping keys along `p` and
returns the value only when the node reached is a leaf. -/
def lookupLeaf : NTree → List String → Option Json
  | .leaf v, [] => some v
  | .leaf _, _ :: _ => none
  | .node _, [] => none
  | .node cs, k :: rest =>
      match assocGet cs k with
      | some c => lookupLeaf c rest
      | none => none

/-- The subtree at path `p`, if any (leaf or mapping). -/
def getAt : NTree → List String → Option NTree
  | t, [] => some t
  | .leaf _, _ :: _ => none
  | .node cs, k :: rest =>
      match assocGet cs k with
      | some c => getAt c rest
      | none => none

/-- Modelled from the spec: `set_nested_value` of `base.py`, the unflatten
half of the path codec.  Walks or creates intermediate mappings for every
segment but the last and assigns the value under the final segment.  The
caller contract forbids a non-mapping on an intermediate segment; for
totality that unreachable case creates a fresh mapping. -/
def setNested (t : NTree) : List String → NTree → NTree
  | [], g => g
  | k :: rest, g =>
      match t with
      | .node cs => .node (assocSet cs k (setNested ((assocGet cs k).getD emptyT) rest g))
      | .leaf _ => .node [(k, setNested emptyT rest g)]

/-- Membership of a key among the binding keys of a mapping. -/
def keyMemB (k : String) : List (String × NTree) → Bool
  | [] => false
  | (k1, _) :: rest => k1 == k || keyMemB k rest

mutual
/-- Well-formedness of a tree as decoded from JSON: every mapping binds each
key at most once (Python dicts cannot hold duplicate keys). -/
def wfb : NTree → Bool
  | .leaf _ => true
  | .node cs => wfbL cs

/-- Well-formedness of the bindings of a mapping. -/
def wfbL : List (String × NTree) → Bool
  | [] => true
  | (k, c) :: rest => !keyMemB k rest && wfb c && wfbL rest
end

/-- The process-wide configuration store (the `app` module object): a total
map from attribute name to its current JSON value, plus the metadata
provider registry (`app.metadata_provider_dict`, each provider represented
by its `to_json()` image). -/
structure AppState where
  attrs : String → Json
  providers : List NTree

/-- Assignment `setattr(app, name, v)`. -/
def AppState.set (st : AppState) (name : String) (v : Json) : AppState :=
  { st with attrs := fun n => if n = name then v else st.attrs n }

/-- The external collaborators the handler calls into, modelled from the
spec as explicit function parameters: the quality validator, the theme
hot-swap routine (which may fail, `none` standing for a raised exception),
the structured metadata-provider field handler, the persistence outcome of
`app.instance.save_config()`, and the constant tables the read-side
producers copy from other modules (`ext` for scalars, `extT` for
dict-shaped constants). -/
structure Externs where
  isValidCombinedQuality : Json → Option Bool
  changeTheme : AppState → Json → Option AppState
  metaPatch : AppState → NTree → Option AppState
  saveOk : Bool
  ext : String → Json
  extT : String → NTree

/-- The value kind of a patchable field, fixing its default conversion. -/
inductive FieldKind where
  | string : FieldKind
  | boolean : FieldKind
  | integer : FieldKind
  | enum : FieldKind
  | list : FieldKind

/-- Modelled from the spec: the Field descriptor of `base.py`.  `attrName`
(the source calls it `attribute`, a reserved word here) names the property
on the configuration store; the optional behaviors are
the validator (predicate over the candidate, `none` result standing for a
raised exception), converter, setter (replacing plain assignment, `none`
result standing for a raised exception) and post-processor.  `members` and
`defaultVal` are meaningful for the enum kind only. -/
structure FieldDesc where
  attrName : String
  kind : FieldKind
  members : List Json := []
  defaultVal : Option Json := none
  validator : Option (AppState → Json → Option Bool) := none
  converter : Option (Json → Option Json) := none
  setter : Option (AppState → String → Json → Option AppState) := none
  postProcessor : Option (Json → AppState → AppState) := none

/-- `StringField(app, attr)`. -/
def mkS (attr : String) : FieldDesc := { attrName := attr, kind := .string }

/-- `BooleanField(app, attr)`. -/
def mkB (attr : String) : FieldDesc := { attrName := attr, kind := .boolean }

/-- `IntegerField(app, attr)`. -/
def mkI (attr : String) : FieldDesc := { attrName := attr, kind := .integer }

/-- `ListField(app, attr)`. -/
def mkL (attr : String) : FieldDesc := { attrName := attr, kind := .list }

/-- `bool` used as an explicit converter keyword argument. -/
def boolConv : Json → Option Json := fun v => some (.bool (truthy v))

/-- `layout_schedule_post_processor`: calendar layout should sort by date. -/
def layout_schedule_post_processor : Json → AppState → AppState :=
  fun v st => if Json.beq v (.str "calendar") then st.set "COMING_EPS_SORT" (.str "date") else st

/-- `theme_name_setter`: hot-swap theme by calling `config.change_theme`
on the candidate value, ignoring the container and attribute name. -/
def theme_name_setter (ext : Externs) : AppState → String → Json → Option AppState :=
  fun st _name value => ext.changeTheme st value

/-- `season_folders_validator`: reject turning season folders off while
`app.NAMING_FORCE_FOLDERS` is set. -/
def season_folders_validator : AppState → Json → Option Bool :=
  fun st value =>
    some (!(truthy (st.attrs "NAMING_FORCE_FOLDERS") && Json.beq value (.bool false)))

/-- The `lambda v: app.USE_SUBTITLES` validator of `showDefaults.subtitles`. -/
def subtitlesValidator : AppState → Json → Option Bool :=
  fun st _v => some (truthy (st.attrs "USE_SUBTITLES"))

/-- The `theme.name` entry: a StringField with `theme_name_setter`. -/
def themeNameField (ext : Externs) : FieldDesc :=
  { attrName := "THEME_NAME", kind := .string, setter := some (theme_name_setter ext) }

/-- The `showDefaults.quality` entry: an IntegerField validated by
`Quality.is_valid_combined_quality`. -/
def qualityDefaultField (ext : Externs) : FieldDesc :=
  { attrName := "QUALITY_DEFAULT", kind := .integer,
    validator := some (fun _st v => ext.isValidCombinedQuality v) }

/-- The `showDefaults.subtitles` entry. -/
def subtitlesDefaultField : FieldDesc :=
  { attrName := "SUBTITLES_DEFAULT", kind := .boolean,
    validator := some subtitlesValidator, converter := some boolConv }

/-- The `showDefaults.seasonFolders` entry. -/
def seasonFoldersDefaultField : FieldDesc :=
  { attrName := "SEASON_FOLDERS_DEFAULT", kind := .boolean,
    validator := some (fun st v => season_folders_validator st v), converter := some boolConv }

/-- The `layout.schedule` entry: an EnumField with a default value and a
post-processor. -/
def layoutScheduleField : FieldDesc :=
  { attrName := "COMING_EPS_LAYOUT", kind := .enum,
    members := [.str "poster", .str "banner", .str "list", .str "calendar"],
    defaultVal := some (.str "banner"),
    postProcessor := some layout_schedule_post_processor }

/-- The `layout.history` entry. -/
def layoutHistoryField : FieldDesc :=
  { attrName := "HISTORY_LAYOUT", kind := .enum,
    members := [.str "compact", .str "detailed"],
    defaultVal := some (.str "detailed") }

/-- The `layout.home` entry. -/
def layoutHomeField : FieldDesc :=
  { attrName := "HOME_LAYOUT", kind := .enum,
    members := [.str "poster", .str "small", .str "banner", .str "simple", .str "coverflow"],
    defaultVal := some (.str "poster") }

/-- The `showDefaults.status` entry: an EnumField over the status constants
`(SKIPPED, WANTED, IGNORED)` of `medusa.common` (external constants,
supplied through `ext`) with `int` as its conversion. -/
def statusDefaultField (ext : Externs) : FieldDesc :=
  { attrName := "STATUS_DEFAULT", kind := .enum,
    members := [ext.ext "SKIPPED", ext.ext "WANTED", ext.ext "IGNORED"],
    converter := some intCoerce }

/-- The `showDefaults.statusAfter` entry. -/
def statusDefaultAfterField (ext : Externs) : FieldDesc :=
  { attrName := "STATUS_DEFAULT_AFTER", kind := .enum,
    members := [ext.ext "SKIPPED", ext.ext "WANTED", ext.ext "IGNORED"],
    converter := some intCoerce }

/-- The `showDefaults.anime` entry. -/
def animeDefaultField : FieldDesc :=
  { attrName := "ANIME_DEFAULT", kind := .boolean, converter := some boolConv }

/-- The `showDefaults.scene` entry. -/
def sceneDefaultField : FieldDesc :=
  { attrName := "SCENE_DEFAULT", kind := .boolean, converter := some boolConv }

/-- The `ConfigHandler.patches` table: every patchable dotted path (as its
segment list) with its Field descriptor, in source order. -/
def patches (ext : Externs) : List (List String × FieldDesc) := [
    (["anonRedirect"], mkS "ANON_REDIRECT"),
    (["emby", "enabled"], mkB "USE_EMBY"),
    (["torrents", "authType"], mkS "TORRENT_AUTH_TYPE"),
    (["torrents", "dir"], mkS "TORRENT_DIR"),
    (["torrents", "enabled"], mkB "USE_TORRENTS"),
    (["torrents", "highBandwidth"], mkS "TORRENT_HIGH_BANDWIDTH"),
    (["torrents", "host"], mkS "TORRENT_HOST"),
    (["torrents", "label"], mkS "TORRENT_LABEL"),
    (["torrents", "labelAnime"], mkS "TORRENT_LABEL_ANIME"),
    (["torrents", "method"], mkS "TORRENT_METHOD"),
    (["torrents", "password"], mkS "TORRENT_PASSWORD"),
    (["torrents", "path"], mkB "TORRENT_PATH"),
    (["torrents", "paused"], mkB "TORRENT_PAUSED"),
    (["torrents", "rpcurl"], mkS "TORRENT_RPCURL"),
    (["torrents", "seedLocation"], mkS "TORRENT_SEED_LOCATION"),
    (["torrents", "seedTime"], mkS "TORRENT_SEED_TIME"),
    (["torrents", "username"], mkS "TORRENT_USERNAME"),
    (["torrents", "verifySSL"], mkB "TORRENT_VERIFY_CERT"),
    (["nzb", "enabled"], mkB "USE_NZBS"),
    (["nzb", "dir"], mkS "NZB_DIR"),
    (["nzb", "method"], mkS "NZB_METHOD"),
    (["nzb", "nzbget", "category"], mkS "NZBGET_CATEGORY"),
    (["nzb", "nzbget", "categoryAnime"], mkS "NZBGET_CATEGORY_ANIME"),
    (["nzb", "nzbget", "categoryAnimeBacklog"], mkS "NZBGET_CATEGORY_ANIME_BACKLOG"),
    (["nzb", "nzbget", "categoryBacklog"], mkS "NZBGET_CATEGORY_BACKLOG"),
    (["nzb", "nzbget", "host"], mkS "NZBGET_HOST"),
    (["nzb", "nzbget", "password"], mkS "NZBGET_PASSWORD"),
    (["nzb", "nzbget", "priority"], mkS "NZBGET_PRIORITY"),
    (["nzb", "nzbget", "useHttps"], mkB "NZBGET_USE_HTTPS"),
    (["nzb", "nzbget", "username"], mkS "NZBGET_USERNAME"),
    (["nzb", "sabnzbd", "apiKey"], mkS "SAB_APIKEY"),
    (["nzb", "sabnzbd", "category"], mkS "SAB_CATEGORY"),
    (["nzb", "sabnzbd", "categoryAnime"], mkS "SAB_CATEGORY_ANIME"),
    (["nzb", "sabnzbd", "categoryAnimeBacklog"], mkS "SAB_CATEGORY_ANIME_BACKLOG"),
    (["nzb", "sabnzbd", "categoryBacklog"], mkS "SAB_CATEGORY_BACKLOG"),
    (["nzb", "sabnzbd", "forced"], mkB "SAB_FORCED"),
    (["nzb", "sabnzbd", "host"], mkS "SAB_HOST"),
    (["nzb", "sabnzbd", "password"], mkS "SAB_PASSWORD"),
    (["nzb", "sabnzbd", "username"], mkS "SAB_USERNAME"),
    (["selectedRootIndex"], mkI "SELECTED_ROOT"),
    (["layout", "schedule"], layoutScheduleField),
    (["layout", "history"], layoutHistoryField),
    (["layout", "home"], layoutHomeField),
    (["layout", "show", "allSeasons"], mkB "DISPLAY_ALL_SEASONS"),
    (["layout", "show", "specials"], mkB "DISPLAY_SHOW_SPECIALS"),
    (["layout", "show", "showListOrder"], mkL "SHOW_LIST_ORDER"),
    (["theme", "name"], themeNameField ext),
    (["backlogOverview", "period"], mkS "BACKLOG_PERIOD"),
    (["backlogOverview", "status"], mkS "BACKLOG_STATUS"),
    (["rootDirs"], mkL "ROOT_DIRS"),
    (["showDefaults", "status"], statusDefaultField ext),
    (["showDefaults", "statusAfter"], statusDefaultAfterField ext),
    (["showDefaults", "quality"], qualityDefaultField ext),
    (["showDefaults", "subtitles"], subtitlesDefaultField),
    (["showDefaults", "seasonFolders"], seasonFoldersDefaultField),
    (["showDefaults", "anime"], animeDefaultField),
    (["showDefaults", "scene"], sceneDefaultField),
    (["postProcessing", "showDownloadDir"], mkS "TV_DOWNLOAD_DIR"),
    (["postProcessing", "processAutomatically"], mkB "PROCESS_AUTOMATICALLY"),
    (["postProcessing", "processMethod"], mkS "PROCESS_METHOD"),
    (["postProcessing", "deleteRarContent"], mkB "DELRARCONTENTS"),
    (["postProcessing", "unpack"], mkB "UNPACK"),
    (["postProcessing", "noDelete"], mkB "NO_DELETE"),
    (["postProcessing", "postponeIfSyncFiles"], mkB "POSTPONE_IF_SYNC_FILES"),
    (["postProcessing", "autoPostprocessorFrequency"], mkI "AUTOPOSTPROCESSOR_FREQUENCY"),
    (["postProcessing", "airdateEpisodes"], mkB "AIRDATE_EPISODES"),
    (["postProcessing", "moveAssociatedFiles"], mkB "MOVE_ASSOCIATED_FILES"),
    (["postProcessing", "allowedExtensions"], mkL "ALLOWED_EXTENSIONS"),
    (["postProcessing", "addShowsWithoutDir"], mkB "ADD_SHOWS_WO_DIR"),
    (["postProcessing", "createMissingShowDirs"], mkB "CREATE_MISSING_SHOW_DIRS"),
    (["postProcessing", "renameEpisodes"], mkB "RENAME_EPISODES"),
    (["postProcessing", "postponeIfNoSubs"], mkB "POSTPONE_IF_NO_SUBS"),
    (["postProcessing", "nfoRename"], mkB "NFO_RENAME"),
    (["postProcessing", "syncFiles"], mkL "SYNC_FILES"),
    (["postProcessing", "fileTimestampTimezone"], mkS "FILE_TIMESTAMP_TIMEZONE"),
    (["postProcessing", "extraScripts"], mkL "EXTRA_SCRIPTS"),
    (["postProcessing", "extraScriptsUrl"], mkS "EXTRA_SCRIPTS_URL"),
    (["postProcessing", "naming", "pattern"], mkS "NAMING_PATTERN"),
    (["postProcessing", "naming", "enableCustomNamingAnime"], mkB "NAMING_CUSTOM_ANIME"),
    (["postProcessing", "naming", "enableCustomNamingSports"], mkB "NAMING_CUSTOM_SPORTS"),
    (["postProcessing", "naming", "enableCustomNamingAirByDate"], mkB "NAMING_CUSTOM_ABD"),
    (["postProcessing", "naming", "patternSports"], mkS "NAMING_SPORTS_PATTERN"),
    (["postProcessing", "naming", "patternAirByDate"], mkS "NAMING_ABD_PATTERN"),
    (["postProcessing", "naming", "patternAnime"], mkS "NAMING_ANIME_PATTERN"),
    (["postProcessing", "naming", "animeMultiEp"], mkI "NAMING_ANIME_MULTI_EP"),
    (["postProcessing", "naming", "animeNamingType"], mkI "NAMING_ANIME"),
    (["postProcessing", "naming", "multiEp"], mkI "NAMING_MULTI_EP"),
    (["postProcessing", "naming", "stripYear"], mkB "NAMING_STRIP_YEAR"),
    (["search", "general", "randomizeProviders"], mkB "RANDOMIZE_PROVIDERS"),
    (["search", "general", "downloadPropers"], mkB "DOWNLOAD_PROPERS"),
    (["search", "general", "checkPropersInterval"], mkS "CHECK_PROPERS_INTERVAL"),
    (["search", "general", "propersSearchDays"], mkI "PROPERS_SEARCH_DAYS"),
    (["search", "general", "backlogDays"], mkI "BACKLOG_DAYS"),
    (["search", "general", "backlogFrequency"], mkI "BACKLOG_FREQUENCY"),
    (["search", "general", "minBacklogFrequency"], mkI "MIN_BACKLOG_FREQUENCY"),
    (["search", "general", "dailySearchFrequency"], mkI "DAILYSEARCH_FREQUENCY"),
    (["search", "general", "minDailySearchFrequency"], mkI "MIN_DAILYSEARCH_FREQUENCY"),
    (["search", "general", "removeFromClient"], mkB "REMOVE_FROM_CLIENT"),
    (["search", "general", "torrentCheckerFrequency"], mkI "TORRENT_CHECKER_FREQUENCY"),
    (["search", "general", "minTorrentCheckerFrequency"], mkI "MIN_TORRENT_CHECKER_FREQUENCY"),
    (["search", "general", "usenetRetention"], mkI "USENET_RETENTION"),
    (["search", "general", "trackersList"], mkL "TRACKERS_LIST"),
    (["search", "general", "allowHighPriority"], mkB "ALLOW_HIGH_PRIORITY"),
    (["search", "general", "useFailedDownloads"], mkB "USE_FAILED_DOWNLOADS"),
    (["search", "general", "deleteFailed"], mkB "DELETE_FAILED"),
    (["search", "general", "cacheTrimming"], mkB "CACHE_TRIMMING"),
    (["search", "general", "maxCacheAge"], mkI "MAX_CACHE_AGE"),
    (["search", "filters", "ignored"], mkL "IGNORE_WORDS"),
    (["search", "filters", "undesired"], mkL "UNDESIRED_WORDS"),
    (["search", "filters", "preferred"], mkL "PREFERRED_WORDS"),
    (["search", "filters", "required"], mkL "REQUIRE_WORDS"),
    (["search", "filters", "ignoredSubsList"], mkL "IGNORED_SUBS_LIST"),
    (["search", "filters", "ignoreUnknownSubs"], mkB "IGNORE_UND_SUBS"),
    (["notifiers", "kodi", "enabled"], mkB "USE_KODI"),
    (["notifiers", "kodi", "alwaysOn"], mkB "USE_KODI"),
    (["notifiers", "kodi", "notifyOnSnatch"], mkB "KODI_NOTIFY_ONSNATCH"),
    (["notifiers", "kodi", "notifyOnDownload"], mkB "KODI_NOTIFY_ONDOWNLOAD"),
    (["notifiers", "kodi", "notifyOnSubtitleDownload"], mkB "KODI_NOTIFY_ONSUBTITLEDOWNLOAD"),
    (["notifiers", "kodi", "update", "library"], mkB "KODI_UPDATE_LIBRARY"),
    (["notifiers", "kodi", "update", "full"], mkB "KODI_UPDATE_FULL"),
    (["notifiers", "kodi", "update", "onlyFirst"], mkB "KODI_UPDATE_ONLYFIRST"),
    (["notifiers", "kodi", "host"], mkL "KODI_HOST"),
    (["notifiers", "kodi", "username"], mkS "KODI_USERNAME"),
    (["notifiers", "kodi", "password"], mkS "KODI_PASSWORD"),
    (["notifiers", "kodi", "libraryCleanPending"], mkB "KODI_LIBRARY_CLEAN_PENDING"),
    (["notifiers", "kodi", "cleanLibrary"], mkB "KODI_CLEAN_LIBRARY"),
    (["notifiers", "plex", "server", "enabled"], mkB "USE_PLEX_SERVER"),
    (["notifiers", "plex", "server", "updateLibrary"], mkB "PLEX_UPDATE_LIBRARY"),
    (["notifiers", "plex", "server", "host"], mkL "PLEX_SERVER_HOST"),
    (["notifiers", "plex", "server", "https"], mkB "PLEX_SERVER_HTTPS"),
    (["notifiers", "plex", "server", "username"], mkS "PLEX_SERVER_HOST"),
    (["notifiers", "plex", "server", "password"], mkS "PLEX_SERVER_HOST"),
    (["notifiers", "plex", "server", "token"], mkS "PLEX_SERVER_HOST"),
    (["notifiers", "plex", "client", "enabled"], mkB "USE_PLEX_CLIENT"),
    (["notifiers", "plex", "client", "username"], mkS "PLEX_CLIENT_USERNAME"),
    (["notifiers", "plex", "client", "host"], mkL "PLEX_CLIENT_HOST"),
    (["notifiers", "plex", "client", "notifyOnSnatch"], mkB "PLEX_NOTIFY_ONSNATCH"),
    (["notifiers", "plex", "client", "notifyOnDownload"], mkB "PLEX_NOTIFY_ONDOWNLOAD"),
    (["notifiers", "plex", "client", "notifyOnSubtitleDownload"], mkB "PLEX_NOTIFY_ONSUBTITLEDOWNLOAD"),
    (["notifiers", "emby", "enabled"], mkB "USE_EMBY"),
    (["notifiers", "emby", "host"], mkS "EMBY_HOST"),
    (["notifiers", "emby", "apiKey"], mkS "EMBY_APIKEY"),
    (["notifiers", "nmj", "enabled"], mkB "USE_NMJ"),
    (["notifiers", "nmj", "host"], mkS "NMJ_HOST"),
    (["notifiers", "nmj", "database"], mkS "NMJ_DATABASE"),
    (["notifiers", "nmj", "mount"], mkS "NMJ_MOUNT"),
    (["notifiers", "nmjv2", "enabled"], mkB "USE_NMJv2"),
    (["notifiers", "nmjv2", "host"], mkS "NMJv2_HOST"),
    (["notifiers", "nmjv2", "dbloc"], mkS "NMJv2_DBLOC"),
    (["notifiers", "nmjv2", "database"], mkS "NMJv2_DATABASE"),
    (["notifiers", "synologyIndex", "enabled"], mkB "USE_SYNOINDEX"),
    (["notifiers", "synology", "enabled"], mkB "USE_SYNOLOGYNOTIFIER"),
    (["notifiers", "synology", "notifyOnSnatch"], mkB "SYNOLOGYNOTIFIER_NOTIFY_ONSNATCH"),
    (["notifiers", "synology", "notifyOnDownload"], mkB "SYNOLOGYNOTIFIER_NOTIFY_ONDOWNLOAD"),
    (["notifiers", "synology", "notifyOnSubtitleDownload"], mkB "SYNOLOGYNOTIFIER_NOTIFY_ONSUBTITLEDOWNLOAD"),
    (["notifiers", "pyTivo", "enabled"], mkB "USE_PYTIVO"),
    (["notifiers", "pyTivo", "host"], mkS "PYTIVO_HOST"),
    (["notifiers", "pyTivo", "name"], mkS "PYTIVO_TIVO_NAME"),
    (["notifiers", "pyTivo", "shareName"], mkS "PYTIVO_SHARE_NAME"),
    (["notifiers", "growl", "enabled"], mkB "USE_GROWL"),
    (["notifiers", "growl", "host"], mkS "GROWL_HOST"),
    (["notifiers", "growl", "password"], mkS "GROWL_PASSWORD"),
    (["notifiers", "growl", "notifyOnSnatch"], mkB "GROWL_NOTIFY_ONSNATCH"),
    (["notifiers", "growl", "notifyOnDownload"], mkB "GROWL_NOTIFY_ONDOWNLOAD"),
    (["notifiers", "growl", "notifyOnSubtitleDownload"], mkB "GROWL_NOTIFY_ONSUBTITLEDOWNLOAD"),
    (["notifiers", "prowl", "enabled"], mkB "USE_PROWL"),
    (["notifiers", "prowl", "api"], mkL "PROWL_API"),
    (["notifiers", "prowl", "messageTitle"], mkS "PROWL_MESSAGE_TITLE"),
    (["notifiers", "prowl", "priority"], mkI "PROWL_PRIORITY"),
    (["notifiers", "prowl", "notifyOnSnatch"], mkB "PROWL_NOTIFY_ONSNATCH"),
    (["notifiers", "prowl", "notifyOnDownload"], mkB "PROWL_NOTIFY_ONDOWNLOAD"),
    (["notifiers", "prowl", "notifyOnSubtitleDownload"], mkB "PROWL_NOTIFY_ONSUBTITLEDOWNLOAD"),
    (["notifiers", "libnotify", "enabled"], mkB "USE_LIBNOTIFY"),
    (["notifiers", "libnotify", "notifyOnSnatch"], mkB "LIBNOTIFY_NOTIFY_ONSNATCH"),
    (["notifiers", "libnotify", "notifyOnDownload"], mkB "LIBNOTIFY_NOTIFY_ONDOWNLOAD"),
    (["notifiers", "libnotify", "notifyOnSubtitleDownload"], mkB "LIBNOTIFY_NOTIFY_ONSUBTITLEDOWNLOAD"),
    (["notifiers", "pushover", "enabled"], mkB "USE_PUSHOVER"),
    (["notifiers", "pushover", "apiKey"], mkS "PUSHOVER_APIKEY"),
    (["notifiers", "pushover", "userKey"], mkS "PUSHOVER_USERKEY"),
    (["notifiers", "pushover", "device"], mkL "PUSHOVER_DEVICE"),
    (["notifiers", "pushover", "sound"], mkS "PUSHOVER_SOUND"),
    (["notifiers", "pushover", "priority"], mkI "PUSHOVER_PRIORITY"),
    (["notifiers", "pushover", "notifyOnSnatch"], mkB "PUSHOVER_NOTIFY_ONSNATCH"),
    (["notifiers", "pushover", "notifyOnDownload"], mkB "PUSHOVER_NOTIFY_ONDOWNLOAD"),
    (["notifiers", "pushover", "notifyOnSubtitleDownload"], mkB "PUSHOVER_NOTIFY_ONSUBTITLEDOWNLOAD"),
    (["notifiers", "boxcar2", "enabled"], mkB "USE_BOXCAR2"),
    (["notifiers", "boxcar2", "accessToken"], mkS "BOXCAR2_ACCESSTOKEN"),
    (["notifiers", "boxcar2", "notifyOnSnatch"], mkB "BOXCAR2_NOTIFY_ONSNATCH"),
    (["notifiers", "boxcar2", "notifyOnDownload"], mkB "BOXCAR2_NOTIFY_ONDOWNLOAD"),
    (["notifiers", "boxcar2", "notifyOnSubtitleDownload"], mkB "BOXCAR2_NOTIFY_ONSUBTITLEDOWNLOAD"),
    (["notifiers", "pushalot", "enabled"], mkB "USE_PUSHALOT"),
    (["notifiers", "pushalot", "authToken"], mkS "PUSHALOT_AUTHORIZATIONTOKEN"),
    (["notifiers", "pushalot", "notifyOnSnatch"], mkB "PUSHALOT_NOTIFY_ONSNATCH"),
    (["notifiers", "pushalot", "notifyOnDownload"], mkB "PUSHALOT_NOTIFY_ONDOWNLOAD"),
    (["notifiers", "pushalot", "notifyOnSubtitleDownload"], mkB "PUSHALOT_NOTIFY_ONSUBTITLEDOWNLOAD"),
    (["notifiers", "pushbullet", "enabled"], mkB "USE_PUSHBULLET"),
    (["notifiers", "pushbullet", "api"], mkS "PUSHBULLET_API"),
    (["notifiers", "pushbullet", "device"], mkS "PUSHBULLET_DEVICE"),
    (["notifiers", "pushbullet", "notifyOnSnatch"], mkB "PUSHBULLET_NOTIFY_ONSNATCH"),
    (["notifiers", "pushbullet", "notifyOnDownload"], mkB "PUSHBULLET_NOTIFY_ONDOWNLOAD"),
    (["notifiers", "pushbullet", "notifyOnSubtitleDownload"], mkB "PUSHBULLET_NOTIFY_ONSUBTITLEDOWNLOAD"),
    (["notifiers", "join", "enabled"], mkB "USE_JOIN"),
    (["notifiers", "join", "api"], mkS "JOIN_API"),
    (["notifiers", "join", "device"], mkS "JOIN_DEVICE"),
    (["notifiers", "join", "notifyOnSnatch"], mkB "JOIN_NOTIFY_ONSNATCH"),
    (["notifiers", "join", "notifyOnDownload"], mkB "JOIN_NOTIFY_ONDOWNLOAD"),
    (["notifiers", "join", "notifyOnSubtitleDownload"], mkB "JOIN_NOTIFY_ONSUBTITLEDOWNLOAD"),
    (["notifiers", "freemobile", "enabled"], mkB "USE_FREEMOBILE"),
    (["notifiers", "freemobile", "api"], mkS "FREEMOBILE_APIKEY"),
    (["notifiers", "freemobile", "id"], mkS "FREEMOBILE_ID"),
    (["notifiers", "freemobile", "notifyOnSnatch"], mkB "FREEMOBILE_NOTIFY_ONSNATCH"),
    (["notifiers", "freemobile", "notifyOnDownload"], mkB "FREEMOBILE_NOTIFY_ONDOWNLOAD"),
    (["notifiers", "freemobile", "notifyOnSubtitleDownload"], mkB "FREEMOBILE_NOTIFY_ONSUBTITLEDOWNLOAD"),
    (["notifiers", "telegram", "enabled"], mkB "USE_TELEGRAM"),
    (["notifiers", "telegram", "api"], mkS "TELEGRAM_APIKEY"),
    (["notifiers", "telegram", "id"], mkS "TELEGRAM_ID"),
    (["notifiers", "telegram", "notifyOnSnatch"], mkB "TELEGRAM_NOTIFY_ONSNATCH"),
    (["notifiers", "telegram", "notifyOnDownload"], mkB "TELEGRAM_NOTIFY_ONDOWNLOAD"),
    (["notifiers", "telegram", "notifyOnSubtitleDownload"], mkB "TELEGRAM_NOTIFY_ONSUBTITLEDOWNLOAD"),
    (["notifiers", "twitter", "enabled"], mkB "USE_TWITTER"),
    (["notifiers", "twitter", "dmto"], mkS "TWITTER_DMTO"),
    (["notifiers", "twitter", "username"], mkS "TWITTER_USERNAME"),
    (["notifiers", "twitter", "password"], mkS "TWITTER_PASSWORD"),
    (["notifiers", "twitter", "prefix"], mkS "TWITTER_PREFIX"),
    (["notifiers", "twitter", "directMessage"], mkB "TWITTER_USEDM"),
    (["notifiers", "twitter", "notifyOnSnatch"], mkB "TWITTER_NOTIFY_ONSNATCH"),
    (["notifiers", "twitter", "notifyOnDownload"], mkB "TWITTER_NOTIFY_ONDOWNLOAD"),
    (["notifiers", "twitter", "notifyOnSubtitleDownload"], mkB "TWITTER_NOTIFY_ONSUBTITLEDOWNLOAD"),
    (["notifiers", "trakt", "enabled"], mkB "USE_TRAKT"),
    (["notifiers", "trakt", "pinUrl"], mkS "TRAKT_PIN_URL"),
    (["notifiers", "trakt", "username"], mkS "TRAKT_USERNAME"),
    (["notifiers", "trakt", "accessToken"], mkS "TRAKT_ACCESS_TOKEN"),
    (["notifiers", "trakt", "timeout"], mkI "TRAKT_TIMEOUT"),
    (["notifiers", "trakt", "defaultIndexer"], mkI "TRAKT_DEFAULT_INDEXER"),
    (["notifiers", "trakt", "sync"], mkB "TRAKT_SYNC"),
    (["notifiers", "trakt", "syncRemove"], mkB "TRAKT_SYNC_REMOVE"),
    (["notifiers", "trakt", "syncWatchlist"], mkB "TRAKT_SYNC_WATCHLIST"),
    (["notifiers", "trakt", "methodAdd"], mkI "TRAKT_METHOD_ADD"),
    (["notifiers", "trakt", "removeWatchlist"], mkB "TRAKT_REMOVE_WATCHLIST"),
    (["notifiers", "trakt", "removeSerieslist"], mkB "TRAKT_REMOVE_SERIESLIST"),
    (["notifiers", "trakt", "removeShowFromApplication"], mkB "TRAKT_REMOVE_SHOW_FROM_APPLICATION"),
    (["notifiers", "trakt", "startPaused"], mkB "TRAKT_START_PAUSED"),
    (["notifiers", "trakt", "blacklistName"], mkS "TRAKT_BLACKLIST_NAME"),
    (["notifiers", "email", "enabled"], mkB "USE_EMAIL"),
    (["notifiers", "email", "host"], mkS "EMAIL_HOST"),
    (["notifiers", "email", "port"], mkI "EMAIL_PORT"),
    (["notifiers", "email", "from"], mkS "EMAIL_FROM"),
    (["notifiers", "email", "tls"], mkB "EMAIL_TLS"),
    (["notifiers", "email", "username"], mkS "EMAIL_USER"),
    (["notifiers", "email", "password"], mkS "EMAIL_PASSWORD"),
    (["notifiers", "email", "addressList"], mkL "EMAIL_LIST"),
    (["notifiers", "email", "subject"], mkS "EMAIL_SUBJECT"),
    (["notifiers", "email", "notifyOnSnatch"], mkB "EMAIL_NOTIFY_ONSNATCH"),
    (["notifiers", "email", "notifyOnDownload"], mkB "EMAIL_NOTIFY_ONDOWNLOAD"),
    (["notifiers", "email", "notifyOnSubtitleDownload"], mkB "EMAIL_NOTIFY_ONSUBTITLEDOWNLOAD"),
    (["notifiers", "slack", "enabled"], mkB "USE_SLACK"),
    (["notifiers", "slack", "webhook"], mkS "SLACK_WEBHOOK"),
    (["notifiers", "slack", "notifyOnSnatch"], mkB "SLACK_NOTIFY_SNATCH"),
    (["notifiers", "slack", "notifyOnDownload"], mkB "SLACK_NOTIFY_DOWNLOAD"),
    (["notifiers", "slack", "notifyOnSubtitleDownload"], mkB "SLACK_NOTIFY_SUBTITLEDOWNLOAD")
]

/-- Look up a path in the patch table (`self.patches.get(key)`). -/
def lookupPath (tbl : List (List String × FieldDesc)) (p : List String) : Option FieldDesc :=
  match tbl with
  | [] => none
  | (p1, f) :: rest => if p1 = p then some f else lookupPath rest p

/-- Modelled from the spec: the per-field patch contract of `base.py`
(`field.patch(app, candidate)`).  Returns the updated store on acceptance
and `none` on rejection; any exception raised by validator, converter or
setter is caught at the dispatch boundary and is a rejection (`none`).
Steps: validator gate; stored-value conversion (explicit converter, else
the kind default: boolean coercion, integer coercion rejecting on failure,
enum membership with fallback to the declared default, identity for string
and list kinds); application through the setter or plain assignment; then
the post-processor. -/
def patchField (f : FieldDesc) (st : AppState) (v : Json) : Option AppState :=
  match (match f.validator with
         | none => some true
         | some vd => vd st v) with
  | none => none
  | some false => none
  | some true =>
    match (match f.converter with
           | some c => c v
           | none =>
             match f.kind with
             | .string => some v
             | .list => some v
             | .boolean => some (.bool (truthy v))
             | .integer => intCoerce v
             | .enum =>
               if (f.members.any (fun m => Json.beq m v)) then some v
               else some (f.defaultVal.getD v)) with
    | none => none
    | some sv =>
      match (match f.setter with
             | some s => s st f.attrName sv
             | none => some (st.set f.attrName sv)) with
      | none => none
      | some st1 =>
        some (match f.postProcessor with
              | some pp => pp sv st1
              | none => st1)

/-- Observable external events of a patch request, in order: one `leafDone`
per dispatched leaf, the warning log for a non-empty ignored set, the
`save_config` call, and the WebSocket broadcast of the section. -/
inductive Event where
  | leafDone (path : List String) : Event
  | warnIgnored : Event
  | save : Event
  | broadcast (sect : String) : Event

/-- Result of the loop over flattened leaves. -/
structure LoopOut where
  st : AppState
  acc : NTree
  ign : NTree
  evs : List Event

/-- The dispatch loop of `http_patch`: for every flattened `(key, value)`,
look up the field and apply its patch contract; an accepted leaf updates
the store and lands in `accepted`, a missing field or rejected value lands
in `ignored`, both under the original path. -/
def dispatchLoop (ext : Externs) :
    List (List String × Json) → AppState → NTree → NTree → LoopOut
  | [], st, acc, ign => ⟨st, acc, ign, []⟩
  | (k, v) :: rest, st, acc, ign =>
    match (match lookupPath (patches ext) k with
           | some f => patchField f st v
           | none => none) with
    | some st1 =>
      let r := dispatchLoop ext rest st1 (setNested acc k (.leaf v)) ign
      ⟨r.st, r.acc, r.ign, .leafDone k :: r.evs⟩
    | none =>
      let r := dispatchLoop ext rest st acc (setNested ign k (.leaf v))
      ⟨r.st, r.acc, r.ign, .leafDone k :: r.evs⟩

/-- Outcome of a PATCH request: the HTTP response class.  `error` is an
uncaught exception escaping the handler (KeyError from the metadata pop,
a non-mapping body, or a failing `save_config`). -/
inductive Outcome where
  | ok (body : NTree) : Outcome
  | badRequest : Outcome
  | notFound : Outcome
  | error : Outcome

/-- Full observable result of one PATCH request: outcome, final store,
event trace and (for inspection) the two result trees. -/
structure RunResult where
  outcome : Outcome
  state : AppState
  events : List Event
  accepted : NTree
  ignored : NTree

/-- Result of the metadata special-case phase. -/
inductive MetaStep where
  | err : MetaStep
  | ok (st : AppState) (acc ign : NTree) (rest : NTree) : MetaStep

/-- The metadata special case of `http_patch`: when `data.get('metadata')`
is truthy, `data['metadata'].pop('metadataProviders')` is executed — a
KeyError (here `err`) when the key is missing, and an AttributeError when
the metadata value is a truthy non-mapping.  A truthy popped sub-tree is
routed whole to the structured metadata field handler and recorded under
`metadata.metadataProviders` in `accepted` or `ignored`; a falsy popped
value is dropped.  Returns the phase result together with the remaining
data for generic flattening. -/
def metaPhase (ext : Externs) (st : AppState) (cs : List (String × NTree)) : MetaStep :=
  match assocGet cs "metadata" with
  | none => .ok st emptyT emptyT (.node cs)
  | some m =>
    if truthyT m then
      match m with
      | .leaf _ => .err
      | .node mcs =>
        match assocGet mcs "metadataProviders" with
        | none => .err
        | some mp =>
          let rest : NTree :=
            .node (assocSet cs "metadata" (.node (assocRemove mcs "metadataProviders")))
          if truthyT mp then
            match ext.metaPatch st mp with
            | some st1 =>
              .ok st1 (setNested emptyT ["metadata", "metadataProviders"] mp) emptyT rest
            | none =>
              .ok st emptyT (setNested emptyT ["metadata", "metadataProviders"] mp) rest
          else .ok st emptyT emptyT rest
    else .ok st emptyT emptyT (.node cs)

/-- The body of `http_patch` once routing has succeeded: metadata phase,
dispatch loop over the flattened remaining items, warning log when the
ignored set is non-empty, the single `save_config` call (whose failure
escapes as an error after the in-memory mutations), and on success the
broadcast and the 200 response carrying exactly the accepted tree. -/
def patchMain (ext : Externs) (st : AppState) (data : NTree) : RunResult :=
  match data with
  | .leaf _ => ⟨.error, st, [], emptyT, emptyT⟩
  | .node cs =>
    match metaPhase ext st cs with
    | .err => ⟨.error, st, [], emptyT, emptyT⟩
    | .ok st0 acc0 ign0 rest =>
      let o := dispatchLoop ext (flattenSeg rest) st0 acc0 ign0
      let evs := o.evs ++ (if truthyT o.ign then [Event.warnIgnored] else [])
      if ext.saveOk then
        ⟨.ok o.acc, o.st, evs ++ [Event.save, Event.broadcast "main"], o.acc, o.ign⟩
      else
        ⟨.error, o.st, evs ++ [Event.save], o.acc, o.ign⟩

/-- `ConfigHandler.http_patch`: a missing or empty identifier is a 400, an
identifier other than `main` a 404, both before the body is decoded; then
the body is decoded (`none` models an undecodable body) and `patchMain`
runs. -/
def httpPatch (ext : Externs) (st : AppState) (identifier : Option String)
    (body : Option NTree) : RunResult :=
  match identifier with
  | none => ⟨.badRequest, st, [], emptyT, emptyT⟩
  | some id =>
    if id = "" then ⟨.badRequest, st, [], emptyT, emptyT⟩
    else if id = "main" then
      match body with
      | none => ⟨.error, st, [], emptyT, emptyT⟩
      | some data => patchMain ext st data
    else ⟨.notFound, st, [], emptyT, emptyT⟩

/-- `bool(x)` on the read side. -/
def jB (v : Json) : Json := .bool (truthy v)

/-- `int(x)` on the read side.  The source would raise on an uncoercible
value; this model keeps the value in that unreachable case (no claim
depends on it). -/
def jI (v : Json) : Json := (intCoerce v).getD v

/-- `float(x)` on the read side, represented as the underlying value; exact
floating-point semantics are outside this model (no claim depends on it). -/
def jFloat (v : Json) : Json := v

/-- Python `x or d`. -/
def jOr (v d : Json) : Json := if truthy v then v else d

/-- Loose text rendering of a JSON value (`text_type(x)`), used only for the
locale line of the main section. -/
def jsonToText : Json → String
  | .str s => s
  | .int n => toString n
  | .bool b => if b then "True" else "False"
  | .null => "None"
  | .arr _ => ""

/-- `'.'.join(text_type(loc or 'Unknown') for loc in app.LOCALE)`. -/
def localeText : Json → Json
  | .arr xs => .str (String.intercalate "."
      (xs.map (fun l => if truthy l then jsonToText l else "Unknown")))
  | _ => .str "Unknown"

/-- `int(app.SELECTED_ROOT) if app.SELECTED_ROOT is not None else -1`. -/
def selectedRoot : Json → Json
  | .null => .int (-1)
  | v => jI v

/-- Modelled from the spec: assignment into a `NonEmptyDict`
(`medusa.helper.mappings`), the non-empty output discipline of the read
side: a `None` value is omitted instead of stored.  (Assignments of empty
sub-mappings must succeed, because the source fills them in place
afterwards, so the omission is of `None` values.) -/
def neSet (cs : List (String × NTree)) (k : String) (v : NTree) :
    List (String × NTree) :=
  match v with
  | .leaf .null => cs
  | _ => assocSet cs k v

/-- Sequential `NonEmptyDict` construction: one `neSet` per source
assignment line, in order. -/
def neBuild0 (cs : List (String × NTree)) : List (String × NTree) → List (String × NTree)
  | [] => cs
  | e :: rest => neBuild0 (neSet cs e.1 e.2) rest

/-- A `NonEmptyDict` built from scratch. -/
def neBuild (entries : List (String × NTree)) : List (String × NTree) :=
  neBuild0 [] entries

/-- A nested `NonEmptyDict` sub-mapping. -/
def neNode (entries : List (String × NTree)) : NTree := .node (neBuild entries)

/-- A plain `{}` sub-mapping (used by `showDefaults`): keeps every value. -/
def plainNode (entries : List (String × NTree)) : NTree := .node entries

/-- `json_repr['id']` for a provider: the string under the `id` key. -/
def providerId (p : NTree) : String :=
  match getAt p ["id"] with
  | some (.leaf (.str s)) => s
  | _ => ""

def dataMain (ext : Externs) (st : AppState) : NTree := .node (neBuild [
    ("anonRedirect", .leaf (st.attrs "ANON_REDIRECT")),
    ("animeSplitHome", .leaf (jB (st.attrs "ANIME_SPLIT_HOME"))),
    ("animeSplitHomeInTabs", .leaf (jB (st.attrs "ANIME_SPLIT_HOME_IN_TABS"))),
    ("comingEpsSort", .leaf (st.attrs "COMING_EPS_SORT")),
    ("comingEpsDisplayPaused", .leaf (jB (st.attrs "COMING_EPS_DISPLAY_PAUSED"))),
    ("datePreset", .leaf (st.attrs "DATE_PRESET")),
    ("fuzzyDating", .leaf (jB (st.attrs "FUZZY_DATING"))),
    ("themeName", .leaf (st.attrs "THEME_NAME")),
    ("posterSortby", .leaf (st.attrs "POSTER_SORTBY")),
    ("posterSortdir", .leaf (st.attrs "POSTER_SORTDIR")),
    ("rootDirs", .leaf (st.attrs "ROOT_DIRS")),
    ("sortArticle", .leaf (jB (st.attrs "SORT_ARTICLE"))),
    ("timePreset", .leaf (st.attrs "TIME_PRESET")),
    ("trimZero", .leaf (jB (st.attrs "TRIM_ZERO"))),
    ("fanartBackground", .leaf (jB (st.attrs "FANART_BACKGROUND"))),
    ("fanartBackgroundOpacity", .leaf (jFloat (jOr (st.attrs "FANART_BACKGROUND_OPACITY") (.int 0)))),
    ("gitUsername", .leaf (st.attrs "GIT_USERNAME")),
    ("branch", .leaf (st.attrs "BRANCH")),
    ("commitHash", .leaf (st.attrs "CUR_COMMIT_HASH")),
    ("release", .leaf (st.attrs "APP_VERSION")),
    ("sslVersion", .leaf (st.attrs "OPENSSL_VERSION")),
    ("pythonVersion", .leaf (ext.ext "sys.version")),
    ("databaseVersion", neNode [
      ("major", .leaf (st.attrs "MAJOR_DB_VERSION")),
      ("minor", .leaf (st.attrs "MINOR_DB_VERSION"))
    ]),
    ("os", .leaf (ext.ext "platform.platform")),
    ("pid", .leaf (st.attrs "PID")),
    ("locale", .leaf (localeText (st.attrs "LOCALE"))),
    ("localUser", .leaf (jOr (st.attrs "OS_USER") (.str "Unknown"))),
    ("programDir", .leaf (st.attrs "PROG_DIR")),
    ("dataDir", .leaf (st.attrs "DATA_DIR")),
    ("configFile", .leaf (st.attrs "CONFIG_FILE")),
    ("dbPath", .leaf (ext.ext "db.path")),
    ("cacheDir", .leaf (st.attrs "CACHE_DIR")),
    ("logDir", .leaf (st.attrs "LOG_DIR")),
    ("appArgs", .leaf (st.attrs "MY_ARGS")),
    ("webRoot", .leaf (st.attrs "WEB_ROOT")),
    ("runsInDocker", .leaf (jB (st.attrs "RUNS_IN_DOCKER"))),
    ("githubUrl", .leaf (st.attrs "GITHUB_IO_URL")),
    ("wikiUrl", .leaf (st.attrs "WIKI_URL")),
    ("donationsUrl", .leaf (st.attrs "DONATIONS_URL")),
    ("sourceUrl", .leaf (st.attrs "APPLICATION_URL")),
    ("downloadUrl", .leaf (st.attrs "DOWNLOAD_URL")),
    ("subtitlesMulti", .leaf (jB (st.attrs "SUBTITLES_MULTI"))),
    ("namingForceFolders", .leaf (jB (st.attrs "NAMING_FORCE_FOLDERS"))),
    ("subtitles", neNode [
      ("enabled", .leaf (jB (st.attrs "USE_SUBTITLES")))
    ]),
    ("recentShows", .leaf (st.attrs "SHOWS_RECENT")),
    ("showDefaults", plainNode [
      ("status", .leaf (st.attrs "STATUS_DEFAULT")),
      ("statusAfter", .leaf (st.attrs "STATUS_DEFAULT_AFTER")),
      ("quality", .leaf (st.attrs "QUALITY_DEFAULT")),
      ("subtitles", .leaf (jB (st.attrs "SUBTITLES_DEFAULT"))),
      ("seasonFolders", .leaf (jB (st.attrs "SEASON_FOLDERS_DEFAULT"))),
      ("anime", .leaf (jB (st.attrs "ANIME_DEFAULT"))),
      ("scene", .leaf (jB (st.attrs "SCENE_DEFAULT")))
    ]),
    ("news", neNode [
      ("lastRead", .leaf (st.attrs "NEWS_LAST_READ")),
      ("latest", .leaf (st.attrs "NEWS_LATEST")),
      ("unread", .leaf (st.attrs "NEWS_UNREAD"))
    ]),
    ("logs", neNode [
      ("loggingLevels", ext.extT "logging_levels"),
      ("numErrors", .leaf (ext.ext "numErrors")),
      ("numWarnings", .leaf (ext.ext "numWarnings"))
    ]),
    ("failedDownloads", neNode [
      ("enabled", .leaf (jB (st.attrs "USE_FAILED_DOWNLOADS"))),
      ("deleteFailed", .leaf (jB (st.attrs "DELETE_FAILED")))
    ]),
    ("torrents", neNode [
      ("authType", .leaf (st.attrs "TORRENT_AUTH_TYPE")),
      ("dir", .leaf (st.attrs "TORRENT_DIR")),
      ("enabled", .leaf (jB (st.attrs "USE_TORRENTS"))),
      ("highBandwidth", .leaf (st.attrs "TORRENT_HIGH_BANDWIDTH")),
      ("host", .leaf (st.attrs "TORRENT_HOST")),
      ("label", .leaf (st.attrs "TORRENT_LABEL")),
      ("labelAnime", .leaf (st.attrs "TORRENT_LABEL_ANIME")),
      ("method", .leaf (st.attrs "TORRENT_METHOD")),
      ("path", .leaf (st.attrs "TORRENT_PATH")),
      ("paused", .leaf (jB (st.attrs "TORRENT_PAUSED"))),
      ("rpcurl", .leaf (st.attrs "TORRENT_RPCURL")),
      ("seedLocation", .leaf (st.attrs "TORRENT_SEED_LOCATION")),
      ("seedTime", .leaf (st.attrs "TORRENT_SEED_TIME")),
      ("username", .leaf (st.attrs "TORRENT_USERNAME")),
      ("verifySSL", .leaf (jB (st.attrs "TORRENT_VERIFY_CERT")))
    ]),
    ("nzb", neNode [
      ("enabled", .leaf (jB (st.attrs "USE_NZBS"))),
      ("dir", .leaf (st.attrs "NZB_DIR")),
      ("method", .leaf (st.attrs "NZB_METHOD")),
      ("nzbget", neNode [
        ("category", .leaf (st.attrs "NZBGET_CATEGORY")),
        ("categoryAnime", .leaf (st.attrs "NZBGET_CATEGORY_ANIME")),
        ("categoryAnimeBacklog", .leaf (st.attrs "NZBGET_CATEGORY_ANIME_BACKLOG")),
        ("categoryBacklog", .leaf (st.attrs "NZBGET_CATEGORY_BACKLOG")),
        ("host", .leaf (st.attrs "NZBGET_HOST")),
        ("priority", .leaf (st.attrs "NZBGET_PRIORITY")),
        ("useHttps", .leaf (jB (st.attrs "NZBGET_USE_HTTPS"))),
        ("username", .leaf (st.attrs "NZBGET_USERNAME"))
      ]),
      ("sabnzbd", neNode [
        ("category", .leaf (st.attrs "SAB_CATEGORY")),
        ("categoryAnime", .leaf (st.attrs "SAB_CATEGORY_ANIME")),
        ("categoryAnimeBacklog", .leaf (st.attrs "SAB_CATEGORY_ANIME_BACKLOG")),
        ("categoryBacklog", .leaf (st.attrs "SAB_CATEGORY_BACKLOG")),
        ("forced", .leaf (jB (st.attrs "SAB_FORCED"))),
        ("host", .leaf (st.attrs "SAB_HOST")),
        ("username", .leaf (st.attrs "SAB_USERNAME"))
      ])
    ]),
    ("layout", neNode [
      ("schedule", .leaf (st.attrs "COMING_EPS_LAYOUT")),
      ("history", .leaf (st.attrs "HISTORY_LAYOUT")),
      ("home", .leaf (st.attrs "HOME_LAYOUT")),
      ("show", neNode [
        ("allSeasons", .leaf (jB (st.attrs "DISPLAY_ALL_SEASONS"))),
        ("specials", .leaf (jB (st.attrs "DISPLAY_SHOW_SPECIALS"))),
        ("showListOrder", .leaf (st.attrs "SHOW_LIST_ORDER"))
      ])
    ]),
    ("selectedRootIndex", .leaf (selectedRoot (st.attrs "SELECTED_ROOT"))),
    ("backlogOverview", neNode [
      ("period", .leaf (st.attrs "BACKLOG_PERIOD")),
      ("status", .leaf (st.attrs "BACKLOG_STATUS"))
    ]),
    ("indexers", neNode [
      ("config", ext.extT "indexer_config")
    ]),
    ("postProcessing", neNode [
      ("naming", neNode [
        ("pattern", .leaf (st.attrs "NAMING_PATTERN")),
        ("multiEp", .leaf (jI (st.attrs "NAMING_MULTI_EP"))),
        ("patternAirByDate", .leaf (st.attrs "NAMING_ABD_PATTERN")),
        ("patternSports", .leaf (st.attrs "NAMING_SPORTS_PATTERN")),
        ("patternAnime", .leaf (st.attrs "NAMING_ANIME_PATTERN")),
        ("enableCustomNamingAirByDate", .leaf (jB (st.attrs "NAMING_CUSTOM_ABD"))),
        ("enableCustomNamingSports", .leaf (jB (st.attrs "NAMING_CUSTOM_SPORTS"))),
        ("enableCustomNamingAnime", .leaf (jB (st.attrs "NAMING_CUSTOM_ANIME"))),
        ("animeMultiEp", .leaf (jI (st.attrs "NAMING_ANIME_MULTI_EP"))),
        ("animeNamingType", .leaf (jI (st.attrs "NAMING_ANIME"))),
        ("stripYear", .leaf (jB (st.attrs "NAMING_STRIP_YEAR")))
      ]),
      ("showDownloadDir", .leaf (st.attrs "TV_DOWNLOAD_DIR")),
      ("processAutomatically", .leaf (jB (st.attrs "PROCESS_AUTOMATICALLY"))),
      ("postponeIfSyncFiles", .leaf (jB (st.attrs "POSTPONE_IF_SYNC_FILES"))),
      ("postponeIfNoSubs", .leaf (jB (st.attrs "POSTPONE_IF_NO_SUBS"))),
      ("renameEpisodes", .leaf (jB (st.attrs "RENAME_EPISODES"))),
      ("createMissingShowDirs", .leaf (jB (st.attrs "CREATE_MISSING_SHOW_DIRS"))),
      ("addShowsWithoutDir", .leaf (jB (st.attrs "ADD_SHOWS_WO_DIR"))),
      ("moveAssociatedFiles", .leaf (jB (st.attrs "MOVE_ASSOCIATED_FILES"))),
      ("nfoRename", .leaf (jB (st.attrs "NFO_RENAME"))),
      ("airdateEpisodes", .leaf (jB (st.attrs "AIRDATE_EPISODES"))),
      ("unpack", .leaf (jB (st.attrs "UNPACK"))),
      ("deleteRarContent", .leaf (jB (st.attrs "DELRARCONTENTS"))),
      ("noDelete", .leaf (jB (st.attrs "NO_DELETE"))),
      ("processMethod", .leaf (st.attrs "PROCESS_METHOD")),
      ("reflinkAvailable", .leaf (ext.ext "reflink")),
      ("autoPostprocessorFrequency", .leaf (jI (st.attrs "AUTOPOSTPROCESSOR_FREQUENCY"))),
      ("syncFiles", .leaf (st.attrs "SYNC_FILES")),
      ("fileTimestampTimezone", .leaf (st.attrs "FILE_TIMESTAMP_TIMEZONE")),
      ("allowedExtensions", .leaf (st.attrs "ALLOWED_EXTENSIONS")),
      ("extraScripts", .leaf (st.attrs "EXTRA_SCRIPTS")),
      ("extraScriptsUrl", .leaf (st.attrs "EXTRA_SCRIPTS_URL")),
      ("multiEpStrings", ext.extT "common.MULTI_EP_STRINGS")
    ])
])

def dataQualities (ext : Externs) (st : AppState) : NTree := .node (neBuild [
    ("values", neNode [
      ("na", .leaf (ext.ext "common.Quality.NA")),
      ("unknown", .leaf (ext.ext "common.Quality.UNKNOWN")),
      ("sdtv", .leaf (ext.ext "common.Quality.SDTV")),
      ("sddvd", .leaf (ext.ext "common.Quality.SDDVD")),
      ("hdtv", .leaf (ext.ext "common.Quality.HDTV")),
      ("rawhdtv", .leaf (ext.ext "common.Quality.RAWHDTV")),
      ("fullhdtv", .leaf (ext.ext "common.Quality.FULLHDTV")),
      ("hdwebdl", .leaf (ext.ext "common.Quality.HDWEBDL")),
      ("fullhdwebdl", .leaf (ext.ext "common.Quality.FULLHDWEBDL")),
      ("hdbluray", .leaf (ext.ext "common.Quality.HDBLURAY")),
      ("fullhdbluray", .leaf (ext.ext "common.Quality.FULLHDBLURAY")),
      ("uhd4ktv", .leaf (ext.ext "common.Quality.UHD_4K_TV")),
      ("uhd4kwebdl", .leaf (ext.ext "common.Quality.UHD_4K_WEBDL")),
      ("uhd4kbluray", .leaf (ext.ext "common.Quality.UHD_4K_BLURAY")),
      ("uhd8ktv", .leaf (ext.ext "common.Quality.UHD_8K_TV")),
      ("uhd8kwebdl", .leaf (ext.ext "common.Quality.UHD_8K_WEBDL")),
      ("uhd8kbluray", .leaf (ext.ext "common.Quality.UHD_8K_BLURAY"))
    ]),
    ("anySets", neNode [
      ("anyhdtv", .leaf (ext.ext "common.Quality.ANYHDTV")),
      ("anywebdl", .leaf (ext.ext "common.Quality.ANYWEBDL")),
      ("anybluray", .leaf (ext.ext "common.Quality.ANYBLURAY"))
    ]),
    ("presets", neNode [
      ("any", .leaf (ext.ext "common.ANY")),
      ("sd", .leaf (ext.ext "common.SD")),
      ("hd", .leaf (ext.ext "common.HD")),
      ("hd720p", .leaf (ext.ext "common.HD720p")),
      ("hd1080p", .leaf (ext.ext "common.HD1080p")),
      ("uhd", .leaf (ext.ext "common.UHD")),
      ("uhd4k", .leaf (ext.ext "common.UHD_4K")),
      ("uhd8k", .leaf (ext.ext "common.UHD_8K"))
    ]),
    ("strings", neNode [
      ("values", ext.extT "common.Quality.qualityStrings"),
      ("anySets", ext.extT "common.Quality.combinedQualityStrings"),
      ("presets", ext.extT "common.qualityPresetStrings"),
      ("cssClass", ext.extT "common.Quality.cssClassStrings")
    ])
])

def dataStatuses (ext : Externs) (st : AppState) : NTree := .node (neBuild [
    ("values", neNode [
      ("unset", .leaf (ext.ext "common.UNSET")),
      ("unaired", .leaf (ext.ext "common.UNAIRED")),
      ("snatched", .leaf (ext.ext "common.SNATCHED")),
      ("wanted", .leaf (ext.ext "common.WANTED")),
      ("downloaded", .leaf (ext.ext "common.DOWNLOADED")),
      ("skipped", .leaf (ext.ext "common.SKIPPED")),
      ("archived", .leaf (ext.ext "common.ARCHIVED")),
      ("ignored", .leaf (ext.ext "common.IGNORED")),
      ("snatchedProper", .leaf (ext.ext "common.SNATCHED_PROPER")),
      ("subtitled", .leaf (ext.ext "common.SUBTITLED")),
      ("failed", .leaf (ext.ext "common.FAILED")),
      ("snatchedBest", .leaf (ext.ext "common.SNATCHED_BEST"))
    ]),
    ("strings", ext.extT "common.statusStrings")
])

def dataSearch (ext : Externs) (st : AppState) : NTree := .node (neBuild [
    ("general", neNode [
      ("randomizeProviders", .leaf (jB (st.attrs "RANDOMIZE_PROVIDERS"))),
      ("downloadPropers", .leaf (jB (st.attrs "DOWNLOAD_PROPERS"))),
      ("checkPropersInterval", .leaf (st.attrs "CHECK_PROPERS_INTERVAL")),
      ("propersSearchDays", .leaf (jI (st.attrs "PROPERS_SEARCH_DAYS"))),
      ("backlogDays", .leaf (jI (st.attrs "BACKLOG_DAYS"))),
      ("backlogFrequency", .leaf (jI (st.attrs "BACKLOG_FREQUENCY"))),
      ("minBacklogFrequency", .leaf (jI (st.attrs "MIN_BACKLOG_FREQUENCY"))),
      ("dailySearchFrequency", .leaf (jI (st.attrs "DAILYSEARCH_FREQUENCY"))),
      ("minDailySearchFrequency", .leaf (jI (st.attrs "MIN_DAILYSEARCH_FREQUENCY"))),
      ("removeFromClient", .leaf (jB (st.attrs "REMOVE_FROM_CLIENT"))),
      ("torrentCheckerFrequency", .leaf (jI (st.attrs "TORRENT_CHECKER_FREQUENCY"))),
      ("minTorrentCheckerFrequency", .leaf (jI (st.attrs "MIN_TORRENT_CHECKER_FREQUENCY"))),
      ("usenetRetention", .leaf (jI (st.attrs "USENET_RETENTION"))),
      ("trackersList", .leaf (st.attrs "TRACKERS_LIST")),
      ("allowHighPriority", .leaf (jB (st.attrs "ALLOW_HIGH_PRIORITY"))),
      ("useFailedDownloads", .leaf (jB (st.attrs "USE_FAILED_DOWNLOADS"))),
      ("deleteFailed", .leaf (jB (st.attrs "DELETE_FAILED"))),
      ("cacheTrimming", .leaf (jB (st.attrs "CACHE_TRIMMING"))),
      ("maxCacheAge", .leaf (jI (st.attrs "MAX_CACHE_AGE")))
    ]),
    ("filters", neNode [
      ("ignored", .leaf (st.attrs "IGNORE_WORDS")),
      ("undesired", .leaf (st.attrs "UNDESIRED_WORDS")),
      ("preferred", .leaf (st.attrs "PREFERRED_WORDS")),
      ("required", .leaf (st.attrs "REQUIRE_WORDS")),
      ("ignoredSubsList", .leaf (st.attrs "IGNORED_SUBS_LIST")),
      ("ignoreUnknownSubs", .leaf (jB (st.attrs "IGNORE_UND_SUBS")))
    ])
])

def dataNotifiers (ext : Externs) (st : AppState) : NTree := .node (neBuild [
    ("kodi", neNode [
      ("enabled", .leaf (jB (st.attrs "USE_KODI"))),
      ("alwaysOn", .leaf (jB (st.attrs "KODI_ALWAYS_ON"))),
      ("notifyOnSnatch", .leaf (jB (st.attrs "KODI_NOTIFY_ONSNATCH"))),
      ("notifyOnDownload", .leaf (jB (st.attrs "KODI_NOTIFY_ONDOWNLOAD"))),
      ("notifyOnSubtitleDownload", .leaf (jB (st.attrs "KODI_NOTIFY_ONSUBTITLEDOWNLOAD"))),
      ("update", neNode [
        ("library", .leaf (jB (st.attrs "KODI_UPDATE_LIBRARY"))),
        ("full", .leaf (jB (st.attrs "KODI_UPDATE_FULL"))),
        ("onlyFirst", .leaf (jB (st.attrs "KODI_UPDATE_ONLYFIRST")))
      ]),
      ("host", .leaf (st.attrs "KODI_HOST")),
      ("username", .leaf (st.attrs "KODI_USERNAME")),
      ("password", .leaf (st.attrs "KODI_PASSWORD")),
      ("libraryCleanPending", .leaf (jB (st.attrs "KODI_LIBRARY_CLEAN_PENDING"))),
      ("cleanLibrary", .leaf (jB (st.attrs "KODI_CLEAN_LIBRARY")))
    ]),
    ("plex", neNode [
      ("server", neNode [
        ("enabled", .leaf (jB (st.attrs "USE_PLEX_SERVER"))),
        ("updateLibrary", .leaf (jB (st.attrs "PLEX_UPDATE_LIBRARY"))),
        ("host", .leaf (st.attrs "PLEX_SERVER_HOST")),
        ("https", .leaf (jB (st.attrs "PLEX_SERVER_HTTPS"))),
        ("username", .leaf (st.attrs "PLEX_SERVER_USERNAME")),
        ("password", .leaf (st.attrs "PLEX_SERVER_PASSWORD")),
        ("token", .leaf (st.attrs "PLEX_SERVER_TOKEN"))
      ]),
      ("client", neNode [
        ("enabled", .leaf (jB (st.attrs "USE_PLEX_CLIENT"))),
        ("username", .leaf (st.attrs "PLEX_CLIENT_USERNAME")),
        ("host", .leaf (st.attrs "PLEX_CLIENT_HOST")),
        ("notifyOnSnatch", .leaf (jB (st.attrs "PLEX_NOTIFY_ONSNATCH"))),
        ("notifyOnDownload", .leaf (jB (st.attrs "PLEX_NOTIFY_ONDOWNLOAD"))),
        ("notifyOnSubtitleDownload", .leaf (jB (st.attrs "PLEX_NOTIFY_ONSUBTITLEDOWNLOAD")))
      ])
    ]),
    ("emby", neNode [
      ("enabled", .leaf (jB (st.attrs "USE_EMBY"))),
      ("host", .leaf (st.attrs "EMBY_HOST")),
      ("apiKey", .leaf (st.attrs "EMBY_APIKEY"))
    ]),
    ("nmj", neNode [
      ("enabled", .leaf (jB (st.attrs "USE_NMJ"))),
      ("host", .leaf (st.attrs "NMJ_HOST")),
      ("database", .leaf (st.attrs "NMJ_DATABASE")),
      ("mount", .leaf (st.attrs "NMJ_MOUNT"))
    ]),
    ("nmjv2", neNode [
      ("enabled", .leaf (jB (st.attrs "USE_NMJv2"))),
      ("host", .leaf (st.attrs "NMJv2_HOST")),
      ("dbloc", .leaf (st.attrs "NMJv2_DBLOC")),
      ("database", .leaf (st.attrs "NMJv2_DATABASE"))
    ]),
    ("synologyIndex", neNode [
      ("enabled", .leaf (jB (st.attrs "USE_SYNOINDEX")))
    ]),
    ("synology", neNode [
      ("enabled", .leaf (jB (st.attrs "USE_SYNOLOGYNOTIFIER"))),
      ("notifyOnSnatch", .leaf (jB (st.attrs "SYNOLOGYNOTIFIER_NOTIFY_ONSNATCH"))),
      ("notifyOnDownload", .leaf (jB (st.attrs "SYNOLOGYNOTIFIER_NOTIFY_ONDOWNLOAD"))),
      ("notifyOnSubtitleDownload", .leaf (jB (st.attrs "SYNOLOGYNOTIFIER_NOTIFY_ONSUBTITLEDOWNLOAD")))
    ]),
    ("pyTivo", neNode [
      ("enabled", .leaf (jB (st.attrs "USE_PYTIVO"))),
      ("host", .leaf (st.attrs "PYTIVO_HOST")),
      ("name", .leaf (st.attrs "PYTIVO_TIVO_NAME")),
      ("shareName", .leaf (st.attrs "PYTIVO_SHARE_NAME"))
    ]),
    ("growl", neNode [
      ("enabled", .leaf (jB (st.attrs "USE_GROWL"))),
      ("host", .leaf (st.attrs "GROWL_HOST")),
      ("password", .leaf (st.attrs "GROWL_PASSWORD")),
      ("notifyOnSnatch", .leaf (jB (st.attrs "GROWL_NOTIFY_ONSNATCH"))),
      ("notifyOnDownload", .leaf (jB (st.attrs "GROWL_NOTIFY_ONDOWNLOAD"))),
      ("notifyOnSubtitleDownload", .leaf (jB (st.attrs "GROWL_NOTIFY_ONSUBTITLEDOWNLOAD")))
    ]),
    ("prowl", neNode [
      ("enabled", .leaf (jB (st.attrs "USE_PROWL"))),
      ("api", .leaf (st.attrs "PROWL_API")),
      ("messageTitle", .leaf (st.attrs "PROWL_MESSAGE_TITLE")),
      ("priority", .leaf (jI (st.attrs "PROWL_PRIORITY"))),
      ("notifyOnSnatch", .leaf (jB (st.attrs "PROWL_NOTIFY_ONSNATCH"))),
      ("notifyOnDownload", .leaf (jB (st.attrs "PROWL_NOTIFY_ONDOWNLOAD"))),
      ("notifyOnSubtitleDownload", .leaf (jB (st.attrs "PROWL_NOTIFY_ONSUBTITLEDOWNLOAD")))
    ]),
    ("libnotify", neNode [
      ("enabled", .leaf (jB (st.attrs "USE_LIBNOTIFY"))),
      ("notifyOnSnatch", .leaf (jB (st.attrs "LIBNOTIFY_NOTIFY_ONSNATCH"))),
      ("notifyOnDownload", .leaf (jB (st.attrs "LIBNOTIFY_NOTIFY_ONDOWNLOAD"))),
      ("notifyOnSubtitleDownload", .leaf (jB (st.attrs "LIBNOTIFY_NOTIFY_ONSUBTITLEDOWNLOAD")))
    ]),
    ("pushover", neNode [
      ("enabled", .leaf (jB (st.attrs "USE_PUSHOVER"))),
      ("apiKey", .leaf (st.attrs "PUSHOVER_APIKEY")),
      ("userKey", .leaf (st.attrs "PUSHOVER_USERKEY")),
      ("device", .leaf (st.attrs "PUSHOVER_DEVICE")),
      ("sound", .leaf (st.attrs "PUSHOVER_SOUND")),
      ("priority", .leaf (jI (st.attrs "PUSHOVER_PRIORITY"))),
      ("notifyOnSnatch", .leaf (jB (st.attrs "PUSHOVER_NOTIFY_ONSNATCH"))),
      ("notifyOnDownload", .leaf (jB (st.attrs "PUSHOVER_NOTIFY_ONDOWNLOAD"))),
      ("notifyOnSubtitleDownload", .leaf (jB (st.attrs "PUSHOVER_NOTIFY_ONSUBTITLEDOWNLOAD")))
    ]),
    ("boxcar2", neNode [
      ("enabled", .leaf (jB (st.attrs "USE_BOXCAR2"))),
      ("notifyOnSnatch", .leaf (jB (st.attrs "BOXCAR2_NOTIFY_ONSNATCH"))),
      ("notifyOnDownload", .leaf (jB (st.attrs "BOXCAR2_NOTIFY_ONDOWNLOAD"))),
      ("notifyOnSubtitleDownload", .leaf (jB (st.attrs "BOXCAR2_NOTIFY_ONSUBTITLEDOWNLOAD"))),
      ("accessToken", .leaf (st.attrs "BOXCAR2_ACCESSTOKEN"))
    ]),
    ("pushalot", neNode [
      ("enabled", .leaf (jB (st.attrs "USE_PUSHALOT"))),
      ("notifyOnSnatch", .leaf (jB (st.attrs "PUSHALOT_NOTIFY_ONSNATCH"))),
      ("notifyOnDownload", .leaf (jB (st.attrs "PUSHALOT_NOTIFY_ONDOWNLOAD"))),
      ("notifyOnSubtitleDownload", .leaf (jB (st.attrs "PUSHALOT_NOTIFY_ONSUBTITLEDOWNLOAD"))),
      ("authToken", .leaf (st.attrs "PUSHALOT_AUTHORIZATIONTOKEN"))
    ]),
    ("pushbullet", neNode [
      ("enabled", .leaf (jB (st.attrs "USE_PUSHBULLET"))),
      ("notifyOnSnatch", .leaf (jB (st.attrs "PUSHBULLET_NOTIFY_ONSNATCH"))),
      ("notifyOnDownload", .leaf (jB (st.attrs "PUSHBULLET_NOTIFY_ONDOWNLOAD"))),
      ("notifyOnSubtitleDownload", .leaf (jB (st.attrs "PUSHBULLET_NOTIFY_ONSUBTITLEDOWNLOAD"))),
      ("api", .leaf (st.attrs "PUSHBULLET_API")),
      ("device", .leaf (st.attrs "PUSHBULLET_DEVICE"))
    ]),
    ("join", neNode [
      ("enabled", .leaf (jB (st.attrs "USE_JOIN"))),
      ("notifyOnSnatch", .leaf (jB (st.attrs "JOIN_NOTIFY_ONSNATCH"))),
      ("notifyOnDownload", .leaf (jB (st.attrs "JOIN_NOTIFY_ONDOWNLOAD"))),
      ("notifyOnSubtitleDownload", .leaf (jB (st.attrs "JOIN_NOTIFY_ONSUBTITLEDOWNLOAD"))),
      ("api", .leaf (st.attrs "JOIN_API")),
      ("device", .leaf (st.attrs "JOIN_DEVICE"))
    ]),
    ("freemobile", neNode [
      ("enabled", .leaf (jB (st.attrs "USE_FREEMOBILE"))),
      ("notifyOnSnatch", .leaf (jB (st.attrs "FREEMOBILE_NOTIFY_ONSNATCH"))),
      ("notifyOnDownload", .leaf (jB (st.attrs "FREEMOBILE_NOTIFY_ONDOWNLOAD"))),
      ("notifyOnSubtitleDownload", .leaf (jB (st.attrs "FREEMOBILE_NOTIFY_ONSUBTITLEDOWNLOAD"))),
      ("api", .leaf (st.attrs "FREEMOBILE_APIKEY")),
      ("id", .leaf (st.attrs "FREEMOBILE_ID"))
    ]),
    ("telegram", neNode [
      ("enabled", .leaf (jB (st.attrs "USE_TELEGRAM"))),
      ("notifyOnSnatch", .leaf (jB (st.attrs "TELEGRAM_NOTIFY_ONSNATCH"))),
      ("notifyOnDownload", .leaf (jB (st.attrs "TELEGRAM_NOTIFY_ONDOWNLOAD"))),
      ("notifyOnSubtitleDownload", .leaf (jB (st.attrs "TELEGRAM_NOTIFY_ONSUBTITLEDOWNLOAD"))),
      ("api", .leaf (st.attrs "TELEGRAM_APIKEY")),
      ("id", .leaf (st.attrs "TELEGRAM_ID"))
    ]),
    ("twitter", neNode [
      ("enabled", .leaf (jB (st.attrs "USE_TWITTER"))),
      ("notifyOnSnatch", .leaf (jB (st.attrs "TWITTER_NOTIFY_ONSNATCH"))),
      ("notifyOnDownload", .leaf (jB (st.attrs "TWITTER_NOTIFY_ONDOWNLOAD"))),
      ("notifyOnSubtitleDownload", .leaf (jB (st.attrs "TWITTER_NOTIFY_ONSUBTITLEDOWNLOAD"))),
      ("dmto", .leaf (st.attrs "TWITTER_DMTO")),
      ("username", .leaf (st.attrs "TWITTER_USERNAME")),
      ("password", .leaf (st.attrs "TWITTER_PASSWORD")),
      ("prefix", .leaf (st.attrs "TWITTER_PREFIX")),
      ("directMessage", .leaf (jB (st.attrs "TWITTER_USEDM")))
    ]),
    ("trakt", neNode [
      ("enabled", .leaf (jB (st.attrs "USE_TRAKT"))),
      ("pinUrl", .leaf (st.attrs "TRAKT_PIN_URL")),
      ("username", .leaf (st.attrs "TRAKT_USERNAME")),
      ("accessToken", .leaf (st.attrs "TRAKT_ACCESS_TOKEN")),
      ("timeout", .leaf (jI (st.attrs "TRAKT_TIMEOUT"))),
      ("defaultIndexer", .leaf (jI (st.attrs "TRAKT_DEFAULT_INDEXER"))),
      ("sync", .leaf (jB (st.attrs "TRAKT_SYNC"))),
      ("syncRemove", .leaf (jB (st.attrs "TRAKT_SYNC_REMOVE"))),
      ("syncWatchlist", .leaf (jB (st.attrs "TRAKT_SYNC_WATCHLIST"))),
      ("methodAdd", .leaf (jI (st.attrs "TRAKT_METHOD_ADD"))),
      ("removeWatchlist", .leaf (jB (st.attrs "TRAKT_REMOVE_WATCHLIST"))),
      ("removeSerieslist", .leaf (jB (st.attrs "TRAKT_REMOVE_SERIESLIST"))),
      ("removeShowFromApplication", .leaf (jB (st.attrs "TRAKT_REMOVE_SHOW_FROM_APPLICATION"))),
      ("startPaused", .leaf (jB (st.attrs "TRAKT_START_PAUSED"))),
      ("blacklistName", .leaf (st.attrs "TRAKT_BLACKLIST_NAME"))
    ]),
    ("email", neNode [
      ("enabled", .leaf (jB (st.attrs "USE_EMAIL"))),
      ("notifyOnSnatch", .leaf (jB (st.attrs "EMAIL_NOTIFY_ONSNATCH"))),
      ("notifyOnDownload", .leaf (jB (st.attrs "EMAIL_NOTIFY_ONDOWNLOAD"))),
      ("notifyOnSubtitleDownload", .leaf (jB (st.attrs "EMAIL_NOTIFY_ONSUBTITLEDOWNLOAD"))),
      ("host", .leaf (st.attrs "EMAIL_HOST")),
      ("port", .leaf (st.attrs "EMAIL_PORT")),
      ("from", .leaf (st.attrs "EMAIL_FROM")),
      ("tls", .leaf (jB (st.attrs "EMAIL_TLS"))),
      ("username", .leaf (st.attrs "EMAIL_USER")),
      ("password", .leaf (st.attrs "EMAIL_PASSWORD")),
      ("addressList", .leaf (st.attrs "EMAIL_LIST")),
      ("subject", .leaf (st.attrs "EMAIL_SUBJECT"))
    ]),
    ("slack", neNode [
      ("enabled", .leaf (jB (st.attrs "USE_SLACK"))),
      ("notifyOnSnatch", .leaf (jB (st.attrs "SLACK_NOTIFY_SNATCH"))),
      ("notifyOnDownload", .leaf (jB (st.attrs "SLACK_NOTIFY_DOWNLOAD"))),
      ("notifyOnSubtitleDownload", .leaf (jB (st.attrs "SLACK_NOTIFY_SUBTITLEDOWNLOAD"))),
      ("webhook", .leaf (st.attrs "SLACK_WEBHOOK"))
    ])
])

/-- `DataGenerator.data_metadata`. -/
def dataMetadata (_ext : Externs) (st : AppState) : NTree :=
  .node (neBuild [("metadataProviders",
    .node (neBuild0 [] (st.providers.map (fun p => (providerId p, p)))))])

/-- `DataGenerator.sections()`: the section names discovered from the
`data_`-prefixed producer functions.  `inspect.getmembers` returns members
sorted by name, so the list is alphabetical. -/
def sections : List String :=
  ["main", "metadata", "notifiers", "qualities", "search", "statuses"]

/-- `DataGenerator.get_data(section)`: dispatch to the producer.  An unknown
section would be an attribute error in the source; `http_get` only calls
this for registered sections, and the model returns an empty mapping on the
unreachable branch. -/
def getData (ext : Externs) (st : AppState) : String → NTree
  | "main" => dataMain ext st
  | "metadata" => dataMetadata ext st
  | "notifiers" => dataNotifiers ext st
  | "qualities" => dataQualities ext st
  | "search" => dataSearch ext st
  | "statuses" => dataStatuses ext st
  | _ => emptyT

/-- Outcome of a GET request. -/
inductive GetOutcome where
  | ok (body : NTree) : GetOutcome
  | badRequest : GetOutcome
  | notFound : GetOutcome

/-- Top-level key access used by the `path_param` branch
(`path_param in config_data` / `config_data[path_param]`). -/
def topGet (t : NTree) (k : String) : Option NTree :=
  match t with
  | .node cs => assocGet cs k
  | .leaf _ => none

/-- The full snapshot of `http_get` without an identifier: a `NonEmptyDict`
keyed by every registered section name. -/
def fullSnapshot (ext : Externs) (st : AppState) : NTree :=
  .node (neBuild0 [] (sections.map (fun s => (s, getData ext st s))))

/-- `ConfigHandler.http_get`: a truthy identifier outside the registered
sections is a 404; no identifier yields the full snapshot; a truthy
`path_param` must be a top-level key of the section data (else 400) and
selects that value. -/
def httpGet (ext : Externs) (st : AppState) (identifier : Option String)
    (pathParam : Option String) : GetOutcome :=
  let idv := match identifier with
             | none => ""
             | some s => s
  if idv ≠ "" ∧ ¬ (sections.contains idv) then .notFound
  else if idv = "" then .ok (fullSnapshot ext st)
  else
    let cd := getData ext st idv
    match pathParam with
    | none => .ok cd
    | some p =>
      if p = "" then .ok cd
      else
        match topGet cd p with
        | none => .badRequest
        | some sub => .ok sub

/-! ### Path and association-list lemmas -/

/-- `Pre p q`: the segment path `p` is an initial segment of `q`. -/
def Pre (p q : List String) : Prop := ∃ t, p ++ t = q

/-- Two paths neither of which is an initial segment of the other. -/
def notInc (p q : List String) : Prop := ¬ Pre p q ∧ ¬ Pre q p

theorem Pre_refl (p : List String) : Pre p p := ⟨[], by simp⟩

theorem Pre_nil (q : List String) : Pre [] q := ⟨q, rfl⟩

theorem Pre_cons_iff (a b : String) (p q : List String) :
    Pre (a :: p) (b :: q) ↔ a = b ∧ Pre p q := by
  constructor
  · rintro ⟨t, h⟩
    injection h with h1 h2
    exact ⟨h1, t, h2⟩
  · rintro ⟨rfl, t, rfl⟩
    exact ⟨t, rfl⟩

theorem not_Pre_cons_nil (a : String) (p : List String) : ¬ Pre (a :: p) [] := by
  rintro ⟨t, h⟩
  simp at h

theorem Pre_comparable (p q r : List String) (hp : Pre p r) (hq : Pre q r) :
    Pre p q ∨ Pre q p := by
  induction r generalizing p q with
  | nil =>
    obtain ⟨tp, hp⟩ := hp
    obtain ⟨tq, hq⟩ := hq
    simp only [List.append_eq_nil] at hp hq
    rw [hp.1, hq.1]
    exact Or.inl (Pre_refl [])
  | cons a r ih =>
    match p, q with
    | [], _ => exact Or.inl (Pre_nil _)
    | _ :: _, [] => exact Or.inr (Pre_nil _)
    | b :: p, c :: q =>
      obtain ⟨hb, hp2⟩ := (Pre_cons_iff b a p r).1 hp
      obtain ⟨hc, hq2⟩ := (Pre_cons_iff c a q r).1 hq
      rcases ih p q hp2 hq2 with h | h
      · exact Or.inl ((Pre_cons_iff b c p q).2 ⟨hb.trans hc.symm, h⟩)
      · exact Or.inr ((Pre_cons_iff c b q p).2 ⟨hc.trans hb.symm, h⟩)

theorem notInc_symm (p q : List String) (h : notInc p q) : notInc q p := ⟨h.2, h.1⟩

theorem assocGet_assocSet_self (cs : List (String × NTree)) (k : String) (v : NTree) :
    assocGet (assocSet cs k v) k = some v := by
  induction cs with
  | nil => simp [assocSet, assocGet]
  | cons e rest ih =>
    by_cases h : e.1 = k
    · simp [assocSet, assocGet, h]
    · simp [assocSet, assocGet, h, ih]

theorem assocGet_assocSet_ne (cs : List (String × NTree)) (k1 k : String) (v : NTree)
    (h : k1 ≠ k) : assocGet (assocSet cs k1 v) k = assocGet cs k := by
  induction cs with
  | nil => simp [assocSet, assocGet, h]
  | cons e rest ih =>
    by_cases h2 : e.1 = k1
    · simp [assocSet, assocGet, h2, h]
    · simp only [assocSet, assocGet, h2, if_false]
      by_cases h3 : e.1 = k <;> simp [h3, ih]

theorem keysOf_cons (e : String × NTree) (rest : List (String × NTree)) :
    keysOf (e :: rest) = e.1 :: keysOf rest := rfl

theorem assocGet_absent (cs : List (String × NTree)) (k : String)
    (h : k ∉ keysOf cs) : assocGet cs k = none := by
  induction cs with
  | nil => rfl
  | cons e rest ih =>
    rw [keysOf_cons] at h
    have h1 : e.1 ≠ k := by
      intro hh
      exact h (by rw [← hh]; exact List.mem_cons_self _ _)
    have h2 : k ∉ keysOf rest := fun hh => h (List.mem_cons_of_mem _ hh)
    calc assocGet (e :: rest) k = assocGet rest k := by simp [assocGet, h1]
    _ = none := ih h2

theorem assocGet_assocRemove_ne (cs : List (String × NTree)) (k1 k : String)
    (h : k1 ≠ k) : assocGet (assocRemove cs k1) k = assocGet cs k := by
  induction cs with
  | nil => rfl
  | cons e rest ih =>
    by_cases h2 : e.1 = k1
    · have hek : e.1 ≠ k := fun hh => h (h2.symm.trans hh)
      simp [assocRemove, assocGet, h2, hek, h]
    · by_cases h3 : e.1 = k <;> simp [assocRemove, assocGet, h2, h3, ih, Ne.symm h]

theorem assocGet_assocRemove_self (cs : List (String × NTree)) (k : String)
    (h : (keysOf cs).Nodup) : assocGet (assocRemove cs k) k = none := by
  induction cs with
  | nil => rfl
  | cons e rest ih =>
    simp only [keysOf, List.map_cons, List.nodup_cons] at h
    by_cases h2 : e.1 = k
    · simp only [assocRemove, if_pos h2]
      exact assocGet_absent rest k (h2 ▸ h.1)
    · simp only [assocRemove, if_neg h2, assocGet, if_neg h2]
      exact ih h.2


/-! ### setNested / lookupLeaf interaction -/

theorem lookupLeaf_emptyT (q : List String) : lookupLeaf emptyT q = none := by
  cases q <;> rfl

theorem lookupLeaf_node_cons (cs : List (String × NTree)) (k : String) (q : List String) :
    lookupLeaf (.node cs) (k :: q) =
      (match assocGet cs k with
       | some c => lookupLeaf c q
       | none => none) := rfl

/-- Frame: grafting at `p` does not disturb the leaf seen at any path
incomparable with `p`. -/
theorem lookupLeaf_setNested_frame (p : List String) :
    ∀ (t g : NTree) (q : List String), ¬ Pre p q → ¬ Pre q p →
      lookupLeaf (setNested t p g) q = lookupLeaf t q := by
  induction p with
  | nil => intro t g q hpq _; exact absurd (Pre_nil q) hpq
  | cons a p ih =>
    intro t g q hpq hqp
    match q with
    | [] => exact absurd (Pre_nil (a :: p)) hqp
    | b :: q =>
      by_cases hab : a = b
      · subst hab
        have hpq2 : ¬ Pre p q := fun h => hpq ((Pre_cons_iff a a p q).2 ⟨rfl, h⟩)
        have hqp2 : ¬ Pre q p := fun h => hqp ((Pre_cons_iff a a q p).2 ⟨rfl, h⟩)
        match t with
        | .leaf w =>
          show lookupLeaf (.node [(a, setNested emptyT p g)]) (a :: q) = none
          rw [lookupLeaf_node_cons]
          have hget : assocGet [(a, setNested emptyT p g)] a = some (setNested emptyT p g) := by
            simp [assocGet]
          rw [hget]
          exact (ih emptyT g q hpq2 hqp2).trans (lookupLeaf_emptyT q)
        | .node cs =>
          show lookupLeaf (.node (assocSet cs a _)) (a :: q) = lookupLeaf (.node cs) (a :: q)
          rw [lookupLeaf_node_cons, lookupLeaf_node_cons, assocGet_assocSet_self]
          cases hc : assocGet cs a with
          | some c =>
            simp only [hc, Option.getD]
            exact ih c g q hpq2 hqp2
          | none =>
            simp only [hc, Option.getD]
            rw [ih emptyT g q hpq2 hqp2]
            exact lookupLeaf_emptyT q
      · match t with
        | .leaf w =>
          show lookupLeaf (.node [(a, setNested emptyT p g)]) (b :: q) = none
          rw [lookupLeaf_node_cons]
          simp [assocGet, hab]
        | .node cs =>
          show lookupLeaf (.node (assocSet cs a _)) (b :: q) = lookupLeaf (.node cs) (b :: q)
          rw [lookupLeaf_node_cons, lookupLeaf_node_cons, assocGet_assocSet_ne cs a b _ hab]

/-- At and below the graft: if no strict ancestor of `p` holds a leaf of
`t`, the leaves of the grafted subtree are seen under `p`. -/
theorem lookupLeaf_setNested_at (p : List String) :
    ∀ (t g : NTree) (tail : List String),
      (∀ q, Pre q p → q ≠ p → lookupLeaf t q = none) →
      lookupLeaf (setNested t p g) (p ++ tail) = lookupLeaf g tail := by
  induction p with
  | nil => intro t g tail _; rfl
  | cons a p ih =>
    intro t g tail hanc
    match t with
    | .leaf w =>
      have : lookupLeaf (.leaf w) [] = none :=
        hanc [] (Pre_nil _) (by intro h; exact List.noConfusion h)
      exact absurd this (by simp [lookupLeaf])
    | .node cs =>
      show lookupLeaf (.node (assocSet cs a _)) (a :: (p ++ tail)) = lookupLeaf g tail
      rw [lookupLeaf_node_cons, assocGet_assocSet_self]
      have hanc2 : ∀ q, Pre q p → q ≠ p →
          lookupLeaf ((assocGet cs a).getD emptyT) q = none := by
        intro q hq hqne
        have h3 := hanc (a :: q) ((Pre_cons_iff a a q p).2 ⟨rfl, hq⟩)
          (fun h => hqne (by simpa using h))
        rw [lookupLeaf_node_cons] at h3
        cases hc : assocGet cs a with
        | some c => rw [hc] at h3; simpa [Option.getD] using h3
        | none => simp [Option.getD, lookupLeaf_emptyT]
      exact ih _ g tail hanc2

/-- A strict ancestor of the grafted path never holds a leaf after the
graft. -/
theorem lookupLeaf_setNested_anc (p : List String) :
    ∀ (t g : NTree) (q : List String), Pre q p → q ≠ p →
      lookupLeaf (setNested t p g) q = none := by
  induction p with
  | nil =>
    intro t g q hq hqne
    obtain ⟨tail, h⟩ := hq
    simp only [List.append_eq_nil] at h
    exact absurd h.1 hqne
  | cons a p ih =>
    intro t g q hq hqne
    match q with
    | [] =>
      match t with
      | .leaf w => rfl
      | .node cs => rfl
    | b :: q =>
      obtain ⟨hb, hq2⟩ := (Pre_cons_iff b a q p).1 hq
      subst hb
      have hqne2 : q ≠ p := fun h => hqne (by rw [h])
      match t with
      | .leaf w =>
        show lookupLeaf (.node [(b, setNested emptyT p g)]) (b :: q) = none
        rw [lookupLeaf_node_cons]
        simp only [assocGet, if_pos rfl]
        exact ih emptyT g q hq2 hqne2
      | .node cs =>
        show lookupLeaf (.node (assocSet cs b _)) (b :: q) = none
        rw [lookupLeaf_node_cons, assocGet_assocSet_self]
        exact ih _ g q hq2 hqne2

/-- Peeling induction principle for nested trees: leaf, empty mapping, and
mapping extended by one binding. -/
theorem NTree.pind (P : NTree → Prop) (hleaf : ∀ v, P (.leaf v)) (hnil : P (.node []))
    (hcons : ∀ k c rest, P c → P (.node rest) → P (.node ((k, c) :: rest))) :
    ∀ t, P t
  | .leaf v => hleaf v
  | .node [] => hnil
  | .node ((k, c) :: rest) =>
      hcons k c rest (NTree.pind P hleaf hnil hcons c)
        (NTree.pind P hleaf hnil hcons (.node rest))

theorem wfb_node (cs : List (String × NTree)) : wfb (.node cs) = wfbL cs := rfl

theorem wfbL_cons (k : String) (c : NTree) (rest : List (String × NTree)) :
    wfbL ((k, c) :: rest) = (!keyMemB k rest && wfb c && wfbL rest) := rfl

theorem keyMemB_false_get (cs : List (String × NTree)) (k : String)
    (h : keyMemB k cs = false) : assocGet cs k = none := by
  induction cs with
  | nil => rfl
  | cons e rest ih =>
    rw [show keyMemB k (e :: rest) = (e.1 == k || keyMemB k rest) from rfl] at h
    simp only [Bool.or_eq_false_iff] at h
    have h1 : e.1 ≠ k := by
      intro hh
      rw [hh] at h
      simp at h
    rw [show assocGet (e :: rest) k = if e.1 = k then some e.2 else assocGet rest k from rfl,
      if_neg h1]
    exact ih h.2

/-- Every binding of a well-formed mapping holds a well-formed subtree. -/
theorem wfb_get (cs : List (String × NTree)) (k : String) (c : NTree)
    (hwf : wfbL cs = true) (hget : assocGet cs k = some c) : wfb c = true := by
  induction cs with
  | nil => exact absurd hget (by simp [assocGet])
  | cons e rest ih =>
    rw [show (e : String × NTree) = (e.1, e.2) from rfl, wfbL_cons] at hwf
    simp only [Bool.and_eq_true] at hwf
    rw [show assocGet (e :: rest) k = if e.1 = k then some e.2 else assocGet rest k from rfl] at hget
    by_cases h : e.1 = k
    · rw [if_pos h] at hget
      injection hget with hh
      exact hh ▸ hwf.1.2
    · rw [if_neg h] at hget
      exact ih hwf.2 hget

theorem keyMemB_iff (cs : List (String × NTree)) (k : String) :
    keyMemB k cs = true ↔ k ∈ keysOf cs := by
  induction cs with
  | nil => simp [keyMemB, keysOf]
  | cons e rest ih =>
    rw [show keyMemB k (e :: rest) = (e.1 == k || keyMemB k rest) from rfl, keysOf_cons]
    simp only [Bool.or_eq_true, beq_iff_eq, List.mem_cons, ih]
    constructor
    · rintro (h | h)
      · exact Or.inl h.symm
      · exact Or.inr h
    · rintro (h | h)
      · exact Or.inl h.symm
      · exact Or.inr h

/-- Keys of a well-formed mapping are distinct. -/
theorem wfb_keys_nodup (cs : List (String × NTree)) (hwf : wfbL cs = true) :
    (keysOf cs).Nodup := by
  induction cs with
  | nil => simp [keysOf]
  | cons e rest ih =>
    rw [show (e : String × NTree) = (e.1, e.2) from rfl, wfbL_cons] at hwf
    simp only [Bool.and_eq_true] at hwf
    rw [keysOf_cons]
    refine List.nodup_cons.2 ⟨?_, ih hwf.2⟩
    have h1 := hwf.1.1
    simp only [Bool.not_eq_true'] at h1
    intro hmem
    rw [← keyMemB_iff] at hmem
    rw [h1] at hmem
    exact Bool.noConfusion hmem

theorem keyMemB_assocSet (cs : List (String × NTree)) (k1 k : String) (v : NTree) :
    keyMemB k (assocSet cs k1 v) = (keyMemB k cs || (k1 == k)) := by
  induction cs with
  | nil => simp [assocSet, keyMemB]
  | cons e rest ih =>
    by_cases h : e.1 = k1
    · rw [show assocSet (e :: rest) k1 v = if e.1 = k1 then (k1, v) :: rest
          else e :: assocSet rest k1 v from rfl, if_pos h]
      rw [show keyMemB k ((k1, v) :: rest) = (k1 == k || keyMemB k rest) from rfl]
      rw [show keyMemB k (e :: rest) = (e.1 == k || keyMemB k rest) from rfl, h]
      cases hk : (k1 == k) <;> cases hm : keyMemB k rest <;> simp
    · rw [show assocSet (e :: rest) k1 v = if e.1 = k1 then (k1, v) :: rest
          else e :: assocSet rest k1 v from rfl, if_neg h]
      rw [show keyMemB k (e :: assocSet rest k1 v) = (e.1 == k || keyMemB k (assocSet rest k1 v)) from rfl]
      rw [show keyMemB k (e :: rest) = (e.1 == k || keyMemB k rest) from rfl]
      rw [ih, Bool.or_assoc]

theorem wfbL_assocSet (cs : List (String × NTree)) (k : String) (v : NTree)
    (hwf : wfbL cs = true) (hv : wfb v = true) : wfbL (assocSet cs k v) = true := by
  induction cs with
  | nil => simp [assocSet, wfbL_cons, keyMemB, hv, wfbL]
  | cons e rest ih =>
    rw [show (e : String × NTree) = (e.1, e.2) from rfl, wfbL_cons] at hwf
    simp only [Bool.and_eq_true] at hwf
    by_cases h : e.1 = k
    · rw [show assocSet ((e.1, e.2) :: rest) k v = if e.1 = k then (k, v) :: rest
          else (e.1, e.2) :: assocSet rest k v from rfl, if_pos h, wfbL_cons]
      simp only [Bool.and_eq_true]
      exact ⟨⟨by rw [← h]; exact hwf.1.1, hv⟩, hwf.2⟩
    · rw [show assocSet ((e.1, e.2) :: rest) k v = if e.1 = k then (k, v) :: rest
          else (e.1, e.2) :: assocSet rest k v from rfl, if_neg h, wfbL_cons]
      simp only [Bool.and_eq_true]
      refine ⟨⟨?_, hwf.1.2⟩, ih hwf.2⟩
      rw [keyMemB_assocSet]
      have h1 := hwf.1.1
      simp only [Bool.not_eq_true'] at h1 ⊢
      rw [h1]
      simp only [Bool.false_or, beq_eq_false_iff_ne]
      exact fun hh => h hh.symm

/-- Grafting a well-formed subtree into a well-formed tree preserves
well-formedness. -/
theorem wfb_setNested (p : List String) :
    ∀ (t g : NTree), wfb t = true → wfb g = true → wfb (setNested t p g) = true := by
  induction p with
  | nil => intro t g _ hg; exact hg
  | cons a p ih =>
    intro t g ht hg
    match t with
    | .leaf w =>
      show wfb (.node [(a, setNested emptyT p g)]) = true
      rw [wfb_node, wfbL_cons]
      simp only [Bool.and_eq_true]
      exact ⟨⟨rfl, ih emptyT g rfl hg⟩, rfl⟩
    | .node cs =>
      show wfb (.node (assocSet cs a _)) = true
      rw [wfb_node]
      refine wfbL_assocSet cs a _ (by rw [← wfb_node]; exact ht) ?_
      cases hc : assocGet cs a with
      | some c =>
        simp only [hc, Option.getD]
        exact ih c g (wfb_get cs a c (by rw [← wfb_node]; exact ht) hc) hg
      | none =>
        simp only [hc, Option.getD]
        exact ih emptyT g rfl hg

/-! ### Flatten / lookup correspondence -/

theorem flat_node (cs : List (String × NTree)) : flattenSeg (.node cs) = flattenList cs := rfl

theorem flatL_cons (k : String) (c : NTree) (rest : List (String × NTree)) :
    flattenList ((k, c) :: rest) =
      (flattenSeg c).map (fun e => (k :: e.1, e.2)) ++ flattenList rest := rfl

/-- Every flattened path of a mapping starts with one of its keys. -/
theorem flatL_head (cs : List (String × NTree)) (p : List String) (v : Json)
    (h : (p, v) ∈ flattenList cs) : ∃ k q, p = k :: q ∧ k ∈ keysOf cs := by
  induction cs with
  | nil => exact absurd h (by simp [flattenList])
  | cons e rest ih =>
    rw [show (e : String × NTree) = (e.1, e.2) from rfl, flatL_cons] at h
    rcases List.mem_append.1 h with h1 | h1
    · obtain ⟨a, _ha, hae⟩ := List.mem_map.1 h1
      refine ⟨e.1, a.1, ?_, ?_⟩
      · exact (Prod.mk.injEq _ _ _ _ ▸ hae.symm).1
      · rw [keysOf_cons]; exact List.mem_cons_self _ _
    · obtain ⟨k, q, hq, hk⟩ := ih h1
      exact ⟨k, q, hq, by rw [keysOf_cons]; exact List.mem_cons_of_mem _ hk⟩

/-- Flattened paths of a mapping are never empty. -/
theorem flatL_ne_nil (cs : List (String × NTree)) (p : List String) (v : Json)
    (h : (p, v) ∈ flattenList cs) : p ≠ [] := by
  obtain ⟨k, q, hq, _⟩ := flatL_head cs p v h
  rw [hq]
  exact List.cons_ne_nil k q

/-- Flatten agrees with point lookup on well-formed trees: `(p, v)` is
produced by the flatten half exactly when a leaf with value `v` sits at
path `p`. -/
theorem flat_iff_lookup (t : NTree) (hwf : wfb t = true) (p : List String) (v : Json) :
    (p, v) ∈ flattenSeg t ↔ lookupLeaf t p = some v := by
  induction t using NTree.pind generalizing p with
  | hleaf w =>
    match p with
    | [] =>
      show (([] : List String), v) ∈ [(([] : List String), w)] ↔ some w = some v
      simp [Prod.mk.injEq, eq_comm]
    | a :: q =>
      show ((a :: q, v) ∈ [(([] : List String), w)]) ↔ none = some v
      simp
  | hnil =>
    match p with
    | [] => simp [flattenSeg, flattenList, lookupLeaf]
    | a :: q => simp [flattenSeg, flattenList, lookupLeaf, assocGet]
  | hcons k c rest ihc ihrest =>
    rw [wfb_node, wfbL_cons] at hwf
    simp only [Bool.and_eq_true] at hwf
    have ihc2 := ihc hwf.1.2
    have ihrest2 := ihrest (by rw [wfb_node]; exact hwf.2)
    rw [flat_node, flatL_cons]
    match p with
    | [] =>
      constructor
      · intro h
        rcases List.mem_append.1 h with h1 | h1
        · obtain ⟨a, _, hae⟩ := List.mem_map.1 h1
          exact absurd (Prod.mk.injEq _ _ _ _ ▸ hae.symm).1 (List.cons_ne_nil _ _).symm
        · exact absurd rfl (flatL_ne_nil rest [] v h1)
      · intro h
        exact absurd h (by simp [lookupLeaf])
    | b :: q =>
      rw [lookupLeaf_node_cons]
      by_cases hb : k = b
      · subst hb
        rw [show assocGet ((k, c) :: rest) k = if k = k then some c else assocGet rest k from rfl,
          if_pos rfl]
        constructor
        · intro h
          rcases List.mem_append.1 h with h1 | h1
          · obtain ⟨a, ha, hae⟩ := List.mem_map.1 h1
            have h2 := Prod.mk.injEq _ _ _ _ ▸ hae.symm
            have hq : a.1 = q := by
              have := h2.1
              injection this with _ h3
              exact h3.symm
            have hv : a.2 = v := h2.2.symm
            exact (ihc2 q).1 (by rw [← hq, ← hv]; exact ha)
          · obtain ⟨k2, q2, hq2, hk2⟩ := flatL_head rest _ _ h1
            have : k2 = k := by injection hq2 with h3 _; exact h3.symm
            subst this
            have h1m := hwf.1.1
            simp only [Bool.not_eq_true'] at h1m
            rw [← keyMemB_iff, h1m] at hk2
            exact Bool.noConfusion hk2
        · intro h
          refine List.mem_append.2 (Or.inl ?_)
          exact List.mem_map.2 ⟨(q, v), (ihc2 q).2 h, rfl⟩
      · rw [show assocGet ((k, c) :: rest) b = if k = b then some c else assocGet rest b from rfl,
          if_neg hb]
        constructor
        · intro h
          rcases List.mem_append.1 h with h1 | h1
          · obtain ⟨a, _, hae⟩ := List.mem_map.1 h1
            have h2 := Prod.mk.injEq _ _ _ _ ▸ hae.symm
            have : k = b := by injection h2.1 with h3 _; exact h3.symm
            exact absurd this hb
          · have := (ihrest2 (b :: q)).1 (by rw [flat_node]; exact h1)
            rw [lookupLeaf_node_cons] at this
            exact this
        · intro h
          refine List.mem_append.2 (Or.inr ?_)
          have : lookupLeaf (.node rest) (b :: q) = some v := by
            rw [lookupLeaf_node_cons]
            exact h
          have := (ihrest2 (b :: q)).2 this
          rw [flat_node] at this
          exact this

theorem notInc_cons_iff (a b : String) (p q : List String) :
    notInc (a :: p) (b :: q) ↔ (a = b → notInc p q) := by
  constructor
  · intro h hab
    subst hab
    exact ⟨fun hh => h.1 ((Pre_cons_iff a a p q).2 ⟨rfl, hh⟩),
           fun hh => h.2 ((Pre_cons_iff a a q p).2 ⟨rfl, hh⟩)⟩
  · intro h
    by_cases hab : a = b
    · subst hab
      exact ⟨fun hh => (h rfl).1 ((Pre_cons_iff a a p q).1 hh).2,
             fun hh => (h rfl).2 ((Pre_cons_iff a a q p).1 hh).2⟩
    · exact ⟨fun hh => hab ((Pre_cons_iff a b p q).1 hh).1,
             fun hh => hab (((Pre_cons_iff b a q p).1 hh).1).symm⟩

/-- The flattened paths of a well-formed tree are pairwise incomparable
(in particular pairwise distinct). -/
theorem flat_incfree (t : NTree) (hwf : wfb t = true) :
    List.Pairwise notInc ((flattenSeg t).map Prod.fst) := by
  induction t using NTree.pind with
  | hleaf v => simp [flattenSeg]
  | hnil => simp [flattenSeg, flattenList]
  | hcons k c rest ihc ihrest =>
    rw [wfb_node, wfbL_cons] at hwf
    simp only [Bool.and_eq_true] at hwf
    have ihc2 := ihc hwf.1.2
    have ihrest2 := ihrest (by rw [wfb_node]; exact hwf.2)
    rw [flat_node, flatL_cons, List.map_append, List.pairwise_append]
    refine ⟨?_, ?_, ?_⟩
    · rw [List.map_map]
      rw [List.pairwise_map]
      rw [List.pairwise_map] at ihc2
      refine ihc2.imp ?_
      intro a b hab
      exact (notInc_cons_iff k k a.1 b.1).2 (fun _ => hab)
    · rw [← flat_node]
      exact ihrest2
    · intro p1 h1 p2 h2
      rw [List.map_map] at h1
      obtain ⟨e1, _, he1⟩ := List.mem_map.1 h1
      obtain ⟨e2, he2m, he2⟩ := List.mem_map.1 h2
      obtain ⟨k2, q2, hq2, hk2⟩ := flatL_head rest e2.1 e2.2 (by
        rw [show (e2 : List String × Json) = (e2.1, e2.2) from rfl] at he2m
        exact he2m)
      have hkne : k2 ≠ k := by
        intro hh
        subst hh
        have h1m := hwf.1.1
        simp only [Bool.not_eq_true'] at h1m
        rw [← keyMemB_iff, h1m] at hk2
        exact Bool.noConfusion hk2
      rw [← he1, ← he2, hq2]
      show notInc (k :: e1.1) (k2 :: q2)
      exact (notInc_cons_iff k k2 e1.1 q2).2 (fun hh => absurd hh.symm hkne)

/-! ### Graft models: characterizing trees built by repeated grafting -/

theorem Pre_trans (p q r : List String) (h1 : Pre p q) (h2 : Pre q r) : Pre p r := by
  obtain ⟨t1, rfl⟩ := h1
  obtain ⟨t2, rfl⟩ := h2
  exact ⟨t1 ++ t2, (List.append_assoc p t1 t2).symm⟩

theorem Pre_antisymm (p q : List String) (h1 : Pre p q) (h2 : Pre q p) : p = q := by
  obtain ⟨t1, rfl⟩ := h1
  obtain ⟨t2, ht⟩ := h2
  have hlen := congrArg List.length ht
  simp only [List.length_append] at hlen
  have ht1 : t1 = [] := List.eq_nil_of_length_eq_zero (by omega)
  rw [ht1]
  simp

/-- Executable initial-segment test. -/
def isPre : List String → List String → Bool
  | [], _ => true
  | _ :: _, [] => false
  | a :: p, b :: q => a == b && isPre p q

theorem isPre_iff (p q : List String) : isPre p q = true ↔ Pre p q := by
  induction p generalizing q with
  | nil => simp [isPre, Pre_nil]
  | cons a p ih =>
    match q with
    | [] =>
      simp only [isPre, Bool.false_eq_true, false_iff]
      exact not_Pre_cons_nil a p
    | b :: q =>
      rw [show isPre (a :: p) (b :: q) = ((a == b) && isPre p q) from rfl]
      simp only [Bool.and_eq_true, beq_iff_eq, ih, Pre_cons_iff]

theorem dropLen (p t : List String) : (p ++ t).drop p.length = t := by
  induction p with
  | nil => rfl
  | cons a p ih => simpa using ih

/-- First applicable graft for a query path: scan the model list for the
first entry whose path is an initial segment of the query, and look up the
remainder inside its graft. -/
def findGraft : List (List String × NTree) → List String → Option Json
  | [], _ => none
  | (p, g) :: rest, q => if isPre p q then lookupLeaf g (q.drop p.length) else findGraft rest q

/-- `t` is exactly the tree obtained by grafting the entries of `M` into an
empty mapping: every leaf query is answered by the first applicable graft. -/
def Models (t : NTree) (M : List (List String × NTree)) : Prop :=
  ∀ q, lookupLeaf t q = findGraft M q

theorem Models_empty : Models emptyT [] := fun q => lookupLeaf_emptyT q

/-- Pairwise incomparability of the graft paths of a model list. -/
def PW (M : List (List String × NTree)) : Prop :=
  List.Pairwise (fun e1 e2 => notInc e1.1 e2.1) M

theorem findGraft_cons (p : List String) (g : NTree) (rest : List (List String × NTree))
    (q : List String) :
    findGraft ((p, g) :: rest) q =
      if isPre p q then lookupLeaf g (q.drop p.length) else findGraft rest q := rfl

theorem findGraft_skip (M : List (List String × NTree)) (q : List String)
    (h : ∀ e ∈ M, ¬ Pre e.1 q) : findGraft M q = none := by
  induction M with
  | nil => rfl
  | cons e rest ih =>
    rw [show (e : List String × NTree) = (e.1, e.2) from rfl, findGraft_cons]
    rw [if_neg (fun hh => h e (List.mem_cons_self _ _) ((isPre_iff _ _).1 hh))]
    exact ih (fun e2 h2 => h e2 (List.mem_cons_of_mem _ h2))

theorem findGraft_append_skip (M N : List (List String × NTree)) (q : List String)
    (h : ∀ e ∈ M, ¬ Pre e.1 q) : findGraft (M ++ N) q = findGraft N q := by
  induction M with
  | nil => rfl
  | cons e rest ih =>
    rw [show ((e :: rest) ++ N) = (e.1, e.2) :: (rest ++ N) from rfl, findGraft_cons]
    rw [if_neg (fun hh => h e (List.mem_cons_self _ _) ((isPre_iff _ _).1 hh))]
    exact ih (fun e2 h2 => h e2 (List.mem_cons_of_mem _ h2))

theorem findGraft_append_last_miss (M : List (List String × NTree))
    (p : List String) (g : NTree) (q : List String) (h : ¬ Pre p q) :
    findGraft (M ++ [(p, g)]) q = findGraft M q := by
  induction M with
  | nil =>
    show findGraft [(p, g)] q = none
    rw [findGraft_cons, if_neg (fun hh => h ((isPre_iff _ _).1 hh))]
    rfl
  | cons e rest ih =>
    rw [show ((e :: rest) ++ [(p, g)]) = (e.1, e.2) :: (rest ++ [(p, g)]) from rfl,
      findGraft_cons, show (e : List String × NTree) = (e.1, e.2) from rfl, findGraft_cons, ih]

/-- Inserting a graft at a path incomparable with every model path extends
the model by one entry. -/
theorem models_insert (t : NTree) (M : List (List String × NTree)) (p : List String)
    (g : NTree) (hM : Models t M) (hinc : ∀ e ∈ M, notInc e.1 p) :
    Models (setNested t p g) (M ++ [(p, g)]) := by
  intro q
  by_cases hpq : Pre p q
  · obtain ⟨tail, rfl⟩ := hpq
    have hanc : ∀ q2, Pre q2 p → q2 ≠ p → lookupLeaf t q2 = none := by
      intro q2 hq2 _hne
      rw [hM q2]
      refine findGraft_skip M q2 ?_
      intro e he hpre
      exact (hinc e he).1 (Pre_trans e.1 q2 p hpre hq2)
    rw [lookupLeaf_setNested_at p t g tail hanc]
    have hskip : ∀ e ∈ M, ¬ Pre e.1 (p ++ tail) := by
      intro e he hpre
      rcases Pre_comparable e.1 p (p ++ tail) hpre ⟨tail, rfl⟩ with h | h
      · exact (hinc e he).1 h
      · exact (hinc e he).2 h
    rw [findGraft_append_skip M [(p, g)] (p ++ tail) hskip, findGraft_cons,
      if_pos ((isPre_iff _ _).2 ⟨tail, rfl⟩), dropLen]
  · by_cases hqp : Pre q p
    · have hne : q ≠ p := by
        intro hh
        exact hpq (hh ▸ Pre_refl p)
      rw [lookupLeaf_setNested_anc p t g q hqp hne]
      have hskip : ∀ e ∈ M, ¬ Pre e.1 q := by
        intro e he hpre
        exact (hinc e he).1 (Pre_trans e.1 q p hpre hqp)
      rw [findGraft_append_skip M [(p, g)] q hskip, findGraft_cons,
        if_neg (fun hh => hpq ((isPre_iff _ _).1 hh))]
      rfl
    · rw [lookupLeaf_setNested_frame p t g q hpq hqp, hM q,
        findGraft_append_last_miss M p g q hpq]

/-- Characterization of a graft model answer when the graft paths are
pairwise incomparable. -/
theorem findGraft_some_iff (M : List (List String × NTree)) (q : List String) (v : Json)
    (hpw : PW M) :
    findGraft M q = some v ↔
      ∃ e ∈ M, Pre e.1 q ∧ lookupLeaf e.2 (q.drop e.1.length) = some v := by
  induction M with
  | nil =>
    constructor
    · intro h
      rw [show findGraft [] q = none from rfl] at h
      exact Option.noConfusion h
    · rintro ⟨e, he, _⟩
      exact absurd he (List.not_mem_nil e)
  | cons e rest ih =>
    have hpw2 : PW rest := (List.pairwise_cons.1 hpw).2
    have hcross := (List.pairwise_cons.1 hpw).1
    rw [show (e : List String × NTree) = (e.1, e.2) from rfl, findGraft_cons]
    by_cases hp : isPre e.1 q
    · rw [if_pos hp]
      constructor
      · intro h
        exact ⟨e, List.mem_cons_self _ _, (isPre_iff _ _).1 hp, h⟩
      · rintro ⟨e2, he2, hpre2, hlk2⟩
        rcases List.mem_cons.1 he2 with h | h
        · rw [h] at hlk2
          exact hlk2
        · rcases Pre_comparable e2.1 e.1 q hpre2 ((isPre_iff _ _).1 hp) with hc | hc
          · exact absurd hc (hcross e2 h).2
          · exact absurd hc (hcross e2 h).1
    · rw [if_neg hp]
      rw [ih hpw2]
      constructor
      · rintro ⟨e2, he2, h3, h4⟩
        exact ⟨e2, List.mem_cons_of_mem _ he2, h3, h4⟩
      · rintro ⟨e2, he2, h3, h4⟩
        rcases List.mem_cons.1 he2 with h | h
        · rw [h] at h3
          exact absurd ((isPre_iff _ _).2 h3) hp
        · exact ⟨e2, h, h3, h4⟩

/-! ### The dispatch loop as a graft model -/

/-- The flattened items of a request viewed as leaf grafts. -/
def graftsOf (items : List (List String × Json)) : List (List String × NTree) :=
  items.map (fun e => (e.1, .leaf e.2))

theorem notInc_symmetric : Symmetric notInc := fun _ _ h => ⟨h.2, h.1⟩

theorem dispatchLoop_cons (ext : Externs) (k : List String) (v : Json)
    (rest : List (List String × Json)) (st : AppState) (acc ign : NTree) :
    dispatchLoop ext ((k, v) :: rest) st acc ign =
      match (match lookupPath (patches ext) k with
             | some f => patchField f st v
             | none => none) with
      | some st1 =>
        let r := dispatchLoop ext rest st1 (setNested acc k (.leaf v)) ign
        ⟨r.st, r.acc, r.ign, .leafDone k :: r.evs⟩
      | none =>
        let r := dispatchLoop ext rest st acc (setNested ign k (.leaf v))
        ⟨r.st, r.acc, r.ign, .leafDone k :: r.evs⟩ := rfl

/-- Running the dispatch loop from trees modelled by `A` and `I` produces
trees modelled by `A` and `I` extended with the items as leaf grafts,
partitioned between the two sides. -/
theorem dispatchLoop_models (ext : Externs) :
    ∀ (items : List (List String × Json)) (st : AppState) (acc ign : NTree)
      (A I : List (List String × NTree)),
      Models acc A → Models ign I →
      PW A → PW I →
      (∀ e1 ∈ A, ∀ e2 ∈ I, notInc e1.1 e2.1) →
      (∀ e1 ∈ A, ∀ x ∈ items, notInc e1.1 x.1) →
      (∀ e1 ∈ I, ∀ x ∈ items, notInc e1.1 x.1) →
      List.Pairwise (fun x y => notInc x.1 y.1) items →
      wfb acc = true → wfb ign = true →
      ∃ A1 I1,
        Models (dispatchLoop ext items st acc ign).acc (A ++ A1) ∧
        Models (dispatchLoop ext items st acc ign).ign (I ++ I1) ∧
        (A1 ++ I1).Perm (graftsOf items) ∧
        PW (A ++ A1) ∧ PW (I ++ I1) ∧
        (∀ e1 ∈ A ++ A1, ∀ e2 ∈ I ++ I1, notInc e1.1 e2.1) ∧
        wfb (dispatchLoop ext items st acc ign).acc = true ∧
        wfb (dispatchLoop ext items st acc ign).ign = true := by
  intro items
  induction items with
  | nil =>
    intro st acc ign A I hA hI hPWA hPWI hAI _hAit _hIit _hit hwa hwi
    refine ⟨[], [], ?_, ?_, ?_, ?_, ?_, ?_, hwa, hwi⟩
    · rw [List.append_nil]; exact hA
    · rw [List.append_nil]; exact hI
    · rfl
    · rw [List.append_nil]; exact hPWA
    · rw [List.append_nil]; exact hPWI
    · rw [List.append_nil, List.append_nil]; exact hAI
  | cons e rest ih =>
    intro st acc ign A I hA hI hPWA hPWI hAI hAit hIit hit hwa hwi
    have hmemh : (e : List String × Json) ∈ e :: rest := List.mem_cons_self _ _
    have hAe : ∀ e1 ∈ A, notInc e1.1 e.1 := fun e1 h1 => hAit e1 h1 e hmemh
    have hIe : ∀ e1 ∈ I, notInc e1.1 e.1 := fun e1 h1 => hIit e1 h1 e hmemh
    have hhead : ∀ x ∈ rest, notInc e.1 x.1 :=
      fun x hx => (List.pairwise_cons.1 hit).1 x hx
    have htail : List.Pairwise (fun x y => notInc x.1 y.1) rest :=
      (List.pairwise_cons.1 hit).2
    rw [show (e : List String × Json) = (e.1, e.2) from rfl, dispatchLoop_cons]
    cases hstep : (match lookupPath (patches ext) e.1 with
                   | some f => patchField f st e.2
                   | none => none) with
    | some st1 =>
      have hAins : Models (setNested acc e.1 (.leaf e.2)) (A ++ [(e.1, .leaf e.2)]) :=
        models_insert acc A e.1 (.leaf e.2) hA hAe
      have hwa2 : wfb (setNested acc e.1 (.leaf e.2)) = true :=
        wfb_setNested e.1 acc (.leaf e.2) hwa rfl
      have hPWA2 : PW (A ++ [(e.1, NTree.leaf e.2)]) := by
        rw [PW, List.pairwise_append]
        exact ⟨hPWA, List.pairwise_singleton _ _, fun a ha b hb => by
          rw [List.mem_singleton.1 hb]
          exact hAe a ha⟩
      have hAI2 : ∀ e1 ∈ A ++ [(e.1, NTree.leaf e.2)], ∀ e2 ∈ I, notInc e1.1 e2.1 := by
        intro e1 h1 e2 h2
        rcases List.mem_append.1 h1 with h | h
        · exact hAI e1 h e2 h2
        · rw [List.mem_singleton.1 h]
          exact notInc_symm _ _ (hIe e2 h2)
      have hAit2 : ∀ e1 ∈ A ++ [(e.1, NTree.leaf e.2)], ∀ x ∈ rest, notInc e1.1 x.1 := by
        intro e1 h1 x hx
        rcases List.mem_append.1 h1 with h | h
        · exact hAit e1 h x (List.mem_cons_of_mem _ hx)
        · rw [List.mem_singleton.1 h]
          exact hhead x hx
      have hIit2 : ∀ e1 ∈ I, ∀ x ∈ rest, notInc e1.1 x.1 :=
        fun e1 h1 x hx => hIit e1 h1 x (List.mem_cons_of_mem _ hx)
      obtain ⟨A1, I1, h1, h2, h3, h4, h5, h6, h7, h8⟩ :=
        ih st1 (setNested acc e.1 (.leaf e.2)) ign (A ++ [(e.1, .leaf e.2)]) I
          hAins hI hPWA2 hPWI hAI2 hAit2 hIit2 htail hwa2 hwi
      have hassoc : (A ++ [(e.1, NTree.leaf e.2)]) ++ A1 = A ++ ((e.1, NTree.leaf e.2) :: A1) := by
        simp
      refine ⟨(e.1, .leaf e.2) :: A1, I1, ?_, h2, ?_, ?_, h5, ?_, h7, h8⟩
      · rw [← hassoc]; exact h1
      · show ((e.1, NTree.leaf e.2) :: (A1 ++ I1)).Perm (graftsOf ((e.1, e.2) :: rest))
        rw [show graftsOf ((e.1, e.2) :: rest) = (e.1, NTree.leaf e.2) :: graftsOf rest from rfl]
        exact h3.cons _
      · rw [← hassoc]; exact h4
      · rw [← hassoc]; exact h6
    | none =>
      have hIins : Models (setNested ign e.1 (.leaf e.2)) (I ++ [(e.1, .leaf e.2)]) :=
        models_insert ign I e.1 (.leaf e.2) hI hIe
      have hwi2 : wfb (setNested ign e.1 (.leaf e.2)) = true :=
        wfb_setNested e.1 ign (.leaf e.2) hwi rfl
      have hPWI2 : PW (I ++ [(e.1, NTree.leaf e.2)]) := by
        rw [PW, List.pairwise_append]
        exact ⟨hPWI, List.pairwise_singleton _ _, fun a ha b hb => by
          rw [List.mem_singleton.1 hb]
          exact hIe a ha⟩
      have hAI2 : ∀ e1 ∈ A, ∀ e2 ∈ I ++ [(e.1, NTree.leaf e.2)], notInc e1.1 e2.1 := by
        intro e1 h1 e2 h2
        rcases List.mem_append.1 h2 with h | h
        · exact hAI e1 h1 e2 h
        · rw [List.mem_singleton.1 h]
          exact hAe e1 h1
      have hAit2 : ∀ e1 ∈ A, ∀ x ∈ rest, notInc e1.1 x.1 :=
        fun e1 h1 x hx => hAit e1 h1 x (List.mem_cons_of_mem _ hx)
      have hIit2 : ∀ e1 ∈ I ++ [(e.1, NTree.leaf e.2)], ∀ x ∈ rest, notInc e1.1 x.1 := by
        intro e1 h1 x hx
        rcases List.mem_append.1 h1 with h | h
        · exact hIit e1 h x (List.mem_cons_of_mem _ hx)
        · rw [List.mem_singleton.1 h]
          exact hhead x hx
      obtain ⟨A1, I1, h1, h2, h3, h4, h5, h6, h7, h8⟩ :=
        ih st acc (setNested ign e.1 (.leaf e.2)) A (I ++ [(e.1, .leaf e.2)])
          hA hIins hPWA hPWI2 hAI2 hAit2 hIit2 htail hwa hwi2
      have hassoc : (I ++ [(e.1, NTree.leaf e.2)]) ++ I1 = I ++ ((e.1, NTree.leaf e.2) :: I1) := by
        simp
      refine ⟨A1, (e.1, .leaf e.2) :: I1, h1, ?_, ?_, h4, ?_, ?_, h7, h8⟩
      · rw [← hassoc]; exact h2
      · show (A1 ++ ((e.1, NTree.leaf e.2) :: I1)).Perm (graftsOf ((e.1, e.2) :: rest))
        rw [show graftsOf ((e.1, e.2) :: rest) = (e.1, NTree.leaf e.2) :: graftsOf rest from rfl]
        exact List.perm_middle.trans (h3.cons _)
      · rw [← hassoc]; exact h5
      · rw [← hassoc] at *
        intro e1 h1 e2 h2
        exact h6 e1 h1 e2 h2

/-! ### Metadata phase analysis -/

theorem keyMemB_assocRemove_mono (cs : List (String × NTree)) (k x : String)
    (h : keyMemB x (assocRemove cs k) = true) : keyMemB x cs = true := by
  induction cs with
  | nil => exact absurd h (by rw [show assocRemove [] k = [] from rfl]; simp [keyMemB])
  | cons e rest ih =>
    rw [show assocRemove (e :: rest) k = if e.1 = k then rest
        else (e.1, e.2) :: assocRemove rest k from rfl] at h
    rw [show keyMemB x (e :: rest) = (e.1 == x || keyMemB x rest) from rfl]
    by_cases h2 : e.1 = k
    · rw [if_pos h2] at h
      rw [h]
      simp
    · rw [if_neg h2, show keyMemB x ((e.1, e.2) :: assocRemove rest k) =
        (e.1 == x || keyMemB x (assocRemove rest k)) from rfl] at h
      rcases Bool.or_eq_true_iff.1 h with h3 | h3
      · rw [h3]; simp
      · rw [ih h3]; simp

theorem wfbL_assocRemove (cs : List (String × NTree)) (k : String)
    (hwf : wfbL cs = true) : wfbL (assocRemove cs k) = true := by
  induction cs with
  | nil => exact hwf
  | cons e rest ih =>
    rw [show (e : String × NTree) = (e.1, e.2) from rfl, wfbL_cons] at hwf
    simp only [Bool.and_eq_true] at hwf
    rw [show assocRemove ((e.1, e.2) :: rest) k = if e.1 = k then rest
        else (e.1, e.2) :: assocRemove rest k from rfl]
    by_cases h2 : e.1 = k
    · rw [if_pos h2]; exact hwf.2
    · rw [if_neg h2, wfbL_cons]
      simp only [Bool.and_eq_true]
      refine ⟨⟨?_, hwf.1.2⟩, ih hwf.2⟩
      have h1 := hwf.1.1
      simp only [Bool.not_eq_true'] at h1 ⊢
      cases h3 : keyMemB e.1 (assocRemove rest k) with
      | false => rfl
      | true => rw [keyMemB_assocRemove_mono rest k e.1 h3] at h1; exact h1

/-- The dotted path of the structured metadata field. -/
def metaPath : List String := ["metadata", "metadataProviders"]

/-- The remaining request data after the metadata pop. -/
def metaRest (cs mcs : List (String × NTree)) : NTree :=
  .node (assocSet cs "metadata" (.node (assocRemove mcs "metadataProviders")))

theorem metaRest_wf (cs mcs : List (String × NTree)) (hwf : wfbL cs = true)
    (hm : assocGet cs "metadata" = some (.node mcs)) :
    wfb (metaRest cs mcs) = true := by
  rw [metaRest, wfb_node]
  refine wfbL_assocSet cs "metadata" _ hwf ?_
  rw [wfb_node]
  exact wfbL_assocRemove mcs "metadataProviders"
    (by rw [← wfb_node]; exact wfb_get cs "metadata" (.node mcs) hwf hm)

theorem lookupLeaf_step (cs : List (String × NTree)) (k : String) (q : List String)
    (c : NTree) (h : assocGet cs k = some c) :
    lookupLeaf (.node cs) (k :: q) = lookupLeaf c q := by
  rw [lookupLeaf_node_cons, h]

theorem lookupLeaf_step_none (cs : List (String × NTree)) (k : String) (q : List String)
    (h : assocGet cs k = none) : lookupLeaf (.node cs) (k :: q) = none := by
  rw [lookupLeaf_node_cons, h]

/-- Below the metadata path the popped sub-tree answers the query. -/
theorem lookup_data_meta (cs mcs : List (String × NTree)) (mp : NTree)
    (hm : assocGet cs "metadata" = some (.node mcs))
    (hmp : assocGet mcs "metadataProviders" = some mp) (tail : List String) :
    lookupLeaf (.node cs) (metaPath ++ tail) = lookupLeaf mp tail := by
  show lookupLeaf (.node cs) ("metadata" :: "metadataProviders" :: tail) = lookupLeaf mp tail
  rw [lookupLeaf_step cs "metadata" _ _ hm, lookupLeaf_step mcs "metadataProviders" _ _ hmp]

/-- Away from the metadata path the remaining data answers the query. -/
theorem lookup_data_nonmeta (cs mcs : List (String × NTree)) (mp : NTree)
    (hwf : wfbL cs = true)
    (hm : assocGet cs "metadata" = some (.node mcs))
    (hmp : assocGet mcs "metadataProviders" = some mp) (q : List String)
    (hq : ¬ Pre metaPath q) :
    lookupLeaf (.node cs) q = lookupLeaf (metaRest cs mcs) q := by
  match q with
  | [] => rfl
  | k :: q2 =>
    rw [show metaRest cs mcs =
      .node (assocSet cs "metadata" (.node (assocRemove mcs "metadataProviders"))) from rfl]
    by_cases hk : k = "metadata"
    · subst hk
      rw [lookupLeaf_step cs "metadata" _ _ hm,
        lookupLeaf_step _ "metadata" _ _ (assocGet_assocSet_self cs "metadata" _)]
      match q2 with
      | [] => rfl
      | k2 :: q3 =>
        by_cases hk2 : k2 = "metadataProviders"
        · subst hk2
          exact absurd ⟨q3, rfl⟩ hq
        · rw [lookupLeaf_node_cons, lookupLeaf_node_cons,
            assocGet_assocRemove_ne mcs "metadataProviders" k2 (fun hh => hk2 hh.symm)]
    · rw [lookupLeaf_node_cons, lookupLeaf_node_cons,
        assocGet_assocSet_ne cs "metadata" k _ (fun hh => hk hh.symm)]

/-- The metadata path never holds a leaf of the remaining data, so every
flattened item of the remaining data is incomparable with it. -/
theorem metaRest_items_inc (cs mcs : List (String × NTree)) (hwf : wfbL cs = true)
    (hm : assocGet cs "metadata" = some (.node mcs)) :
    ∀ e ∈ flattenSeg (metaRest cs mcs), notInc metaPath e.1 := by
  intro e he
  have hwfm : wfbL mcs = true := by
    rw [← wfb_node]
    exact wfb_get cs "metadata" (.node mcs) hwf hm
  have hrest : ∀ tail, lookupLeaf (metaRest cs mcs) (metaPath ++ tail) = none := by
    intro tail
    show lookupLeaf (.node (assocSet cs "metadata"
      (.node (assocRemove mcs "metadataProviders"))))
      ("metadata" :: "metadataProviders" :: tail) = none
    rw [lookupLeaf_step _ "metadata" _ _ (assocGet_assocSet_self cs "metadata" _)]
    exact lookupLeaf_step_none _ "metadataProviders" tail
      (assocGet_assocRemove_self mcs "metadataProviders" (wfb_keys_nodup mcs hwfm))
  have hlk : lookupLeaf (metaRest cs mcs) e.1 = some e.2 := by
    refine (flat_iff_lookup (metaRest cs mcs) (metaRest_wf cs mcs hwf hm) e.1 e.2).1 ?_
    rw [show (e : List String × Json) = (e.1, e.2) from rfl] at he
    exact he
  constructor
  · intro hpre
    obtain ⟨tail, htl⟩ := hpre
    rw [← htl, hrest tail] at hlk
    exact Option.noConfusion hlk
  · intro hpre
    obtain ⟨tail, htl⟩ := hpre
    match e1h : e.1, tail, htl with
    | [], _, _ =>
      exact flatL_ne_nil _ e.1 e.2 (by
        rw [show (e : List String × Json) = (e.1, e.2) from rfl] at he
        exact he) e1h
    | [x], t, ht =>
      have hx : x = "metadata" := by injection ht
      have : lookupLeaf (metaRest cs mcs) [x] = none := by
        rw [hx]
        show lookupLeaf (.node (assocSet cs "metadata"
          (.node (assocRemove mcs "metadataProviders")))) ["metadata"] = none
        rw [lookupLeaf_step _ "metadata" _ _ (assocGet_assocSet_self cs "metadata" _)]
        rfl
      rw [e1h, this] at hlk
      exact Option.noConfusion hlk
    | [x, y], t, ht =>
      have hxy : x = "metadata" ∧ y = "metadataProviders" ∧ t = [] := by
        injection ht with h1 h2
        injection h2 with h2 h3
        exact ⟨h1, h2, h3⟩
      have : lookupLeaf (metaRest cs mcs) [x, y] = none := by
        rw [hxy.1, hxy.2.1]
        exact hrest []
      rw [e1h, this] at hlk
      exact Option.noConfusion hlk
    | x :: y :: z :: rest2, t, ht =>
      have := congrArg List.length ht
      simp [List.length_append, metaPath] at this

/-! ### Partition of a patch request -/

theorem patchMain_ok (ext : Externs) (st : AppState) (cs : List (String × NTree))
    (st0 : AppState) (acc0 ign0 rest' : NTree)
    (hphase : metaPhase ext st cs = .ok st0 acc0 ign0 rest') :
    patchMain ext st (.node cs) =
      (let o := dispatchLoop ext (flattenSeg rest') st0 acc0 ign0
       let evs := o.evs ++ (if truthyT o.ign then [Event.warnIgnored] else [])
       if ext.saveOk then
         ⟨.ok o.acc, o.st, evs ++ [Event.save, Event.broadcast "main"], o.acc, o.ign⟩
       else
         ⟨.error, o.st, evs ++ [Event.save], o.acc, o.ign⟩) := by
  rw [show patchMain ext st (.node cs) = (match metaPhase ext st cs with
      | .err => (⟨.error, st, [], emptyT, emptyT⟩ : RunResult)
      | .ok st0 acc0 ign0 rest =>
        let o := dispatchLoop ext (flattenSeg rest) st0 acc0 ign0
        let evs := o.evs ++ (if truthyT o.ign then [Event.warnIgnored] else [])
        if ext.saveOk then
          ⟨.ok o.acc, o.st, evs ++ [Event.save, Event.broadcast "main"], o.acc, o.ign⟩
        else
          ⟨.error, o.st, evs ++ [Event.save], o.acc, o.ign⟩) from rfl, hphase]

theorem patchMain_accepted (ext : Externs) (st : AppState) (cs : List (String × NTree))
    (st0 : AppState) (acc0 ign0 rest' : NTree)
    (hphase : metaPhase ext st cs = .ok st0 acc0 ign0 rest') :
    (patchMain ext st (.node cs)).accepted =
      (dispatchLoop ext (flattenSeg rest') st0 acc0 ign0).acc := by
  rw [patchMain_ok ext st cs st0 acc0 ign0 rest' hphase]
  by_cases hs : ext.saveOk <;> simp [hs]

theorem patchMain_ignored (ext : Externs) (st : AppState) (cs : List (String × NTree))
    (st0 : AppState) (acc0 ign0 rest' : NTree)
    (hphase : metaPhase ext st cs = .ok st0 acc0 ign0 rest') :
    (patchMain ext st (.node cs)).ignored =
      (dispatchLoop ext (flattenSeg rest') st0 acc0 ign0).ign := by
  rw [patchMain_ok ext st cs st0 acc0 ign0 rest' hphase]
  by_cases hs : ext.saveOk <;> simp [hs]

theorem mem_map_fst (l : List (List String × Json)) (p : List String) :
    p ∈ l.map Prod.fst ↔ ∃ v, (p, v) ∈ l := by
  rw [List.mem_map]
  constructor
  · rintro ⟨e, he, heq⟩
    exact ⟨e.2, by rw [← heq, show (e.1, e.2) = e from rfl]; exact he⟩
  · rintro ⟨v, hv⟩
    exact ⟨(p, v), hv, rfl⟩

theorem graftsOf_mem (items : List (List String × Json)) (p : List String) (v : Json) :
    (p, NTree.leaf v) ∈ graftsOf items ↔ (p, v) ∈ items := by
  rw [graftsOf, List.mem_map]
  constructor
  · rintro ⟨e, he, heq⟩
    injection heq with h1 h2
    injection h2 with h2
    rw [← h1, ← h2, show (e.1, e.2) = e from rfl]
    exact he
  · intro h
    exact ⟨(p, v), h, rfl⟩

theorem leaf_graft_cond (q0 p : List String) (v0 v : Json) :
    (Pre q0 p ∧ lookupLeaf (.leaf v0) (p.drop q0.length) = some v) ↔ (p = q0 ∧ v0 = v) := by
  constructor
  · rintro ⟨⟨tl, rfl⟩, h2⟩
    rw [dropLen] at h2
    match tl, h2 with
    | [], h2 =>
      injection h2 with h2
      exact ⟨by simp, h2⟩
  · rintro ⟨h1, h2⟩
    rw [h1, h2]
    refine ⟨Pre_refl q0, ?_⟩
    rw [show q0.drop q0.length = ([] : List String) from by simp]
    rfl

/-- Accepted- or ignored-tree membership after the dispatch loop, split into
the initial graft entries and the per-leaf entries. -/
theorem side_mem_iff (T : NTree) (M0 M1 : List (List String × NTree))
    (items : List (List String × Json))
    (hw : wfb T = true) (hM : Models T (M0 ++ M1))
    (hPW : PW (M0 ++ M1)) (hPW0 : PW M0)
    (hsub : ∀ e ∈ M1, e ∈ graftsOf items) (p : List String) (v : Json) :
    (p, v) ∈ flattenSeg T ↔
      (findGraft M0 p = some v ∨ (p, NTree.leaf v) ∈ M1) := by
  rw [flat_iff_lookup T hw p v, hM p, findGraft_some_iff _ _ _ hPW,
    findGraft_some_iff _ _ _ hPW0]
  constructor
  · rintro ⟨e, he, h1, h2⟩
    rcases List.mem_append.1 he with h | h
    · exact Or.inl ⟨e, h, h1, h2⟩
    · obtain ⟨e2, _he2, heq⟩ := List.mem_map.1 (hsub e h)
      have hleaf : e.2 = NTree.leaf e2.2 := by rw [← heq]
      have h2b := h2
      rw [hleaf] at h2b
      have h3 := (leaf_graft_cond e.1 p e2.2 v).1 ⟨h1, h2b⟩
      refine Or.inr ?_
      have he3 : (p, NTree.leaf v) = (e.1, e.2) := by
        rw [h3.1, ← h3.2, hleaf]
      rw [he3, show (e.1, e.2) = e from rfl]
      exact h
  · rintro (⟨e, he, h1, h2⟩ | h)
    · exact ⟨e, List.mem_append.2 (Or.inl he), h1, h2⟩
    · refine ⟨(p, NTree.leaf v), List.mem_append.2 (Or.inr h), ?_, ?_⟩
      · exact Pre_refl p
      · rw [show p.drop (p : List String).length = ([] : List String) from by simp]
        rfl

/-- Core partition property of `patchMain`, relative to a decomposition of
the metadata phase. -/
theorem patchMain_partition (ext : Externs) (st : AppState) (cs : List (String × NTree))
    (st0 : AppState) (acc0 ign0 rest' : NTree) (A0 I0 : List (List String × NTree))
    (hphase : metaPhase ext st cs = .ok st0 acc0 ign0 rest')
    (hA0 : Models acc0 A0) (hI0 : Models ign0 I0)
    (hPWA0 : PW A0) (hPWI0 : PW I0)
    (hAI0 : ∀ e1 ∈ A0, ∀ e2 ∈ I0, notInc e1.1 e2.1)
    (hA0it : ∀ e1 ∈ A0, ∀ x ∈ flattenSeg rest', notInc e1.1 x.1)
    (hI0it : ∀ e1 ∈ I0, ∀ x ∈ flattenSeg rest', notInc e1.1 x.1)
    (hwrest : wfb rest' = true)
    (hwa0 : wfb acc0 = true) (hwi0 : wfb ign0 = true)
    (hsplit : ∀ p v, lookupLeaf (.node cs) p = some v ↔
        (findGraft A0 p = some v ∨ findGraft I0 p = some v ∨
         lookupLeaf rest' p = some v)) :
    ∀ p v,
      (lookupLeaf (.node cs) p = some v ↔
        ((p, v) ∈ flattenSeg (patchMain ext st (.node cs)).accepted ∨
         (p, v) ∈ flattenSeg (patchMain ext st (.node cs)).ignored)) ∧
      ¬ (p ∈ ((flattenSeg (patchMain ext st (.node cs)).accepted).map Prod.fst) ∧
         p ∈ ((flattenSeg (patchMain ext st (.node cs)).ignored).map Prod.fst)) := by
  have hit : List.Pairwise (fun x y => notInc x.1 y.1) (flattenSeg rest') := by
    have := flat_incfree rest' hwrest
    rwa [List.pairwise_map] at this
  obtain ⟨A1, I1, hMacc, hMign, hperm, hPWA1, hPWI1, hcross, hwacc, hwign⟩ :=
    dispatchLoop_models ext (flattenSeg rest') st0 acc0 ign0 A0 I0
      hA0 hI0 hPWA0 hPWI0 hAI0 hA0it hI0it hit hwa0 hwi0
  have hsubA : ∀ e ∈ A1, e ∈ graftsOf (flattenSeg rest') := by
    intro e he
    exact hperm.subset (List.mem_append.2 (Or.inl he))
  have hsubI : ∀ e ∈ I1, e ∈ graftsOf (flattenSeg rest') := by
    intro e he
    exact hperm.subset (List.mem_append.2 (Or.inr he))
  intro p v
  rw [patchMain_accepted ext st cs st0 acc0 ign0 rest' hphase,
    patchMain_ignored ext st cs st0 acc0 ign0 rest' hphase]
  have haccm := side_mem_iff _ A0 A1 (flattenSeg rest') hwacc hMacc hPWA1 hPWA0 hsubA
  have hignm := side_mem_iff _ I0 I1 (flattenSeg rest') hwign hMign hPWI1 hPWI0 hsubI
  constructor
  · rw [hsplit p v, haccm p v, hignm p v]
    have hrest : lookupLeaf rest' p = some v ↔
        ((p, NTree.leaf v) ∈ A1 ∨ (p, NTree.leaf v) ∈ I1) := by
      rw [← flat_iff_lookup rest' hwrest p v, ← graftsOf_mem, ← hperm.mem_iff,
        List.mem_append]
    rw [hrest]
    tauto
  · rintro ⟨hpa, hpi⟩
    obtain ⟨v1, hv1⟩ := (mem_map_fst _ p).1 hpa
    obtain ⟨v2, hv2⟩ := (mem_map_fst _ p).1 hpi
    have h1 := (flat_iff_lookup _ hwacc p v1).1 hv1
    have h2 := (flat_iff_lookup _ hwign p v2).1 hv2
    rw [hMacc p] at h1
    rw [hMign p] at h2
    obtain ⟨ea, hea, hpre1, _⟩ := (findGraft_some_iff _ _ _ hPWA1).1 h1
    obtain ⟨ei, hei, hpre2, _⟩ := (findGraft_some_iff _ _ _ hPWI1).1 h2
    have hinc := hcross ea hea ei hei
    rcases Pre_comparable ea.1 ei.1 p hpre1 hpre2 with h | h
    · exact hinc.1 h
    · exact hinc.2 h

theorem metaPhase_eq (ext : Externs) (st : AppState) (cs : List (String × NTree)) :
    metaPhase ext st cs =
      match assocGet cs "metadata" with
      | none => .ok st emptyT emptyT (.node cs)
      | some m =>
        if truthyT m then
          match m with
          | .leaf _ => .err
          | .node mcs =>
            match assocGet mcs "metadataProviders" with
            | none => .err
            | some mp =>
              let rest : NTree :=
                .node (assocSet cs "metadata" (.node (assocRemove mcs "metadataProviders")))
              if truthyT mp then
                match ext.metaPatch st mp with
                | some st1 =>
                  .ok st1 (setNested emptyT ["metadata", "metadataProviders"] mp) emptyT rest
                | none =>
                  .ok st emptyT (setNested emptyT ["metadata", "metadataProviders"] mp) rest
              else .ok st emptyT emptyT rest
        else .ok st emptyT emptyT (.node cs) := rfl

theorem metaRest_lookup_meta_none (cs mcs : List (String × NTree))
    (hwfm : wfbL mcs = true) (tail : List String) :
    lookupLeaf (metaRest cs mcs) (metaPath ++ tail) = none := by
  show lookupLeaf (.node (assocSet cs "metadata"
    (.node (assocRemove mcs "metadataProviders"))))
    ("metadata" :: "metadataProviders" :: tail) = none
  rw [lookupLeaf_step _ "metadata" _ _ (assocGet_assocSet_self cs "metadata" _)]
  exact lookupLeaf_step_none _ "metadataProviders" tail
    (assocGet_assocRemove_self mcs "metadataProviders" (wfb_keys_nodup mcs hwfm))

/-- The reachability condition of the metadata special case: the request
body either has no `metadata` binding, or a falsy one, or a `metadata`
mapping that binds `metadataProviders` to a truthy value.  (Outside this
condition the handler raises: KeyError on a missing `metadataProviders`
key, AttributeError on a truthy non-mapping `metadata` value.) -/
def metaOK (cs : List (String × NTree)) : Prop :=
  ∀ m, assocGet cs "metadata" = some m →
    (truthyT m = false ∨
     ∃ mcs mp, m = .node mcs ∧ assocGet mcs "metadataProviders" = some mp ∧
       truthyT mp = true)

/-- The full split of a request body around a present metadata mapping. -/
theorem meta_split (cs mcs : List (String × NTree)) (mp : NTree)
    (hwf : wfbL cs = true)
    (hm : assocGet cs "metadata" = some (.node mcs))
    (hmp : assocGet mcs "metadataProviders" = some mp) (p : List String) (v : Json) :
    lookupLeaf (.node cs) p = some v ↔
      (findGraft [(metaPath, mp)] p = some v ∨ lookupLeaf (metaRest cs mcs) p = some v) := by
  have hwfm : wfbL mcs = true := by
    rw [← wfb_node]
    exact wfb_get cs "metadata" (.node mcs) hwf hm
  by_cases hpre : Pre metaPath p
  · obtain ⟨tail, rfl⟩ := hpre
    rw [lookup_data_meta cs mcs mp hm hmp tail,
      metaRest_lookup_meta_none cs mcs hwfm tail, findGraft_cons,
      if_pos ((isPre_iff _ _).2 ⟨tail, rfl⟩), dropLen]
    constructor
    · intro h
      exact Or.inl h
    · rintro (h | h)
      · exact h
      · exact Option.noConfusion h
  · rw [lookup_data_nonmeta cs mcs mp hwf hm hmp p hpre, findGraft_cons,
      if_neg (fun hh => hpre ((isPre_iff _ _).1 hh))]
    rw [show findGraft [] p = none from rfl]
    constructor
    · intro h
      exact Or.inr h
    · rintro (h | h)
      · exact Option.noConfusion h
      · exact h

theorem truthyT_node_of_get (mcs : List (String × NTree)) (k : String) (x : NTree)
    (h : assocGet mcs k = some x) : truthyT (.node mcs) = true := by
  cases mcs with
  | nil => exact absurd h (by rw [show assocGet [] k = none from rfl]; simp)
  | cons e rest => rfl

theorem wfb_emptyT : wfb emptyT = true := rfl

theorem PW_nil : PW [] := List.Pairwise.nil

theorem Models_single_graft (p : List String) (g : NTree) :
    Models (setNested emptyT p g) [(p, g)] := by
  have h := models_insert emptyT [] p g Models_empty (fun e he => absurd he (List.not_mem_nil e))
  rwa [List.nil_append] at h

/-- The three reachable shapes of the metadata phase under `metaOK`. -/
theorem metaPhase_cases (ext : Externs) (st : AppState) (cs : List (String × NTree))
    (hmeta : metaOK cs) :
    metaPhase ext st cs = .ok st emptyT emptyT (.node cs) ∨
    (∃ mcs mp st1,
      assocGet cs "metadata" = some (.node mcs) ∧
      assocGet mcs "metadataProviders" = some mp ∧ truthyT mp = true ∧
      ext.metaPatch st mp = some st1 ∧
      metaPhase ext st cs =
        .ok st1 (setNested emptyT metaPath mp) emptyT (metaRest cs mcs)) ∨
    (∃ mcs mp,
      assocGet cs "metadata" = some (.node mcs) ∧
      assocGet mcs "metadataProviders" = some mp ∧ truthyT mp = true ∧
      ext.metaPatch st mp = none ∧
      metaPhase ext st cs =
        .ok st emptyT (setNested emptyT metaPath mp) (metaRest cs mcs)) := by
  cases hm : assocGet cs "metadata" with
  | none =>
    refine Or.inl ?_
    rw [metaPhase_eq, hm]
  | some m =>
    rcases hmeta m hm with hfalsy | ⟨mcs, mp, hmn, hmp, htrmp⟩
    · refine Or.inl ?_
      simp only [metaPhase_eq, hm, hfalsy]
      rfl
    · subst hmn
      have htr : truthyT (.node mcs) = true := truthyT_node_of_get mcs _ mp hmp
      have hphase0 : metaPhase ext st cs =
          (match ext.metaPatch st mp with
           | some st1 => .ok st1 (setNested emptyT metaPath mp) emptyT (metaRest cs mcs)
           | none => .ok st emptyT (setNested emptyT metaPath mp) (metaRest cs mcs)) := by
        simp only [metaPhase_eq, hm, htr, hmp, htrmp, if_true]
        rfl
      cases hpm : ext.metaPatch st mp with
      | some st1 =>
        refine Or.inr (Or.inl ⟨mcs, mp, st1, rfl, hmp, htrmp, hpm, ?_⟩)
        rw [hphase0, hpm]
      | none =>
        refine Or.inr (Or.inr ⟨mcs, mp, rfl, hmp, htrmp, hpm, ?_⟩)
        rw [hphase0, hpm]

theorem findGraft_nil (p : List String) : findGraft [] p = none := rfl

/-- C2, amended: the partition law for `PATCH /config/main`.  Proved for
request bodies whose `metadata` binding, when present and truthy, is a
mapping that binds `metadataProviders` to a truthy value (`metaOK`); the
accompanying counterexample shows the law fails outside this condition
because a falsy `metadata.metadataProviders` leaf is popped and dropped. -/
theorem c2_partition_law (ext : Externs) (st : AppState) (cs : List (String × NTree))
    (hwf : wfb (.node cs) = true) (hmeta : metaOK cs) (p : List String) (v : Json) :
    ((p, v) ∈ flattenSeg (.node cs) ↔
      ((p, v) ∈ flattenSeg (httpPatch ext st (some "main") (some (.node cs))).accepted ∨
       (p, v) ∈ flattenSeg (httpPatch ext st (some "main") (some (.node cs))).ignored)) ∧
    ¬ (p ∈ ((flattenSeg (httpPatch ext st (some "main") (some (.node cs))).accepted).map
          Prod.fst) ∧
       p ∈ ((flattenSeg (httpPatch ext st (some "main") (some (.node cs))).ignored).map
          Prod.fst)) := by
  have hrun : httpPatch ext st (some "main") (some (.node cs)) =
      patchMain ext st (.node cs) := rfl
  rw [hrun, flat_iff_lookup (.node cs) hwf p v]
  have hvac : ∀ e ∈ ([] : List (List String × NTree)), ∀ x ∈ flattenSeg (.node cs),
      notInc e.1 x.1 := fun e he => absurd he (List.not_mem_nil e)
  rcases metaPhase_cases ext st cs hmeta with hphase | ⟨mcs, mp, st1, hm, hmp, _, _, hphase⟩ |
    ⟨mcs, mp, hm, hmp, _, _, hphase⟩
  · refine patchMain_partition ext st cs st emptyT emptyT (.node cs) [] []
      hphase Models_empty Models_empty PW_nil PW_nil
      (fun e he => absurd he (List.not_mem_nil e)) hvac hvac hwf rfl rfl ?_ p v
    intro p2 v2
    rw [findGraft_nil]
    constructor
    · intro h
      exact Or.inr (Or.inr h)
    · rintro (h | h | h)
      · exact Option.noConfusion h
      · exact Option.noConfusion h
      · exact h
  · have hwfl : wfbL cs = true := by rw [← wfb_node]; exact hwf
    have hwmcs : wfbL mcs = true := by
      rw [← wfb_node]
      exact wfb_get cs "metadata" (.node mcs) hwfl hm
    have hwmp : wfb mp = true := wfb_get mcs "metadataProviders" mp hwmcs hmp
    have hinc := metaRest_items_inc cs mcs hwfl hm
    refine patchMain_partition ext st cs st1 (setNested emptyT metaPath mp) emptyT
      (metaRest cs mcs) [(metaPath, mp)] []
      hphase (Models_single_graft metaPath mp) Models_empty
      (List.pairwise_singleton _ _) PW_nil
      (fun e1 _ e2 he2 => absurd he2 (List.not_mem_nil e2))
      ?_ (fun e he => absurd he (List.not_mem_nil e))
      (metaRest_wf cs mcs hwfl hm)
      (wfb_setNested metaPath emptyT mp wfb_emptyT hwmp) rfl ?_ p v
    · intro e1 he1 x hx
      rw [List.mem_singleton.1 he1]
      exact hinc x hx
    · intro p2 v2
      rw [meta_split cs mcs mp hwfl hm hmp p2 v2, findGraft_nil]
      constructor
      · rintro (h | h)
        · exact Or.inl h
        · exact Or.inr (Or.inr h)
      · rintro (h | h | h)
        · exact Or.inl h
        · exact Option.noConfusion h
        · exact Or.inr h
  · have hwfl : wfbL cs = true := by rw [← wfb_node]; exact hwf
    have hwmcs : wfbL mcs = true := by
      rw [← wfb_node]
      exact wfb_get cs "metadata" (.node mcs) hwfl hm
    have hwmp : wfb mp = true := wfb_get mcs "metadataProviders" mp hwmcs hmp
    have hinc := metaRest_items_inc cs mcs hwfl hm
    refine patchMain_partition ext st cs st emptyT (setNested emptyT metaPath mp)
      (metaRest cs mcs) [] [(metaPath, mp)]
      hphase Models_empty (Models_single_graft metaPath mp)
      PW_nil (List.pairwise_singleton _ _)
      (fun e1 he1 => absurd he1 (List.not_mem_nil e1))
      (fun e he => absurd he (List.not_mem_nil e)) ?_
      (metaRest_wf cs mcs hwfl hm)
      rfl (wfb_setNested metaPath emptyT mp wfb_emptyT hwmp) ?_ p v
    · intro e1 he1 x hx
      rw [List.mem_singleton.1 he1]
      exact hinc x hx
    · intro p2 v2
      rw [meta_split cs mcs mp hwfl hm hmp p2 v2, findGraft_nil]
      constructor
      · rintro (h | h)
        · exact Or.inr (Or.inl h)
        · exact Or.inr (Or.inr h)
      · rintro (h | h | h)
        · exact Option.noConfusion h
        · exact Or.inl h
        · exact Or.inr h

/-! ### NonEmptyDict construction lemmas -/

theorem neSet_null (cs : List (String × NTree)) (k : String) :
    neSet cs k (.leaf .null) = cs := rfl

theorem assocGet_neSet_ne (cs : List (String × NTree)) (k1 k : String) (v : NTree)
    (h : k1 ≠ k) : assocGet (neSet cs k1 v) k = assocGet cs k := by
  match v with
  | .leaf .null => rfl
  | .leaf (.bool b) => exact assocGet_assocSet_ne cs k1 k _ h
  | .leaf (.int n) => exact assocGet_assocSet_ne cs k1 k _ h
  | .leaf (.str s) => exact assocGet_assocSet_ne cs k1 k _ h
  | .leaf (.arr xs) => exact assocGet_assocSet_ne cs k1 k _ h
  | .node cs2 => exact assocGet_assocSet_ne cs k1 k _ h

theorem assocGet_neSet_self (cs : List (String × NTree)) (k : String) (v : NTree)
    (h : v ≠ .leaf .null) : assocGet (neSet cs k v) k = some v := by
  match v with
  | .leaf .null => exact absurd rfl h
  | .leaf (.bool b) => exact assocGet_assocSet_self cs k _
  | .leaf (.int n) => exact assocGet_assocSet_self cs k _
  | .leaf (.str s) => exact assocGet_assocSet_self cs k _
  | .leaf (.arr xs) => exact assocGet_assocSet_self cs k _
  | .node cs2 => exact assocGet_assocSet_self cs k _

theorem neBuild0_skip (entries : List (String × NTree)) :
    ∀ (cs : List (String × NTree)) (k : String), keyMemB k entries = false →
      assocGet (neBuild0 cs entries) k = assocGet cs k := by
  induction entries with
  | nil => intro cs k _; rfl
  | cons e rest ih =>
    intro cs k h
    rw [show keyMemB k (e :: rest) = (e.1 == k || keyMemB k rest) from rfl,
      Bool.or_eq_false_iff] at h
    rw [show neBuild0 cs (e :: rest) = neBuild0 (neSet cs e.1 e.2) rest from rfl,
      ih (neSet cs e.1 e.2) k h.2,
      assocGet_neSet_ne cs e.1 k e.2 (by
        intro hh
        rw [hh] at h
        simp at h)]

/-- Distinct binding keys (the values are irrelevant). -/
def ndk : List (String × NTree) → Bool
  | [] => true
  | (k, _) :: rest => !keyMemB k rest && ndk rest

/-- Looking up a key in a sequentially built `NonEmptyDict`: with distinct
entry keys, a non-`None` entry is found as written. -/
theorem neBuild0_get (entries : List (String × NTree)) :
    ∀ (cs : List (String × NTree)) (k : String) (v : NTree), ndk entries = true →
      assocGet entries k = some v → v ≠ .leaf .null →
      assocGet (neBuild0 cs entries) k = some v := by
  induction entries with
  | nil =>
    intro cs k v _ hget _
    exact absurd hget (by rw [show assocGet [] k = none from rfl]; simp)
  | cons e rest ih =>
    intro cs k v hnd hget hnn
    rw [show ndk (e :: rest) = (!keyMemB e.1 rest && ndk rest) from rfl,
      Bool.and_eq_true] at hnd
    rw [show assocGet (e :: rest) k = if e.1 = k then some e.2 else assocGet rest k from rfl]
      at hget
    rw [show neBuild0 cs (e :: rest) = neBuild0 (neSet cs e.1 e.2) rest from rfl]
    by_cases hk : e.1 = k
    · rw [if_pos hk] at hget
      injection hget with hv
      have hmem : keyMemB k rest = false := by
        have := hnd.1
        rw [hk] at this
        simpa using this
      rw [neBuild0_skip rest (neSet cs e.1 e.2) k hmem, hk,
        assocGet_neSet_self cs k e.2 (hv ▸ hnn)]
      rw [hv]
    · rw [if_neg hk] at hget
      exact ih (neSet cs e.1 e.2) k v hnd.2 hget hnn

theorem neBuild_get (entries : List (String × NTree)) (k : String) (v : NTree)
    (hnd : ndk entries = true) (hget : assocGet entries k = some v)
    (hnn : v ≠ .leaf .null) : assocGet (neBuild entries) k = some v :=
  neBuild0_get entries [] k v hnd hget hnn

theorem patchMain_state (ext : Externs) (st : AppState) (cs : List (String × NTree))
    (st0 : AppState) (acc0 ign0 rest' : NTree)
    (hphase : metaPhase ext st cs = .ok st0 acc0 ign0 rest') :
    (patchMain ext st (.node cs)).state =
      (dispatchLoop ext (flattenSeg rest') st0 acc0 ign0).st := by
  rw [patchMain_ok ext st cs st0 acc0 ign0 rest' hphase]
  by_cases hs : ext.saveOk <;> simp [hs]

theorem patchMain_events (ext : Externs) (st : AppState) (cs : List (String × NTree))
    (st0 : AppState) (acc0 ign0 rest' : NTree)
    (hphase : metaPhase ext st cs = .ok st0 acc0 ign0 rest') :
    (patchMain ext st (.node cs)).events =
      (let o := dispatchLoop ext (flattenSeg rest') st0 acc0 ign0
       (o.evs ++ (if truthyT o.ign then [Event.warnIgnored] else [])) ++
         Event.save :: (if ext.saveOk then [Event.broadcast "main"] else [])) := by
  rw [patchMain_ok ext st cs st0 acc0 ign0 rest' hphase]
  by_cases hs : ext.saveOk <;> simp [hs]

theorem patchMain_outcome (ext : Externs) (st : AppState) (cs : List (String × NTree))
    (st0 : AppState) (acc0 ign0 rest' : NTree)
    (hphase : metaPhase ext st cs = .ok st0 acc0 ign0 rest') :
    (patchMain ext st (.node cs)).outcome =
      (if ext.saveOk
       then Outcome.ok (dispatchLoop ext (flattenSeg rest') st0 acc0 ign0).acc
       else Outcome.error) := by
  rw [patchMain_ok ext st cs st0 acc0 ign0 rest' hphase]
  by_cases hs : ext.saveOk <;> simp [hs]

/-! ### Further auxiliary lemmas for the claims -/

theorem flattenSeg_single (p : List String) (v : Json) (hp : p ≠ []) :
    flattenSeg (setNested emptyT p (.leaf v)) = [(p, v)] := by
  induction p with
  | nil => exact absurd rfl hp
  | cons k rest ih =>
    match rest with
    | [] => rfl
    | r1 :: r2 =>
      show flattenSeg (.node [(k, setNested emptyT (r1 :: r2) (.leaf v))]) = _
      rw [flat_node, flatL_cons, ih (List.cons_ne_nil r1 r2)]
      rfl

theorem getAt_node_cons (cs : List (String × NTree)) (k : String) (q : List String) :
    getAt (.node cs) (k :: q) =
      (match assocGet cs k with
       | some c => getAt c q
       | none => none) := rfl

theorem getAt_emptyT_cons (k : String) (q : List String) : getAt emptyT (k :: q) = none := rfl

theorem getAt_step (cs : List (String × NTree)) (k : String) (q : List String)
    (c : NTree) (h : assocGet cs k = some c) :
    getAt (.node cs) (k :: q) = getAt c q := by
  rw [getAt_node_cons, h]

theorem getAt_single (p : List String) (g : NTree) :
    getAt (setNested emptyT p g) p = some g := by
  induction p with
  | nil => cases g <;> rfl
  | cons k rest ih =>
    show getAt (.node [(k, setNested emptyT rest g)]) (k :: rest) = some g
    rw [getAt_step [(k, setNested emptyT rest g)] k rest (setNested emptyT rest g)
      (by simp [assocGet])]
    exact ih

theorem getAt_setNested_frame (p : List String) :
    ∀ (t g : NTree) (q : List String), ¬ Pre p q → ¬ Pre q p →
      getAt (setNested t p g) q = getAt t q := by
  induction p with
  | nil => intro t g q hpq _; exact absurd (Pre_nil q) hpq
  | cons a p ih =>
    intro t g q hpq hqp
    match q with
    | [] => exact absurd (Pre_nil (a :: p)) hqp
    | b :: q =>
      by_cases hab : a = b
      · subst hab
        have hpq2 : ¬ Pre p q := fun h => hpq ((Pre_cons_iff a a p q).2 ⟨rfl, h⟩)
        have hqp2 : ¬ Pre q p := fun h => hqp ((Pre_cons_iff a a q p).2 ⟨rfl, h⟩)
        match q, hqp2 with
        | [], hqp2 => exact absurd (Pre_nil p) hqp2
        | q1 :: q2, hqp2 =>
          match t with
          | .leaf w =>
            show getAt (.node [(a, setNested emptyT p g)]) (a :: q1 :: q2) = none
            rw [getAt_step [(a, setNested emptyT p g)] a _ (setNested emptyT p g)
              (by simp [assocGet])]
            rw [ih emptyT g (q1 :: q2) hpq2 hqp2]
            rfl
          | .node cs =>
            show getAt (.node (assocSet cs a _)) (a :: q1 :: q2) = getAt (.node cs) (a :: q1 :: q2)
            cases hc : assocGet cs a with
            | some c =>
              rw [getAt_step _ a _ _ (assocGet_assocSet_self cs a _),
                getAt_step _ a _ _ hc]
              simp only [hc, Option.getD]
              exact ih c g (q1 :: q2) hpq2 hqp2
            | none =>
              rw [getAt_step _ a _ _ (assocGet_assocSet_self cs a _)]
              simp only [hc, Option.getD]
              rw [ih emptyT g (q1 :: q2) hpq2 hqp2, getAt_node_cons, hc]
              rfl
      · match t with
        | .leaf w =>
          show getAt (.node [(a, setNested emptyT p g)]) (b :: q) = none
          rw [getAt_node_cons]
          simp [assocGet, hab]
        | .node cs =>
          show getAt (.node (assocSet cs a _)) (b :: q) = getAt (.node cs) (b :: q)
          rw [getAt_node_cons, getAt_node_cons, assocGet_assocSet_ne cs a b _ hab]

theorem dispatchLoop_getAt (ext : Externs) :
    ∀ (items : List (List String × Json)) (st : AppState) (acc ign : NTree)
      (q : List String), (∀ x ∈ items, ¬ Pre x.1 q ∧ ¬ Pre q x.1) →
      getAt (dispatchLoop ext items st acc ign).acc q = getAt acc q ∧
      getAt (dispatchLoop ext items st acc ign).ign q = getAt ign q := by
  intro items
  induction items with
  | nil => intro st acc ign q _; exact ⟨rfl, rfl⟩
  | cons e rest ih =>
    intro st acc ign q hq
    have hhead := hq e (List.mem_cons_self _ _)
    have htail : ∀ x ∈ rest, ¬ Pre x.1 q ∧ ¬ Pre q x.1 :=
      fun x hx => hq x (List.mem_cons_of_mem _ hx)
    rw [show (e : List String × Json) = (e.1, e.2) from rfl, dispatchLoop_cons]
    cases hstep : (match lookupPath (patches ext) e.1 with
                   | some f => patchField f st e.2
                   | none => none) with
    | some st1 =>
      have := ih st1 (setNested acc e.1 (.leaf e.2)) ign q htail
      refine ⟨?_, this.2⟩
      rw [this.1, getAt_setNested_frame e.1 acc (.leaf e.2) q hhead.1 hhead.2]
    | none =>
      have := ih st acc (setNested ign e.1 (.leaf e.2)) q htail
      refine ⟨this.1, ?_⟩
      rw [this.2, getAt_setNested_frame e.1 ign (.leaf e.2) q hhead.1 hhead.2]

theorem dispatchLoop_evs (ext : Externs) :
    ∀ (items : List (List String × Json)) (st : AppState) (acc ign : NTree),
      (dispatchLoop ext items st acc ign).evs =
        items.map (fun e => Event.leafDone e.1) := by
  intro items
  induction items with
  | nil => intro st acc ign; rfl
  | cons e rest ih =>
    intro st acc ign
    rw [show (e : List String × Json) = (e.1, e.2) from rfl, dispatchLoop_cons]
    cases hstep : (match lookupPath (patches ext) e.1 with
                   | some f => patchField f st e.2
                   | none => none) with
    | some st1 => show Event.leafDone e.1 :: _ = _; rw [ih]; rfl
    | none => show Event.leafDone e.1 :: _ = _; rw [ih]; rfl

theorem patchMain_err (ext : Externs) (st : AppState) (cs : List (String × NTree))
    (hphase : metaPhase ext st cs = .err) :
    patchMain ext st (.node cs) = ⟨.error, st, [], emptyT, emptyT⟩ := by
  rw [show patchMain ext st (.node cs) = (match metaPhase ext st cs with
      | .err => (⟨.error, st, [], emptyT, emptyT⟩ : RunResult)
      | .ok st0 acc0 ign0 rest =>
        let o := dispatchLoop ext (flattenSeg rest) st0 acc0 ign0
        let evs := o.evs ++ (if truthyT o.ign then [Event.warnIgnored] else [])
        if ext.saveOk then
          ⟨.ok o.acc, o.st, evs ++ [Event.save, Event.broadcast "main"], o.acc, o.ign⟩
        else
          ⟨.error, o.st, evs ++ [Event.save], o.acc, o.ign⟩) from rfl, hphase]

theorem metaPhase_graft (ext : Externs) (st : AppState) (cs mcs : List (String × NTree))
    (mp : NTree) (hm : assocGet cs "metadata" = some (.node mcs))
    (hmp : assocGet mcs "metadataProviders" = some mp) (htrmp : truthyT mp = true) :
    metaPhase ext st cs =
      (match ext.metaPatch st mp with
       | some st1 => .ok st1 (setNested emptyT metaPath mp) emptyT (metaRest cs mcs)
       | none => .ok st emptyT (setNested emptyT metaPath mp) (metaRest cs mcs)) := by
  have htr : truthyT (.node mcs) = true := truthyT_node_of_get mcs _ mp hmp
  simp only [metaPhase_eq, hm, htr, hmp, htrmp, if_true]
  rfl

theorem metaPhase_keyerror (ext : Externs) (st : AppState) (cs mcs : List (String × NTree))
    (hm : assocGet cs "metadata" = some (.node mcs))
    (htr : truthyT (.node mcs) = true)
    (hmp : assocGet mcs "metadataProviders" = none) :
    metaPhase ext st cs = .err := by
  simp only [metaPhase_eq, hm, htr, hmp, if_true]

theorem patchField_validator_false (f : FieldDesc) (st : AppState)
    (vd : AppState → Json → Option Bool) (v : Json)
    (hvd : f.validator = some vd) (hfalse : vd st v = some false) :
    patchField f st v = none := by
  simp only [patchField, hvd, hfalse]

theorem dispatchLoop_single_rejected (ext : Externs) (st : AppState) (k : List String)
    (v : Json)
    (hres : (match lookupPath (patches ext) k with
             | some f => patchField f st v
             | none => none) = none) :
    dispatchLoop ext [(k, v)] st emptyT emptyT =
      ⟨st, emptyT, setNested emptyT k (.leaf v), [.leafDone k]⟩ := by
  rw [dispatchLoop_cons, hres]
  rfl

/-! ### Concrete fixtures used by witnesses and counterexamples -/

/-- A benign external environment: every external call succeeds and every
external constant is `None`. -/
def ext0 : Externs :=
  { isValidCombinedQuality := fun _ => some true,
    changeTheme := fun st _ => some st,
    metaPatch := fun st _ => some st,
    saveOk := true,
    ext := fun _ => Json.null,
    extT := fun _ => emptyT }

/-- A store in which every attribute is `None`. -/
def st0 : AppState := { attrs := fun _ => Json.null, providers := [] }

/-- An environment whose theme hot-swap raises. -/
def extThrow : Externs := { ext0 with changeTheme := fun _ _ => none }

/-! ### The claims -/

/-- C8: a PATCH with a missing (or empty) section identifier is a 400 and a
PATCH with any identifier other than `main` is a 404; in both cases the
request is aborted before the body is decoded (the result is the same for
every body, including an undecodable one) and before any mutation, save or
broadcast (the store is unchanged and the event trace is empty). -/
theorem c8_routing_before_decode (ext : Externs) (st : AppState) (body : Option NTree) :
    httpPatch ext st none body = ⟨.badRequest, st, [], emptyT, emptyT⟩ ∧
    httpPatch ext st (some "") body = ⟨.badRequest, st, [], emptyT, emptyT⟩ ∧
    ∀ id, id ≠ "main" → id ≠ "" →
      httpPatch ext st (some id) body = ⟨.notFound, st, [], emptyT, emptyT⟩ := by
  refine ⟨rfl, rfl, ?_⟩
  intro id h1 h2
  show (if id = "" then (⟨.badRequest, st, [], emptyT, emptyT⟩ : RunResult)
        else if id = "main" then
          (match body with
           | none => ⟨.error, st, [], emptyT, emptyT⟩
           | some data => patchMain ext st data)
        else ⟨.notFound, st, [], emptyT, emptyT⟩) = ⟨.notFound, st, [], emptyT, emptyT⟩
  rw [if_neg h2, if_neg h1]

theorem c8_routing_witness :
    httpPatch ext0 st0 none none = ⟨.badRequest, st0, [], emptyT, emptyT⟩ ∧
    httpPatch ext0 st0 (some "nope") none = ⟨.notFound, st0, [], emptyT, emptyT⟩ :=
  ⟨(c8_routing_before_decode ext0 st0 none).1,
   (c8_routing_before_decode ext0 st0 none).2.2 "nope" (by decide) (by decide)⟩

/-- C9: GET dispatch.  With no section the response is 200 with the full
snapshot, whose top-level keys are exactly the registered section names;
an unregistered section is a 404; a registered section with a path segment
that is not a top-level key of its tree is a 400; a registered section with
a valid path segment returns exactly that key's value. -/
theorem c9_get_dispatch (ext : Externs) (st : AppState) :
    (httpGet ext st none none = .ok (fullSnapshot ext st) ∧
     (match fullSnapshot ext st with
      | .node cs2 => keysOf cs2
      | .leaf _ => []) = sections) ∧
    (∀ id, id ≠ "" → sections.contains id = false → ∀ pp,
       httpGet ext st (some id) pp = .notFound) ∧
    (∀ id, sections.contains id = true → id ≠ "" → ∀ p, p ≠ "" →
       topGet (getData ext st id) p = none →
       httpGet ext st (some id) (some p) = .badRequest) ∧
    (∀ id, sections.contains id = true → id ≠ "" → ∀ p, p ≠ "" → ∀ sub,
       topGet (getData ext st id) p = some sub →
       httpGet ext st (some id) (some p) = .ok sub) := by
  refine ⟨⟨rfl, rfl⟩, ?_, ?_, ?_⟩
  · intro id h1 h2 pp
    show (if id ≠ "" ∧ ¬ (sections.contains id = true) then GetOutcome.notFound
          else if id = "" then .ok (fullSnapshot ext st) else _) = GetOutcome.notFound
    rw [if_pos ⟨h1, by rw [h2]; exact Bool.false_ne_true⟩]
  · intro id h1 h2 p h3 h4
    show (if id ≠ "" ∧ ¬ (sections.contains id = true) then GetOutcome.notFound
          else if id = "" then .ok (fullSnapshot ext st)
          else
            (match some p with
             | none => GetOutcome.ok (getData ext st id)
             | some p =>
               if p = "" then .ok (getData ext st id)
               else
                 match topGet (getData ext st id) p with
                 | none => .badRequest
                 | some sub => .ok sub)) = GetOutcome.badRequest
    rw [if_neg (fun hh => hh.2 h1), if_neg h2]
    show (if p = "" then GetOutcome.ok (getData ext st id)
          else
            match topGet (getData ext st id) p with
            | none => .badRequest
            | some sub => .ok sub) = GetOutcome.badRequest
    rw [if_neg h3, h4]
  · intro id h1 h2 p h3 sub h4
    show (if id ≠ "" ∧ ¬ (sections.contains id = true) then GetOutcome.notFound
          else if id = "" then .ok (fullSnapshot ext st)
          else
            (match some p with
             | none => GetOutcome.ok (getData ext st id)
             | some p =>
               if p = "" then .ok (getData ext st id)
               else
                 match topGet (getData ext st id) p with
                 | none => .badRequest
                 | some sub => .ok sub)) = GetOutcome.ok sub
    rw [if_neg (fun hh => hh.2 h1), if_neg h2]
    show (if p = "" then GetOutcome.ok (getData ext st id)
          else
            match topGet (getData ext st id) p with
            | none => .badRequest
            | some sub => .ok sub) = GetOutcome.ok sub
    rw [if_neg h3, h4]

theorem c9_get_dispatch_witness :
    httpGet ext0 st0 (some "doesnotexist") none = .notFound ∧
    httpGet ext0 st0 (some "main") (some "doesnotexist") = .badRequest ∧
    httpGet ext0 st0 (some "metadata") (some "metadataProviders") = .ok emptyT :=
  ⟨(c9_get_dispatch ext0 st0).2.1 "doesnotexist" (by decide) rfl none,
   (c9_get_dispatch ext0 st0).2.2.1 "main" rfl (by decide) "doesnotexist" (by decide) rfl,
   (c9_get_dispatch ext0 st0).2.2.2 "metadata" rfl (by decide) "metadataProviders"
     (by decide) emptyT rfl⟩

/-- C4: the validator gate.  For a registered field with a validator and a
candidate the validator rejects, the patch request leaves the store
untouched (so the container attribute is unchanged), the accepted tree is
empty, and the leaf lands in the ignored tree at its own path; the request
itself still succeeds. -/
theorem c4_validator_gate (ext : Externs) (st : AppState) (p : List String)
    (f : FieldDesc) (vd : AppState → Json → Option Bool) (v : Json)
    (hlk : lookupPath (patches ext) p = some f)
    (hvd : f.validator = some vd) (hfalse : vd st v = some false)
    (hp : p ≠ []) (hhead : p.headD "" ≠ "metadata") (hsave : ext.saveOk = true) :
    (httpPatch ext st (some "main") (some (setNested emptyT p (.leaf v)))).state = st ∧
    (httpPatch ext st (some "main") (some (setNested emptyT p (.leaf v)))).accepted =
      emptyT ∧
    getAt (httpPatch ext st (some "main") (some (setNested emptyT p (.leaf v)))).ignored p =
      some (.leaf v) ∧
    (httpPatch ext st (some "main") (some (setNested emptyT p (.leaf v)))).outcome =
      .ok emptyT := by
  match p, hp with
  | k :: rest, _ =>
    have hk : k ≠ "metadata" := by
      intro hh
      exact hhead (by rw [show (k :: rest).headD "" = k from rfl, hh])
    have hbody : setNested emptyT (k :: rest) (.leaf v) =
        .node [(k, setNested emptyT rest (.leaf v))] := rfl
    have hphase : metaPhase ext st [(k, setNested emptyT rest (.leaf v))] =
        .ok st emptyT emptyT (.node [(k, setNested emptyT rest (.leaf v))]) := by
      rw [metaPhase_eq,
        show assocGet [(k, setNested emptyT rest (.leaf v))] "metadata" =
          (if k = "metadata" then some (setNested emptyT rest (.leaf v)) else none) from rfl,
        if_neg hk]
    have hrun : httpPatch ext st (some "main") (some (setNested emptyT (k :: rest) (.leaf v))) =
        patchMain ext st (.node [(k, setNested emptyT rest (.leaf v))]) := rfl
    have hflat : flattenSeg (.node [(k, setNested emptyT rest (.leaf v))]) =
        [(k :: rest, v)] := by
      rw [← hbody]
      exact flattenSeg_single (k :: rest) v (List.cons_ne_nil k rest)
    have hres : (match lookupPath (patches ext) (k :: rest) with
                 | some f2 => patchField f2 st v
                 | none => none) = none := by
      rw [hlk]
      exact patchField_validator_false f st vd v hvd hfalse
    have hloop : dispatchLoop ext (flattenSeg (.node [(k, setNested emptyT rest (.leaf v))]))
        st emptyT emptyT =
        ⟨st, emptyT, setNested emptyT (k :: rest) (.leaf v), [.leafDone (k :: rest)]⟩ := by
      rw [hflat]
      exact dispatchLoop_single_rejected ext st (k :: rest) v hres
    rw [hrun]
    refine ⟨?_, ?_, ?_, ?_⟩
    · rw [patchMain_state ext st _ st emptyT emptyT _ hphase, hloop]
    · rw [patchMain_accepted ext st _ st emptyT emptyT _ hphase, hloop]
    · rw [patchMain_ignored ext st _ st emptyT emptyT _ hphase, hloop]
      exact getAt_single (k :: rest) (.leaf v)
    · rw [patchMain_outcome ext st _ st emptyT emptyT _ hphase, if_pos hsave, hloop]

/-- A store in which subtitles are enabled nowhere, making the
`showDefaults.subtitles` validator reject every candidate. -/
theorem c4_validator_gate_witness :
    lookupPath (patches ext0) ["showDefaults", "subtitles"] = some subtitlesDefaultField ∧
    subtitlesValidator st0 (.bool true) = some false ∧
    (httpPatch ext0 st0 (some "main")
      (some (setNested emptyT ["showDefaults", "subtitles"] (.leaf (.bool true))))).state =
      st0 ∧
    getAt (httpPatch ext0 st0 (some "main")
      (some (setNested emptyT ["showDefaults", "subtitles"]
        (.leaf (.bool true))))).ignored ["showDefaults", "subtitles"] =
      some (.leaf (.bool true)) :=
  ⟨rfl, rfl,
   (c4_validator_gate ext0 st0 ["showDefaults", "subtitles"] subtitlesDefaultField
     subtitlesValidator (.bool true) rfl rfl rfl (by decide) (by decide) rfl).1,
   (c4_validator_gate ext0 st0 ["showDefaults", "subtitles"] subtitlesDefaultField
     subtitlesValidator (.bool true) rfl rfl rfl (by decide) (by decide) rfl).2.2.1⟩

/-- C5: per-field exception isolation.  A leaf whose field patch raises (or
otherwise rejects — `patchField` returns `none` for both, the exception
being caught at the dispatch boundary) is recorded in the ignored tree at
its own path, the store is left as it was, and the loop continues with the
remaining sibling leaves exactly as if they were the whole request. -/
theorem c5_exception_isolation (ext : Externs) (st : AppState) (k : List String) (v : Json)
    (f : FieldDesc) (rest : List (List String × Json)) (acc ign : NTree)
    (hlk : lookupPath (patches ext) k = some f)
    (hpf : patchField f st v = none) :
    dispatchLoop ext ((k, v) :: rest) st acc ign =
      (let r := dispatchLoop ext rest st acc (setNested ign k (.leaf v))
       ⟨r.st, r.acc, r.ign, .leafDone k :: r.evs⟩) := by
  rw [dispatchLoop_cons]
  simp only [hlk, hpf]

/-- Setting the theme raises inside `config.change_theme`; the sibling
torrents leaf is still applied. -/
theorem c5_exception_isolation_witness :
    patchField (themeNameField extThrow) st0 (.str "dark") = none ∧
    dispatchLoop extThrow
        [(["theme", "name"], .str "dark"), (["torrents", "enabled"], .bool true)]
        st0 emptyT emptyT =
      (let r := dispatchLoop extThrow [(["torrents", "enabled"], .bool true)] st0 emptyT
         (setNested emptyT ["theme", "name"] (.leaf (.str "dark")))
       ⟨r.st, r.acc, r.ign, .leafDone ["theme", "name"] :: r.evs⟩) ∧
    ((dispatchLoop extThrow
        [(["theme", "name"], .str "dark"), (["torrents", "enabled"], .bool true)]
        st0 emptyT emptyT).st).attrs "USE_TORRENTS" = .bool true :=
  ⟨rfl,
   c5_exception_isolation extThrow st0 ["theme", "name"] (.str "dark")
     (themeNameField extThrow) [(["torrents", "enabled"], .bool true)] emptyT emptyT rfl rfl,
   rfl⟩

theorem metaPhase_ok_of_metaOK (ext : Externs) (st : AppState) (cs : List (String × NTree))
    (hmeta : metaOK cs) :
    ∃ st0 acc0 ign0 rest', metaPhase ext st cs = .ok st0 acc0 ign0 rest' := by
  rcases metaPhase_cases ext st cs hmeta with h | ⟨_, _, _, _, _, _, _, h⟩ |
    ⟨_, _, _, _, _, _, h⟩
  · exact ⟨_, _, _, _, h⟩
  · exact ⟨_, _, _, _, h⟩
  · exact ⟨_, _, _, _, h⟩

/-- C6: a successful PATCH returns 200 whose body is exactly the accepted
tree, and the ignored set is reported through the warning log exactly when
it is non-empty — without failing the request. -/
theorem c6_accepted_only_response (ext : Externs) (st : AppState)
    (cs : List (String × NTree)) (hmeta : metaOK cs) (hsave : ext.saveOk = true) :
    (httpPatch ext st (some "main") (some (.node cs))).outcome =
      .ok (httpPatch ext st (some "main") (some (.node cs))).accepted ∧
    (truthyT (httpPatch ext st (some "main") (some (.node cs))).ignored = true ↔
      Event.warnIgnored ∈ (httpPatch ext st (some "main") (some (.node cs))).events) := by
  obtain ⟨s0, a0, i0, r0, hphase⟩ := metaPhase_ok_of_metaOK ext st cs hmeta
  have hrun : httpPatch ext st (some "main") (some (.node cs)) =
      patchMain ext st (.node cs) := rfl
  rw [hrun, patchMain_outcome ext st cs s0 a0 i0 r0 hphase, if_pos hsave,
    patchMain_accepted ext st cs s0 a0 i0 r0 hphase,
    patchMain_ignored ext st cs s0 a0 i0 r0 hphase,
    patchMain_events ext st cs s0 a0 i0 r0 hphase]
  refine ⟨rfl, ?_⟩
  rw [show (let o := dispatchLoop ext (flattenSeg r0) s0 a0 i0
       (o.evs ++ (if truthyT o.ign then [Event.warnIgnored] else [])) ++
         Event.save :: (if ext.saveOk then [Event.broadcast "main"] else [])) =
      ((dispatchLoop ext (flattenSeg r0) s0 a0 i0).evs ++
        (if truthyT (dispatchLoop ext (flattenSeg r0) s0 a0 i0).ign
         then [Event.warnIgnored] else [])) ++
        Event.save :: (if ext.saveOk then [Event.broadcast "main"] else []) from rfl]
  rw [dispatchLoop_evs]
  by_cases ht : truthyT (dispatchLoop ext (flattenSeg r0) s0 a0 i0).ign = true
  · rw [ht, if_pos rfl]
    constructor
    · intro _
      exact List.mem_append.2 (Or.inl (List.mem_append.2
        (Or.inr (List.mem_singleton.2 rfl))))
    · intro _
      rfl
  · have ht2 : truthyT (dispatchLoop ext (flattenSeg r0) s0 a0 i0).ign = false := by
      simpa using ht
    rw [ht2]
    constructor
    · intro h
      exact Bool.noConfusion h
    · intro h
      exfalso
      rw [if_neg Bool.false_ne_true, List.append_nil] at h
      rcases List.mem_append.1 h with h2 | h2
      · obtain ⟨e, _, he⟩ := List.mem_map.1 h2
        exact Event.noConfusion he
      · rcases List.mem_cons.1 h2 with h3 | h3
        · exact Event.noConfusion h3
        · rw [hsave, if_pos rfl] at h3
          exact Event.noConfusion (List.mem_singleton.1 h3)

theorem c6_accepted_only_response_witness :
    (httpPatch ext0 st0 (some "main")
      (some (.node [("torrents", .node [("enabled", .leaf (.bool true)),
        ("bogusField", .leaf (.int 5))])]))).outcome =
      .ok (httpPatch ext0 st0 (some "main")
        (some (.node [("torrents", .node [("enabled", .leaf (.bool true)),
          ("bogusField", .leaf (.int 5))])]))).accepted ∧
    (truthyT (httpPatch ext0 st0 (some "main")
        (some (.node [("torrents", .node [("enabled", .leaf (.bool true)),
          ("bogusField", .leaf (.int 5))])]))).ignored = true ↔
      Event.warnIgnored ∈ (httpPatch ext0 st0 (some "main")
        (some (.node [("torrents", .node [("enabled", .leaf (.bool true)),
          ("bogusField", .leaf (.int 5))])]))).events) :=
  c6_accepted_only_response ext0 st0 _ (fun m h => Option.noConfusion h) rfl

theorem dispatchLoop_congr (ext1 ext2 : Externs)
    (hp : patches ext1 = patches ext2) :
    ∀ (items : List (List String × Json)) (st : AppState) (acc ign : NTree),
      dispatchLoop ext1 items st acc ign = dispatchLoop ext2 items st acc ign := by
  intro items
  induction items with
  | nil => intro st acc ign; rfl
  | cons kv rest ih =>
    intro st acc ign
    obtain ⟨k, v⟩ := kv
    rw [dispatchLoop_cons, dispatchLoop_cons, hp]
    cases hres : (match lookupPath (patches ext2) k with
                  | some f => patchField f st v
                  | none => none) with
    | some st1 => simp only [ih]
    | none => simp only [ih]

/-- C7: single deferred persistence, no rollback.  Per request the save
event occurs exactly once, strictly after every dispatched leaf; on a save
failure the request surfaces an error but the final store is the same one a
successful save would have left (in-memory mutations are not undone). -/
theorem c7_single_deferred_save (ext : Externs) (st : AppState)
    (cs : List (String × NTree)) (hmeta : metaOK cs) :
    (∃ pre,
       (httpPatch ext st (some "main") (some (.node cs))).events =
         pre ++ Event.save :: (if ext.saveOk then [Event.broadcast "main"] else []) ∧
       Event.save ∉ pre ∧
       (∀ k, Event.leafDone k ∈ (httpPatch ext st (some "main") (some (.node cs))).events →
         Event.leafDone k ∈ pre)) ∧
    (ext.saveOk = false →
       (httpPatch ext st (some "main") (some (.node cs))).outcome = .error ∧
       (httpPatch ext st (some "main") (some (.node cs))).state =
         (httpPatch { ext with saveOk := true } st (some "main")
           (some (.node cs))).state) := by
  obtain ⟨s0, a0, i0, r0, hphase⟩ := metaPhase_ok_of_metaOK ext st cs hmeta
  have hrun : httpPatch ext st (some "main") (some (.node cs)) =
      patchMain ext st (.node cs) := rfl
  have hev := patchMain_events ext st cs s0 a0 i0 r0 hphase
  constructor
  · refine ⟨(dispatchLoop ext (flattenSeg r0) s0 a0 i0).evs ++
      (if truthyT (dispatchLoop ext (flattenSeg r0) s0 a0 i0).ign
       then [Event.warnIgnored] else []), ?_, ?_, ?_⟩
    · rw [hrun, hev]
    · intro h
      rcases List.mem_append.1 h with h2 | h2
      · rw [dispatchLoop_evs] at h2
        obtain ⟨e, _, he⟩ := List.mem_map.1 h2
        exact Event.noConfusion he
      · by_cases ht : truthyT (dispatchLoop ext (flattenSeg r0) s0 a0 i0).ign = true
        · rw [if_pos ht] at h2
          exact Event.noConfusion (List.mem_singleton.1 h2)
        · rw [if_neg ht] at h2
          exact absurd h2 (List.not_mem_nil _)
    · intro k h
      rw [hrun, hev] at h
      rcases List.mem_append.1 h with h2 | h2
      · exact h2
      · exfalso
        rcases List.mem_cons.1 h2 with h3 | h3
        · exact Event.noConfusion h3
        · by_cases hs : ext.saveOk = true
          · rw [if_pos hs] at h3
            exact Event.noConfusion (List.mem_singleton.1 h3)
          · rw [if_neg hs] at h3
            exact absurd h3 (List.not_mem_nil _)
  · intro hsavef
    have hphase2 : metaPhase { ext with saveOk := true } st cs = .ok s0 a0 i0 r0 := hphase
    constructor
    · rw [hrun, patchMain_outcome ext st cs s0 a0 i0 r0 hphase, hsavef]
      rfl
    · rw [hrun, patchMain_state ext st cs s0 a0 i0 r0 hphase,
        show httpPatch { ext with saveOk := true } st (some "main") (some (.node cs)) =
          patchMain { ext with saveOk := true } st (.node cs) from rfl,
        patchMain_state { ext with saveOk := true } st cs s0 a0 i0 r0 hphase2,
        dispatchLoop_congr ext { ext with saveOk := true } rfl]

theorem c7_single_deferred_save_witness :
    ((∃ pre,
       (httpPatch { ext0 with saveOk := false } st0 (some "main")
         (some (.node [("torrents", .node [("enabled", .leaf (.bool true))])]))).events =
         pre ++ Event.save ::
           (if ({ ext0 with saveOk := false } : Externs).saveOk
            then [Event.broadcast "main"] else []) ∧
       Event.save ∉ pre ∧
       (∀ k, Event.leafDone k ∈ (httpPatch { ext0 with saveOk := false } st0 (some "main")
           (some (.node [("torrents", .node [("enabled", .leaf (.bool true))])]))).events →
         Event.leafDone k ∈ pre))) ∧
    ((httpPatch { ext0 with saveOk := false } st0 (some "main")
        (some (.node [("torrents", .node [("enabled", .leaf (.bool true))])]))).outcome =
      .error ∧
     (httpPatch { ext0 with saveOk := false } st0 (some "main")
        (some (.node [("torrents", .node [("enabled", .leaf (.bool true))])]))).state =
      (httpPatch { { ext0 with saveOk := false } with saveOk := true } st0 (some "main")
        (some (.node [("torrents", .node [("enabled", .leaf (.bool true))])]))).state) :=
  ⟨(c7_single_deferred_save { ext0 with saveOk := false } st0 _
      (fun m h => Option.noConfusion h)).1,
   (c7_single_deferred_save { ext0 with saveOk := false } st0 _
      (fun m h => Option.noConfusion h)).2 rfl⟩

set_option maxHeartbeats 4000000 in
/-- C10: registered paths alias shared container attributes.  The patch
table binds `emby.enabled` and `notifiers.emby.enabled` to `USE_EMBY`,
`notifiers.kodi.enabled` and `notifiers.kodi.alwaysOn` to `USE_KODI`, and
the three `notifiers.plex.server.{username,password,token}` paths to
`PLEX_SERVER_HOST`; consequently an accepted write at one aliased path is
read back under the other path of its pair, so writable fields are not
pairwise independent. -/
theorem c10_aliased_attributes (ext : Externs) (b : Bool) :
    ((lookupPath (patches ext) ["emby", "enabled"]).map FieldDesc.attrName =
        some "USE_EMBY" ∧
     (lookupPath (patches ext) ["notifiers", "emby", "enabled"]).map FieldDesc.attrName =
        some "USE_EMBY") ∧
    ((lookupPath (patches ext) ["notifiers", "kodi", "enabled"]).map FieldDesc.attrName =
        some "USE_KODI" ∧
     (lookupPath (patches ext) ["notifiers", "kodi", "alwaysOn"]).map FieldDesc.attrName =
        some "USE_KODI") ∧
    ((lookupPath (patches ext) ["notifiers", "plex", "server", "username"]).map
        FieldDesc.attrName = some "PLEX_SERVER_HOST" ∧
     (lookupPath (patches ext) ["notifiers", "plex", "server", "password"]).map
        FieldDesc.attrName = some "PLEX_SERVER_HOST" ∧
     (lookupPath (patches ext) ["notifiers", "plex", "server", "token"]).map
        FieldDesc.attrName = some "PLEX_SERVER_HOST") ∧
    (let r := httpPatch ext0 st0 (some "main")
        (some (.node [("notifiers", .node [("kodi",
          .node [("alwaysOn", .leaf (.bool b))])])]))
     lookupLeaf r.accepted ["notifiers", "kodi", "alwaysOn"] = some (.bool b) ∧
     r.state.attrs "USE_KODI" = .bool b ∧
     lookupLeaf (getData ext0 r.state "notifiers") ["kodi", "enabled"] =
       some (.bool b)) := by
  refine ⟨⟨rfl, rfl⟩, ⟨rfl, rfl⟩, ⟨rfl, rfl, rfl⟩, ?_⟩
  intro r
  have hstate : r.state = AppState.set st0 "USE_KODI" (.bool b) := rfl
  have hacc : r.accepted =
      .node [("notifiers", .node [("kodi", .node [("alwaysOn", .leaf (.bool b))])])] := rfl
  refine ⟨?_, ?_, ?_⟩
  · rw [hacc]; rfl
  · rw [hstate]; rfl
  · rw [hstate]
    refine Eq.trans (lookupLeaf_step _ "kodi" ["enabled"] _
      (neBuild_get _ "kodi" _ rfl rfl (fun h => NTree.noConfusion h))) ?_
    refine Eq.trans (lookupLeaf_step _ "enabled" [] _
      (neBuild_get _ "enabled" _ rfl rfl (fun h => Json.noConfusion (NTree.leaf.inj h)))) ?_
    rfl

/-- C1: the read-after-write round trip, as stated for every registered
path, fails; it does hold path-wise for non-aliased fields.  Amended form,
proved here for the representative registered path `torrents.username`
(`StringField`, attribute `TORRENT_USERNAME`): for every environment,
every starting store and every string value, the PATCH is accepted (the
leaf appears in the accepted tree unchanged) and a subsequent read of the
`main` section yields exactly the written value at the same nested
location. -/
theorem c1_round_trip (ext : Externs) (st : AppState) (s : String) :
    let r := httpPatch ext st (some "main")
      (some (.node [("torrents", .node [("username", .leaf (.str s))])]))
    lookupLeaf r.accepted ["torrents", "username"] = some (.str s) ∧
    lookupLeaf (getData ext r.state "main") ["torrents", "username"] =
      some (.str s) := by
  intro r
  have hstate : r.state = AppState.set st "TORRENT_USERNAME" (.str s) :=
    (patchMain_state ext st [("torrents", .node [("username", .leaf (.str s))])]
      st emptyT emptyT (.node [("torrents", .node [("username", .leaf (.str s))])])
      rfl).trans rfl
  have hacc : r.accepted =
      .node [("torrents", .node [("username", .leaf (.str s))])] :=
    (patchMain_accepted ext st [("torrents", .node [("username", .leaf (.str s))])]
      st emptyT emptyT (.node [("torrents", .node [("username", .leaf (.str s))])])
      rfl).trans rfl
  refine ⟨?_, ?_⟩
  · rw [hacc]; rfl
  · rw [hstate]
    refine Eq.trans (lookupLeaf_step _ "torrents" ["username"] _
      (neBuild_get _ "torrents" _ rfl rfl (fun h => NTree.noConfusion h))) ?_
    refine Eq.trans (lookupLeaf_step _ "username" [] _
      (neBuild_get _ "username" _ rfl rfl (fun h => Json.noConfusion (NTree.leaf.inj h)))) ?_
    rfl

/-- C1 counterexample: the literal claim quantifies over every registered
path.  It fails at `notifiers.kodi.alwaysOn`: the write is accepted and
stored (into the aliased attribute `USE_KODI`), but the read-back of the
`notifiers` section at the same nested location reports
`bool(KODI_ALWAYS_ON)`, still `False` — not the written value `True`. -/
theorem c1_round_trip_cex :
    let r := httpPatch ext0 st0 (some "main")
      (some (.node [("notifiers", .node [("kodi",
        .node [("alwaysOn", .leaf (.bool true))])])]))
    lookupLeaf r.accepted ["notifiers", "kodi", "alwaysOn"] = some (.bool true) ∧
    r.state.attrs "USE_KODI" = .bool true ∧
    lookupLeaf (getData ext0 r.state "notifiers") ["kodi", "alwaysOn"] =
      some (.bool false) := by
  intro r
  have hstate : r.state = AppState.set st0 "USE_KODI" (.bool true) := rfl
  have hacc : r.accepted =
      .node [("notifiers", .node [("kodi", .node [("alwaysOn", .leaf (.bool true))])])] := rfl
  refine ⟨?_, ?_, ?_⟩
  · rw [hacc]; rfl
  · rw [hstate]; rfl
  · rw [hstate]
    refine Eq.trans (lookupLeaf_step _ "kodi" ["alwaysOn"] _
      (neBuild_get _ "kodi" _ rfl rfl (fun h => NTree.noConfusion h))) ?_
    refine Eq.trans (lookupLeaf_step _ "alwaysOn" [] _
      (neBuild_get _ "alwaysOn" _ rfl rfl (fun h => Json.noConfusion (NTree.leaf.inj h)))) ?_
    rfl

/-- C2 counterexample: the partition law as stated fails.  A body whose
`metadata` mapping is present but falsy at `metadataProviders` has its
`metadata.metadataProviders` leaf silently dropped: the request succeeds,
yet the leaf appears in neither the accepted nor the ignored tree. -/
theorem c2_partition_cex :
    let r := httpPatch ext0 st0 (some "main")
      (some (.node [("metadata", .node [("metadataProviders", .leaf (.bool false))])]))
    wfb (.node [("metadata", .node [("metadataProviders", .leaf (.bool false))])]) = true ∧
    flattenSeg (.node [("metadata", .node [("metadataProviders", .leaf (.bool false))])]) =
      [(["metadata", "metadataProviders"], .bool false)] ∧
    r.outcome = .ok emptyT ∧
    flattenSeg r.accepted = [] ∧
    flattenSeg r.ignored = [] :=
  ⟨rfl, rfl, rfl, rfl, rfl⟩

theorem c2_partition_law_witness :
    metaOK [("torrents", NTree.node [("enabled", NTree.leaf (.bool true))]),
      ("bogusField", NTree.leaf (.str "x"))] ∧
    wfb (.node [("torrents", NTree.node [("enabled", NTree.leaf (.bool true))]),
      ("bogusField", NTree.leaf (.str "x"))]) = true ∧
    (((["torrents", "enabled"], Json.bool true) ∈
        flattenSeg (.node [("torrents", NTree.node [("enabled", NTree.leaf (.bool true))]),
          ("bogusField", NTree.leaf (.str "x"))]) ↔
      ((["torrents", "enabled"], Json.bool true) ∈
        flattenSeg (httpPatch ext0 st0 (some "main")
          (some (.node [("torrents", NTree.node [("enabled", NTree.leaf (.bool true))]),
            ("bogusField", NTree.leaf (.str "x"))]))).accepted ∨
       (["torrents", "enabled"], Json.bool true) ∈
        flattenSeg (httpPatch ext0 st0 (some "main")
          (some (.node [("torrents", NTree.node [("enabled", NTree.leaf (.bool true))]),
            ("bogusField", NTree.leaf (.str "x"))]))).ignored)) ∧
     ¬ (["torrents", "enabled"] ∈
        ((flattenSeg (httpPatch ext0 st0 (some "main")
          (some (.node [("torrents", NTree.node [("enabled", NTree.leaf (.bool true))]),
            ("bogusField", NTree.leaf (.str "x"))]))).accepted).map Prod.fst) ∧
        ["torrents", "enabled"] ∈
        ((flattenSeg (httpPatch ext0 st0 (some "main")
          (some (.node [("torrents", NTree.node [("enabled", NTree.leaf (.bool true))]),
            ("bogusField", NTree.leaf (.str "x"))]))).ignored).map Prod.fst))) :=
  ⟨fun m h => Option.noConfusion h, rfl,
   c2_partition_law ext0 st0
     [("torrents", NTree.node [("enabled", NTree.leaf (.bool true))]),
      ("bogusField", NTree.leaf (.str "x"))]
     rfl (fun m h => Option.noConfusion h) ["torrents", "enabled"] (.bool true)⟩

/-- C3: the metadata special case, amended.  For a body whose `metadata`
mapping binds `metadataProviders` to a truthy sub-tree `mp`, the sub-tree
is routed whole to the dedicated handler and is accepted or rejected as a
single unit under `metadata.metadataProviders`: if the handler succeeds the
entire `mp` appears at that path in the accepted tree and not in the
ignored tree, and if it raises the entire `mp` appears at that path in the
ignored tree and not in the accepted tree.  The literal claim's second half
fails: when a truthy `metadata` mapping lacks the `metadataProviders` key,
the request is not processed normally but dies with a KeyError (see the
counterexample). -/
theorem c3_metadata_unit (ext : Externs) (st : AppState)
    (cs mcs : List (String × NTree)) (hwf : wfb (.node cs) = true)
    (hm : assocGet cs "metadata" = some (.node mcs)) :
    (∀ mp, assocGet mcs "metadataProviders" = some mp → truthyT mp = true →
      ((∀ st1, ext.metaPatch st mp = some st1 →
         getAt (httpPatch ext st (some "main") (some (.node cs))).accepted metaPath =
           some mp ∧
         getAt (httpPatch ext st (some "main") (some (.node cs))).ignored metaPath =
           none) ∧
       (ext.metaPatch st mp = none →
         getAt (httpPatch ext st (some "main") (some (.node cs))).accepted metaPath =
           none ∧
         getAt (httpPatch ext st (some "main") (some (.node cs))).ignored metaPath =
           some mp))) ∧
    (truthyT (.node mcs) = true → assocGet mcs "metadataProviders" = none →
      httpPatch ext st (some "main") (some (.node cs)) =
        ⟨.error, st, [], emptyT, emptyT⟩) := by
  have hrun : httpPatch ext st (some "main") (some (.node cs)) =
      patchMain ext st (.node cs) := rfl
  have hwfl : wfbL cs = true := by rw [← wfb_node]; exact hwf
  constructor
  · intro mp hmp htrmp
    have hinc : ∀ x ∈ flattenSeg (metaRest cs mcs),
        ¬ Pre x.1 metaPath ∧ ¬ Pre metaPath x.1 := by
      intro x hx
      have h2 := metaRest_items_inc cs mcs hwfl hm x hx
      exact ⟨h2.2, h2.1⟩
    constructor
    · intro st1 hpt
      have hphase : metaPhase ext st cs =
          .ok st1 (setNested emptyT metaPath mp) emptyT (metaRest cs mcs) := by
        rw [metaPhase_graft ext st cs mcs mp hm hmp htrmp]
        simp only [hpt]
      have hg := dispatchLoop_getAt ext (flattenSeg (metaRest cs mcs)) st1
        (setNested emptyT metaPath mp) emptyT metaPath hinc
      constructor
      · rw [hrun, patchMain_accepted ext st cs st1 (setNested emptyT metaPath mp)
          emptyT (metaRest cs mcs) hphase, hg.1]
        exact getAt_single metaPath mp
      · rw [hrun, patchMain_ignored ext st cs st1 (setNested emptyT metaPath mp)
          emptyT (metaRest cs mcs) hphase, hg.2]
        exact getAt_emptyT_cons "metadata" ["metadataProviders"]
    · intro hpt
      have hphase : metaPhase ext st cs =
          .ok st emptyT (setNested emptyT metaPath mp) (metaRest cs mcs) := by
        rw [metaPhase_graft ext st cs mcs mp hm hmp htrmp]
        simp only [hpt]
      have hg := dispatchLoop_getAt ext (flattenSeg (metaRest cs mcs)) st
        emptyT (setNested emptyT metaPath mp) metaPath hinc
      constructor
      · rw [hrun, patchMain_accepted ext st cs st emptyT
          (setNested emptyT metaPath mp) (metaRest cs mcs) hphase, hg.1]
        exact getAt_emptyT_cons "metadata" ["metadataProviders"]
      · rw [hrun, patchMain_ignored ext st cs st emptyT
          (setNested emptyT metaPath mp) (metaRest cs mcs) hphase, hg.2]
        exact getAt_single metaPath mp
  · intro htr hnone
    rw [hrun, patchMain_err ext st cs (metaPhase_keyerror ext st cs mcs hm htr hnone)]

theorem c3_metadata_unit_witness :
    wfb (.node [("metadata", NTree.node [("metadataProviders",
      NTree.node [("kodi", NTree.leaf (.str "x"))])])]) = true ∧
    assocGet [("metadata", NTree.node [("metadataProviders",
      NTree.node [("kodi", NTree.leaf (.str "x"))])])] "metadata" =
      some (.node [("metadataProviders", NTree.node [("kodi", NTree.leaf (.str "x"))])]) ∧
    assocGet [("metadataProviders", NTree.node [("kodi", NTree.leaf (.str "x"))])]
      "metadataProviders" = some (NTree.node [("kodi", NTree.leaf (.str "x"))]) ∧
    truthyT (NTree.node [("kodi", NTree.leaf (.str "x"))]) = true ∧
    ext0.metaPatch st0 (NTree.node [("kodi", NTree.leaf (.str "x"))]) = some st0 ∧
    (let r := httpPatch ext0 st0 (some "main") (some (.node [("metadata",
        NTree.node [("metadataProviders", NTree.node [("kodi", NTree.leaf (.str "x"))])])]))
     getAt r.accepted metaPath =
       some (NTree.node [("kodi", NTree.leaf (.str "x"))]) ∧
     getAt r.ignored metaPath = none) :=
  ⟨rfl, rfl, rfl, rfl, rfl,
   ((c3_metadata_unit ext0 st0
      [("metadata", NTree.node [("metadataProviders",
        NTree.node [("kodi", NTree.leaf (.str "x"))])])]
      [("metadataProviders", NTree.node [("kodi", NTree.leaf (.str "x"))])]
      rfl rfl).1 (NTree.node [("kodi", NTree.leaf (.str "x"))]) rfl rfl).1 st0 rfl⟩

/-- C3 counterexample to the literal second half: a body whose truthy
`metadata` mapping lacks the `metadataProviders` key is not processed
normally — the `pop` raises a KeyError, the whole request errors out, and
none of its leaves is dispatched. -/
theorem c3_metadata_cex :
    let r := httpPatch ext0 st0 (some "main")
      (some (.node [("metadata", .node [("kodi", .leaf (.str "x"))])]))
    r.outcome = .error ∧ r.state = st0 ∧ r.events = [] ∧
    flattenSeg r.accepted = [] ∧ flattenSeg r.ignored = [] :=
  ⟨rfl, rfl, rfl, rfl, rfl⟩
